import Mathlib

/-! MDP3 component operations: command generation.

A shallow embedding of `drivers/media/platform/mtk-mdp3/mtk-mdp3-comp.c`.

The component operations append register commands to a command packet.  The
packet is modelled as the list of entries in append order, every operation is a
pure function from the packet before the call to the packet after the call,
paired with the C return value.

The headers of the driver (`mtk-mdp3-comp.h`, `mdp_reg_*.h`, `mtk-img-ipi.h`)
are not part of the sources.  What the code takes from them is handled as
follows:

* registers are identified by the name the code uses (`mdp_reg`), or by the
  literal offset where the code writes a literal offset;
* the enumerators of `enum mtk_mdp_comp_id` are parameters (`mdp_comp_ids`);
* the command macros and the completion-queue indices follow the
  specification and are marked as such.

The mixer controls of `sound/soc/codecs/pablito-ctrl.c` (namespace
`PablitoCtrl`) and the command conversion of `drivers/misc/rockpi_mcu.c`
(namespace `RockpiMcu`) follow the definitions of the MDP3 operations.
-/

namespace Mdp3

/-! ## Machine integers -/

/-- The errno value `EINVAL`. -/
def EINVAL : Int := 22

/-- The C expression `a << n` on 32-bit `int` operands, as the 32-bit pattern of the
result.  C defines the result only while it fits an `int`; outside of that the
pattern is the product truncated to 32 bits. -/
def int_shl (a n : Nat) : Nat := (a <<< n) % 2 ^ 32

/-- Conversion of a 32-bit `int` pattern to `s64` (sign extension). -/
def s64_of_int (p : Nat) : Int :=
  if p % 2 ^ 32 < 2 ^ 31 then ((p % 2 ^ 32 : Nat) : Int) else ((p % 2 ^ 32 : Nat) : Int) - 2 ^ 32

/-! ## Constants of the missing headers -/

/-- The enumerators of `enum mtk_mdp_comp_id` that the component code names.  The
enumeration is declared in `mtk-mdp3-comp.h`, which is not among the sources, so the
values are parameters of the model. -/
structure mdp_comp_ids where
  MDP_COMP_WPEI : Nat
  MDP_COMP_WPEO : Nat
  MDP_COMP_WPEI2 : Nat
  MDP_COMP_WPEO2 : Nat
  MDP_COMP_ISP_IMGI : Nat
  MDP_COMP_ISP_IMGO : Nat
  MDP_COMP_ISP_IMG2O : Nat
  MDP_COMP_CAMIN : Nat
  MDP_COMP_CAMIN2 : Nat
  MDP_COMP_RDMA0 : Nat
  MDP_COMP_CCORR0 : Nat
  MDP_COMP_RSZ0 : Nat
  MDP_COMP_RSZ1 : Nat
  MDP_COMP_PATH0_SOUT : Nat
  MDP_COMP_PATH1_SOUT : Nat
  MDP_COMP_WROT0 : Nat
  MDP_COMP_WDMA : Nat
  MDP_MAX_COMP_COUNT : Nat

/-- The engine flag of a component is `1 << id` computed in `int`, so the enumeration
has to leave the sign bit free: at most 31 components, with the reader and the paired
resizer among them. -/
def mdp_comp_ids.flags_fit (K : mdp_comp_ids) : Prop :=
  K.MDP_COMP_RDMA0 < K.MDP_MAX_COMP_COUNT ∧ K.MDP_COMP_RSZ1 < K.MDP_MAX_COMP_COUNT ∧
    K.MDP_MAX_COMP_COUNT ≤ 31

instance (K : mdp_comp_ids) : Decidable K.flags_fit := by
  unfold mdp_comp_ids.flags_fit; infer_instance

/-- A concrete enumeration with room for 26 components, pairwise distinct values and
the components in the order in which `mdp_comp_matches` lists them. -/
def example_ids : mdp_comp_ids where
  MDP_COMP_WPEI := 0
  MDP_COMP_WPEO := 1
  MDP_COMP_WPEI2 := 2
  MDP_COMP_WPEO2 := 3
  MDP_COMP_ISP_IMGI := 4
  MDP_COMP_ISP_IMGO := 5
  MDP_COMP_ISP_IMG2O := 6
  MDP_COMP_CAMIN := 9
  MDP_COMP_CAMIN2 := 10
  MDP_COMP_RDMA0 := 11
  MDP_COMP_CCORR0 := 13
  MDP_COMP_RSZ0 := 14
  MDP_COMP_RSZ1 := 15
  MDP_COMP_PATH0_SOUT := 18
  MDP_COMP_PATH1_SOUT := 19
  MDP_COMP_WROT0 := 20
  MDP_COMP_WDMA := 21
  MDP_MAX_COMP_COUNT := 26

/-! ## Data model -/

/-- The capability flags of `struct mdp_platform_config` that the operations read. -/
structure mdp_platform_config where
  rdma_support_10bit : Bool := false
  rdma_rsz1_sram_sharing : Bool := false
  rdma_upsample_repeat_only : Bool := false
  rsz_disable_dcm_small_sample : Bool := false
  wrot_filter_constraint : Bool := false
  deriving DecidableEq, Repr

/-- The fields of `struct mdp_comp` that the operations read.  `id` is the enumerator
stored by `mdp_comp_init`, which refuses negative values. -/
structure mdp_comp where
  type : Nat := 0
  id : Nat := 0
  alias_id : Nat := 0
  reg_base : Nat := 0
  subsys_id : Nat := 0
  deriving DecidableEq, Repr

/-- The part of `struct mdp_dev` reached through `comp->mdp_dev`: the platform
configuration `mdp_data->mdp_cfg` (a pointer that may be null) and the registry
`comp[]` of created components. -/
structure mdp_dev where
  mdp_cfg : Option mdp_platform_config := none
  comp : List (Option mdp_comp) := []
  deriving DecidableEq, Repr

/-- Frame flags of the job (`param->frame`). -/
structure img_comp_frame where
  bypass : Bool := false
  deriving DecidableEq, Repr

/-- Per-subframe resizer parameters (`param->rsz.subfrms[index]`). -/
structure mdp_rsz_subfrm where
  control2 : Nat := 0
  src : Nat := 0
  clip : Nat := 0
  deriving DecidableEq, Repr

/-- Resizer parameters (`param->rsz`). -/
structure mdp_rsz_data where
  control1 : Nat := 0
  control2 : Nat := 0
  coeff_step_x : Nat := 0
  coeff_step_y : Nat := 0
  subfrms : Nat → mdp_rsz_subfrm := fun _ => {}

/-- Per-subframe writer and rotator parameters (`param->wrot.subfrms[index]`). -/
structure mdp_wrot_subfrm where
  offset : Nat → Nat := fun _ => 0
  src : Nat := 0
  clip : Nat := 0
  clip_ofst : Nat := 0
  main_buf : Nat := 0

/-- Writer and rotator parameters (`param->wrot`). -/
structure mdp_wrot_data where
  iova : Nat → Nat := fun _ => 0
  control : Nat := 0
  stride : Nat → Nat := fun _ => 0
  mat_ctrl : Nat := 0
  fifo_test : Nat := 0
  filter : Nat := 0
  subfrms : Nat → mdp_wrot_subfrm := fun _ => {}

/-- Per-subframe reader parameters (`param->rdma.subfrms[index]`). -/
structure mdp_rdma_subfrm where
  offset : Nat → Nat := fun _ => 0
  offset_0_p : Nat := 0
  src : Nat := 0
  clip : Nat := 0
  clip_ofst : Nat := 0

/-- Reader parameters (`param->rdma`). -/
structure mdp_rdma_data where
  src_ctrl : Nat := 0
  control : Nat := 0
  iova : Nat → Nat := fun _ => 0
  iova_end : Nat → Nat := fun _ => 0
  mf_bkgd : Nat := 0
  mf_bkgd_in_pxl : Nat := 0
  sf_bkgd : Nat := 0
  ufo_dec_y : Nat := 0
  ufo_dec_c : Nat := 0
  transform : Nat := 0
  subfrms : Nat → mdp_rdma_subfrm := fun _ => {}

/-- Per-subframe DMA writer parameters (`param->wdma.subfrms[index]`). -/
structure mdp_wdma_subfrm where
  offset : Nat → Nat := fun _ => 0
  src : Nat := 0
  clip : Nat := 0
  clip_ofst : Nat := 0

/-- DMA writer parameters (`param->wdma`). -/
structure mdp_wdma_data where
  wdma_cfg : Nat := 0
  iova : Nat → Nat := fun _ => 0
  w_in_byte : Nat := 0
  uv_stride : Nat := 0
  subfrms : Nat → mdp_wdma_subfrm := fun _ => {}

/-- A rectangle of a subframe by its edges (`struct img_region`).  The edges are signed
fields of the missing header `mtk-img-ipi.h`; differences of edges are computed without
wrap-around. -/
structure img_region where
  left : Int := 0
  right : Int := 0
  top : Int := 0
  bottom : Int := 0
  deriving DecidableEq, Repr

/-- Pixel offsets of a subframe (`struct img_offset`). -/
structure img_offset where
  left : Nat := 0
  top : Nat := 0
  left_subpix : Nat := 0
  top_subpix : Nat := 0
  deriving DecidableEq, Repr

/-- Geometry of one subframe (`param->subfrms[index]`). -/
structure img_comp_subfrm where
  «in» : img_region := {}
  out : img_region := {}
  luma : img_offset := {}
  chroma : img_offset := {}
  deriving DecidableEq, Repr

/-- The pixel format of a buffer (`buffer.format`). -/
structure img_image_format where
  colorformat : Nat := 0
  deriving DecidableEq, Repr

/-- An image buffer of the job (`input->buffer`). -/
structure img_image_buffer where
  format : img_image_format := {}
  deriving DecidableEq, Repr

/-- The input of the job that a context points to (`ctx->input`). -/
structure img_input where
  buffer : img_image_buffer := {}
  deriving DecidableEq, Repr

/-- ISP hand-off parameters (`param->isp`). -/
structure isp_data where
  dl_flags : Nat := 0
  smxi_iova : Nat → Nat := fun _ => 0
  cq_idx : Nat := 0
  cq_iova : Nat := 0
  tpipe_iova : Nat → Nat := fun _ => 0

/-- The per-component parameter block `struct img_compparam`. -/
structure img_compparam where
  frame : img_comp_frame := {}
  rsz : mdp_rsz_data := {}
  wrot : mdp_wrot_data := {}
  isp : isp_data := {}
  rdma : mdp_rdma_data := {}
  wdma : mdp_wdma_data := {}
  subfrms : Nat → img_comp_subfrm := fun _ => {}
  type : Int := 0
  input : Nat := 0
  outputs : Nat → Nat := fun _ => 0
  num_outputs : Nat := 0

/-- The compose rectangle handed to `config_frame`. -/
structure v4l2_rect where
  left : Int := 0
  top : Int := 0
  width : Nat := 0
  height : Nat := 0
  deriving DecidableEq, Repr

/-- The block context `struct mdp_comp_ctx`: the component, the device the component
points back to, the parameter block of the job and the input of the job. -/
structure mdp_comp_ctx where
  comp : mdp_comp := {}
  mdp_dev : mdp_dev := {}
  param : img_compparam := {}
  input : img_input := {}

/-! ## Command packet -/

/-- Register of a command: the name under which the code addresses it, or the literal
offset where the code gives one. -/
inductive mdp_reg where
  | PRZ_ENABLE | PRZ_CONTROL_1 | PRZ_CONTROL_2
  | PRZ_HORIZONTAL_COEFF_STEP | PRZ_VERTICAL_COEFF_STEP
  | VIDO_BASE_ADDR | VIDO_BASE_ADDR_C | VIDO_BASE_ADDR_V | VIDO_CTRL
  | VIDO_STRIDE | VIDO_STRIDE_C | VIDO_STRIDE_V | VIDO_MAT_CTRL
  | VIDO_DITHER | VIDO_RSV_1 | VIDO_FIFO_TEST | VIDO_MAIN_BUF_SIZE
  | ofs (offset : Nat)
  | MDP_RDMA_RESET | MDP_RDMA_MON_STA_1 | MDP_RDMA_RESV_DUMMY_0 | MDP_RDMA_GMCIF_CON
  | MDP_RDMA_SRC_CON | MDP_RDMA_UFO_DEC_LENGTH_BASE_Y | MDP_RDMA_UFO_DEC_LENGTH_BASE_C
  | MDP_RDMA_MF_BKGD_SIZE_IN_PXL | MDP_RDMA_CON
  | MDP_RDMA_SRC_BASE_0 | MDP_RDMA_SRC_BASE_1 | MDP_RDMA_SRC_BASE_2
  | MDP_RDMA_SRC_END_0 | MDP_RDMA_SRC_END_1 | MDP_RDMA_SRC_END_2
  | MDP_RDMA_MF_BKGD_SIZE_IN_BYTE | MDP_RDMA_SF_BKGD_SIZE_IN_BYTE | MDP_RDMA_TRANSFORM_0
  | MDP_RDMA_EN | MDP_RDMA_SRC_OFFSET_0 | MDP_RDMA_SRC_OFFSET_0_P
  | MDP_RDMA_SRC_OFFSET_1 | MDP_RDMA_SRC_OFFSET_2
  | MDP_RDMA_MF_SRC_SIZE | MDP_RDMA_MF_CLIP_SIZE | MDP_RDMA_MF_OFFSET_1
  | PRZ_INPUT_IMAGE | PRZ_OUTPUT_IMAGE
  | PRZ_LUMA_HORIZONTAL_INTEGER_OFFSET | PRZ_LUMA_HORIZONTAL_SUBPIXEL_OFFSET
  | PRZ_LUMA_VERTICAL_INTEGER_OFFSET | PRZ_LUMA_VERTICAL_SUBPIXEL_OFFSET
  | PRZ_CHROMA_HORIZONTAL_INTEGER_OFFSET | PRZ_CHROMA_HORIZONTAL_SUBPIXEL_OFFSET
  | VIDO_SOFT_RST | VIDO_SOFT_RST_STAT
  | VIDO_OFST_ADDR | VIDO_OFST_ADDR_C | VIDO_OFST_ADDR_V
  | VIDO_IN_SIZE | VIDO_TAR_SIZE | VIDO_CROP_OFST | VIDO_ROT_EN
  | WDMA_RST | WDMA_FLOW_CTRL_DBG | WDMA_BUF_CON2 | WDMA_CFG
  | WDMA_DST_ADDR | WDMA_DST_U_ADDR | WDMA_DST_V_ADDR
  | WDMA_DST_W_IN_BYTE | WDMA_DST_UV_PITCH | WDMA_ALPHA
  | WDMA_DST_ADDR_OFFSET | WDMA_DST_U_ADDR_OFFSET | WDMA_DST_V_ADDR_OFFSET
  | WDMA_SRC_SIZE | WDMA_CLIP_SIZE | WDMA_CLIP_COORD | WDMA_EN
  | MDP_CCORR_EN | MDP_CCORR_CFG | MDP_CCORR_SIZE
  deriving Repr

/-- The named registers in the order of their declaration. -/
def mdp_reg.named : List mdp_reg :=
  [mdp_reg.PRZ_ENABLE, mdp_reg.PRZ_CONTROL_1, mdp_reg.PRZ_CONTROL_2,
   mdp_reg.PRZ_HORIZONTAL_COEFF_STEP, mdp_reg.PRZ_VERTICAL_COEFF_STEP, mdp_reg.VIDO_BASE_ADDR,
   mdp_reg.VIDO_BASE_ADDR_C, mdp_reg.VIDO_BASE_ADDR_V, mdp_reg.VIDO_CTRL, mdp_reg.VIDO_STRIDE,
   mdp_reg.VIDO_STRIDE_C, mdp_reg.VIDO_STRIDE_V, mdp_reg.VIDO_MAT_CTRL, mdp_reg.VIDO_DITHER,
   mdp_reg.VIDO_RSV_1, mdp_reg.VIDO_FIFO_TEST, mdp_reg.VIDO_MAIN_BUF_SIZE,
   mdp_reg.MDP_RDMA_RESET, mdp_reg.MDP_RDMA_MON_STA_1, mdp_reg.MDP_RDMA_RESV_DUMMY_0,
   mdp_reg.MDP_RDMA_GMCIF_CON, mdp_reg.MDP_RDMA_SRC_CON, mdp_reg.MDP_RDMA_UFO_DEC_LENGTH_BASE_Y,
   mdp_reg.MDP_RDMA_UFO_DEC_LENGTH_BASE_C, mdp_reg.MDP_RDMA_MF_BKGD_SIZE_IN_PXL,
   mdp_reg.MDP_RDMA_CON, mdp_reg.MDP_RDMA_SRC_BASE_0, mdp_reg.MDP_RDMA_SRC_BASE_1,
   mdp_reg.MDP_RDMA_SRC_BASE_2, mdp_reg.MDP_RDMA_SRC_END_0, mdp_reg.MDP_RDMA_SRC_END_1,
   mdp_reg.MDP_RDMA_SRC_END_2, mdp_reg.MDP_RDMA_MF_BKGD_SIZE_IN_BYTE,
   mdp_reg.MDP_RDMA_SF_BKGD_SIZE_IN_BYTE, mdp_reg.MDP_RDMA_TRANSFORM_0, mdp_reg.MDP_RDMA_EN,
   mdp_reg.MDP_RDMA_SRC_OFFSET_0, mdp_reg.MDP_RDMA_SRC_OFFSET_0_P, mdp_reg.MDP_RDMA_SRC_OFFSET_1,
   mdp_reg.MDP_RDMA_SRC_OFFSET_2, mdp_reg.MDP_RDMA_MF_SRC_SIZE, mdp_reg.MDP_RDMA_MF_CLIP_SIZE,
   mdp_reg.MDP_RDMA_MF_OFFSET_1, mdp_reg.PRZ_INPUT_IMAGE, mdp_reg.PRZ_OUTPUT_IMAGE,
   mdp_reg.PRZ_LUMA_HORIZONTAL_INTEGER_OFFSET, mdp_reg.PRZ_LUMA_HORIZONTAL_SUBPIXEL_OFFSET,
   mdp_reg.PRZ_LUMA_VERTICAL_INTEGER_OFFSET, mdp_reg.PRZ_LUMA_VERTICAL_SUBPIXEL_OFFSET,
   mdp_reg.PRZ_CHROMA_HORIZONTAL_INTEGER_OFFSET, mdp_reg.PRZ_CHROMA_HORIZONTAL_SUBPIXEL_OFFSET,
   mdp_reg.VIDO_SOFT_RST, mdp_reg.VIDO_SOFT_RST_STAT, mdp_reg.VIDO_OFST_ADDR,
   mdp_reg.VIDO_OFST_ADDR_C, mdp_reg.VIDO_OFST_ADDR_V, mdp_reg.VIDO_IN_SIZE,
   mdp_reg.VIDO_TAR_SIZE, mdp_reg.VIDO_CROP_OFST, mdp_reg.VIDO_ROT_EN, mdp_reg.WDMA_RST,
   mdp_reg.WDMA_FLOW_CTRL_DBG, mdp_reg.WDMA_BUF_CON2, mdp_reg.WDMA_CFG, mdp_reg.WDMA_DST_ADDR,
   mdp_reg.WDMA_DST_U_ADDR, mdp_reg.WDMA_DST_V_ADDR, mdp_reg.WDMA_DST_W_IN_BYTE,
   mdp_reg.WDMA_DST_UV_PITCH, mdp_reg.WDMA_ALPHA, mdp_reg.WDMA_DST_ADDR_OFFSET,
   mdp_reg.WDMA_DST_U_ADDR_OFFSET, mdp_reg.WDMA_DST_V_ADDR_OFFSET, mdp_reg.WDMA_SRC_SIZE,
   mdp_reg.WDMA_CLIP_SIZE, mdp_reg.WDMA_CLIP_COORD, mdp_reg.WDMA_EN, mdp_reg.MDP_CCORR_EN,
   mdp_reg.MDP_CCORR_CFG, mdp_reg.MDP_CCORR_SIZE]

/-- A number for every register: the position of a named register in `mdp_reg.named`,
and the literal offset placed after the named registers. -/
def mdp_reg.code : mdp_reg → Nat
  | mdp_reg.PRZ_ENABLE => 0
  | mdp_reg.PRZ_CONTROL_1 => 1
  | mdp_reg.PRZ_CONTROL_2 => 2
  | mdp_reg.PRZ_HORIZONTAL_COEFF_STEP => 3
  | mdp_reg.PRZ_VERTICAL_COEFF_STEP => 4
  | mdp_reg.VIDO_BASE_ADDR => 5
  | mdp_reg.VIDO_BASE_ADDR_C => 6
  | mdp_reg.VIDO_BASE_ADDR_V => 7
  | mdp_reg.VIDO_CTRL => 8
  | mdp_reg.VIDO_STRIDE => 9
  | mdp_reg.VIDO_STRIDE_C => 10
  | mdp_reg.VIDO_STRIDE_V => 11
  | mdp_reg.VIDO_MAT_CTRL => 12
  | mdp_reg.VIDO_DITHER => 13
  | mdp_reg.VIDO_RSV_1 => 14
  | mdp_reg.VIDO_FIFO_TEST => 15
  | mdp_reg.VIDO_MAIN_BUF_SIZE => 16
  | mdp_reg.MDP_RDMA_RESET => 17
  | mdp_reg.MDP_RDMA_MON_STA_1 => 18
  | mdp_reg.MDP_RDMA_RESV_DUMMY_0 => 19
  | mdp_reg.MDP_RDMA_GMCIF_CON => 20
  | mdp_reg.MDP_RDMA_SRC_CON => 21
  | mdp_reg.MDP_RDMA_UFO_DEC_LENGTH_BASE_Y => 22
  | mdp_reg.MDP_RDMA_UFO_DEC_LENGTH_BASE_C => 23
  | mdp_reg.MDP_RDMA_MF_BKGD_SIZE_IN_PXL => 24
  | mdp_reg.MDP_RDMA_CON => 25
  | mdp_reg.MDP_RDMA_SRC_BASE_0 => 26
  | mdp_reg.MDP_RDMA_SRC_BASE_1 => 27
  | mdp_reg.MDP_RDMA_SRC_BASE_2 => 28
  | mdp_reg.MDP_RDMA_SRC_END_0 => 29
  | mdp_reg.MDP_RDMA_SRC_END_1 => 30
  | mdp_reg.MDP_RDMA_SRC_END_2 => 31
  | mdp_reg.MDP_RDMA_MF_BKGD_SIZE_IN_BYTE => 32
  | mdp_reg.MDP_RDMA_SF_BKGD_SIZE_IN_BYTE => 33
  | mdp_reg.MDP_RDMA_TRANSFORM_0 => 34
  | mdp_reg.MDP_RDMA_EN => 35
  | mdp_reg.MDP_RDMA_SRC_OFFSET_0 => 36
  | mdp_reg.MDP_RDMA_SRC_OFFSET_0_P => 37
  | mdp_reg.MDP_RDMA_SRC_OFFSET_1 => 38
  | mdp_reg.MDP_RDMA_SRC_OFFSET_2 => 39
  | mdp_reg.MDP_RDMA_MF_SRC_SIZE => 40
  | mdp_reg.MDP_RDMA_MF_CLIP_SIZE => 41
  | mdp_reg.MDP_RDMA_MF_OFFSET_1 => 42
  | mdp_reg.PRZ_INPUT_IMAGE => 43
  | mdp_reg.PRZ_OUTPUT_IMAGE => 44
  | mdp_reg.PRZ_LUMA_HORIZONTAL_INTEGER_OFFSET => 45
  | mdp_reg.PRZ_LUMA_HORIZONTAL_SUBPIXEL_OFFSET => 46
  | mdp_reg.PRZ_LUMA_VERTICAL_INTEGER_OFFSET => 47
  | mdp_reg.PRZ_LUMA_VERTICAL_SUBPIXEL_OFFSET => 48
  | mdp_reg.PRZ_CHROMA_HORIZONTAL_INTEGER_OFFSET => 49
  | mdp_reg.PRZ_CHROMA_HORIZONTAL_SUBPIXEL_OFFSET => 50
  | mdp_reg.VIDO_SOFT_RST => 51
  | mdp_reg.VIDO_SOFT_RST_STAT => 52
  | mdp_reg.VIDO_OFST_ADDR => 53
  | mdp_reg.VIDO_OFST_ADDR_C => 54
  | mdp_reg.VIDO_OFST_ADDR_V => 55
  | mdp_reg.VIDO_IN_SIZE => 56
  | mdp_reg.VIDO_TAR_SIZE => 57
  | mdp_reg.VIDO_CROP_OFST => 58
  | mdp_reg.VIDO_ROT_EN => 59
  | mdp_reg.WDMA_RST => 60
  | mdp_reg.WDMA_FLOW_CTRL_DBG => 61
  | mdp_reg.WDMA_BUF_CON2 => 62
  | mdp_reg.WDMA_CFG => 63
  | mdp_reg.WDMA_DST_ADDR => 64
  | mdp_reg.WDMA_DST_U_ADDR => 65
  | mdp_reg.WDMA_DST_V_ADDR => 66
  | mdp_reg.WDMA_DST_W_IN_BYTE => 67
  | mdp_reg.WDMA_DST_UV_PITCH => 68
  | mdp_reg.WDMA_ALPHA => 69
  | mdp_reg.WDMA_DST_ADDR_OFFSET => 70
  | mdp_reg.WDMA_DST_U_ADDR_OFFSET => 71
  | mdp_reg.WDMA_DST_V_ADDR_OFFSET => 72
  | mdp_reg.WDMA_SRC_SIZE => 73
  | mdp_reg.WDMA_CLIP_SIZE => 74
  | mdp_reg.WDMA_CLIP_COORD => 75
  | mdp_reg.WDMA_EN => 76
  | mdp_reg.MDP_CCORR_EN => 77
  | mdp_reg.MDP_CCORR_CFG => 78
  | mdp_reg.MDP_CCORR_SIZE => 79
  | mdp_reg.ofs offset => 80 + offset

/-- The register of a number, the inverse of `mdp_reg.code`. -/
def mdp_reg.decode (k : Nat) : mdp_reg :=
  if k < 80 then mdp_reg.named.getD k mdp_reg.PRZ_ENABLE else mdp_reg.ofs (k - 80)

instance : DecidableEq mdp_reg := fun a b =>
  have back : ∀ r : mdp_reg, mdp_reg.decode (mdp_reg.code r) = r := fun r => by
    cases r <;> first | rfl | simp [mdp_reg.code, mdp_reg.decode]
  decidable_of_iff (mdp_reg.code a = mdp_reg.code b)
    ⟨fun h => by rw [← back a, ← back b, h], fun h => by rw [h]⟩

/-- Completion events of the command queue named by the code. -/
inductive mdp_event where
  | RDMA0_DONE | WROT0_DONE | WDMA0_DONE
  | ISP_P2_0_DONE | ISP_P2_1_DONE | ISP_P2_2_DONE | ISP_P2_3_DONE
  | ISP_P2_4_DONE | ISP_P2_5_DONE | ISP_P2_6_DONE | ISP_P2_7_DONE
  | ISP_P2_8_DONE | ISP_P2_9_DONE | ISP_P2_10_DONE | ISP_P2_11_DONE
  deriving DecidableEq, Repr

/-- One entry of the command packet. -/
inductive cmdq_entry where
  | write (subsys_id base : Nat) (reg : mdp_reg) (value mask : Nat)
  | poll (subsys_id base : Nat) (reg : mdp_reg) (value mask : Nat)
  | wfe (event : mdp_event)
  deriving DecidableEq, Repr

/-- The command builder `struct mmsys_cmdq_cmd`: the packet as the list of its entries
in append order. -/
structure mmsys_cmdq_cmd where
  pkt : List cmdq_entry := []
  deriving DecidableEq, Repr

/-- Modelled from the spec: the macro `MM_REG_WRITE_MASK` of the missing header
`mtk-mdp3-comp.h`.  It appends one masked-write entry
`(sub_bus_id, base_address, register_offset, value, write_mask)` to the packet. -/
def MM_REG_WRITE_MASK (cmd : mmsys_cmdq_cmd) (subsys_id base : Nat) (reg : mdp_reg)
    (value mask : Nat) : mmsys_cmdq_cmd :=
  { cmd with pkt := cmd.pkt ++ [cmdq_entry.write subsys_id base reg value mask] }

/-- Modelled from the spec: the macro `MM_REG_WRITE` of the missing header
`mtk-mdp3-comp.h`.  It appends one masked-write entry to the packet. -/
def MM_REG_WRITE (cmd : mmsys_cmdq_cmd) (subsys_id base : Nat) (reg : mdp_reg)
    (value mask : Nat) : mmsys_cmdq_cmd :=
  MM_REG_WRITE_MASK cmd subsys_id base reg value mask

/-- Modelled from the spec: the macro `MM_REG_POLL` of the missing header
`mtk-mdp3-comp.h`.  It appends one poll-until-match entry to the packet. -/
def MM_REG_POLL (cmd : mmsys_cmdq_cmd) (subsys_id base : Nat) (reg : mdp_reg)
    (value mask : Nat) : mmsys_cmdq_cmd :=
  { cmd with pkt := cmd.pkt ++ [cmdq_entry.poll subsys_id base reg value mask] }

/-- Modelled from the spec: the macro `MM_REG_WAIT` of the missing header
`mtk-mdp3-comp.h`.  It appends one wait-for-event entry to the packet. -/
def MM_REG_WAIT (cmd : mmsys_cmdq_cmd) (event : mdp_event) : mmsys_cmdq_cmd :=
  { cmd with pkt := cmd.pkt ++ [cmdq_entry.wfe event] }

/-- The entries that a call appended: what the packet after the call holds beyond the
length of the packet before the call. -/
def appended (before after : mmsys_cmdq_cmd) : List cmdq_entry :=
  after.pkt.drop before.pkt.length

/-! ## Engine flag -/

/-- Source: `__get_plat_cfg`.  A null context has no configuration, otherwise the
configuration is the one of the device of the component. -/
def __get_plat_cfg (ctx : Option mdp_comp_ctx) : Option mdp_platform_config :=
  match ctx with
  | none => none
  | some c => c.mdp_dev.mdp_cfg

/-- Source: `get_comp_flag`. -/
def get_comp_flag (K : mdp_comp_ids) (ctx : mdp_comp_ctx) : Int :=
  let mdp_cfg := __get_plat_cfg (some ctx)
  if (match mdp_cfg with
      | none => false
      | some cfg => cfg.rdma_rsz1_sram_sharing) then
    if ctx.comp.id = K.MDP_COMP_RDMA0 then
      s64_of_int (int_shl 1 K.MDP_COMP_RDMA0 ||| int_shl 1 K.MDP_COMP_RSZ1)
    else
      s64_of_int (int_shl 1 ctx.comp.id)
  else
    s64_of_int (int_shl 1 ctx.comp.id)

/-! ## Completion-queue threads of the ISP hand-off -/

/-- Modelled from the spec: the completion-queue thread indices
`ISP_DRV_DIP_CQ_THRE0 .. ISP_DRV_DIP_CQ_THRE11` of the missing header.  The
specification numbers the twelve threads by index, index 0 being queue 0 and index 12
being out of range. -/
def ISP_DRV_DIP_CQ_THRE0 : Nat := 0

/-- Modelled from the spec: completion-queue thread 1 (see `ISP_DRV_DIP_CQ_THRE0`). -/
def ISP_DRV_DIP_CQ_THRE1 : Nat := 1

/-- Modelled from the spec: completion-queue thread 2 (see `ISP_DRV_DIP_CQ_THRE0`). -/
def ISP_DRV_DIP_CQ_THRE2 : Nat := 2

/-- Modelled from the spec: completion-queue thread 3 (see `ISP_DRV_DIP_CQ_THRE0`). -/
def ISP_DRV_DIP_CQ_THRE3 : Nat := 3

/-- Modelled from the spec: completion-queue thread 4 (see `ISP_DRV_DIP_CQ_THRE0`). -/
def ISP_DRV_DIP_CQ_THRE4 : Nat := 4

/-- Modelled from the spec: completion-queue thread 5 (see `ISP_DRV_DIP_CQ_THRE0`). -/
def ISP_DRV_DIP_CQ_THRE5 : Nat := 5

/-- Modelled from the spec: completion-queue thread 6 (see `ISP_DRV_DIP_CQ_THRE0`). -/
def ISP_DRV_DIP_CQ_THRE6 : Nat := 6

/-- Modelled from the spec: completion-queue thread 7 (see `ISP_DRV_DIP_CQ_THRE0`). -/
def ISP_DRV_DIP_CQ_THRE7 : Nat := 7

/-- Modelled from the spec: completion-queue thread 8 (see `ISP_DRV_DIP_CQ_THRE0`). -/
def ISP_DRV_DIP_CQ_THRE8 : Nat := 8

/-- Modelled from the spec: completion-queue thread 9 (see `ISP_DRV_DIP_CQ_THRE0`). -/
def ISP_DRV_DIP_CQ_THRE9 : Nat := 9

/-- Modelled from the spec: completion-queue thread 10 (see `ISP_DRV_DIP_CQ_THRE0`). -/
def ISP_DRV_DIP_CQ_THRE10 : Nat := 10

/-- Modelled from the spec: completion-queue thread 11 (see `ISP_DRV_DIP_CQ_THRE0`). -/
def ISP_DRV_DIP_CQ_THRE11 : Nat := 11

/-- The twelve completion-queue thread indices. -/
def isp_cq_threads : List Nat :=
  [ISP_DRV_DIP_CQ_THRE0, ISP_DRV_DIP_CQ_THRE1, ISP_DRV_DIP_CQ_THRE2, ISP_DRV_DIP_CQ_THRE3,
   ISP_DRV_DIP_CQ_THRE4, ISP_DRV_DIP_CQ_THRE5, ISP_DRV_DIP_CQ_THRE6, ISP_DRV_DIP_CQ_THRE7,
   ISP_DRV_DIP_CQ_THRE8, ISP_DRV_DIP_CQ_THRE9, ISP_DRV_DIP_CQ_THRE10, ISP_DRV_DIP_CQ_THRE11]

/-- The completion event named after thread `k`, `ISP_P2_k_DONE`. -/
def isp_p2_done (k : Nat) : Option mdp_event :=
  match k with
  | 0 => some mdp_event.ISP_P2_0_DONE
  | 1 => some mdp_event.ISP_P2_1_DONE
  | 2 => some mdp_event.ISP_P2_2_DONE
  | 3 => some mdp_event.ISP_P2_3_DONE
  | 4 => some mdp_event.ISP_P2_4_DONE
  | 5 => some mdp_event.ISP_P2_5_DONE
  | 6 => some mdp_event.ISP_P2_6_DONE
  | 7 => some mdp_event.ISP_P2_7_DONE
  | 8 => some mdp_event.ISP_P2_8_DONE
  | 9 => some mdp_event.ISP_P2_9_DONE
  | 10 => some mdp_event.ISP_P2_10_DONE
  | 11 => some mdp_event.ISP_P2_11_DONE
  | _ => none

/-! ## Predicates on entries -/

/-- The entry is a masked write to register `r`. -/
def cmdq_entry.writes_reg (r : mdp_reg) : cmdq_entry → Bool
  | cmdq_entry.write _ _ reg _ _ => decide (reg = r)
  | _ => false

/-- The entry is a wait for an event. -/
def cmdq_entry.is_wfe : cmdq_entry → Bool
  | cmdq_entry.wfe _ => true
  | _ => false

/-! ## Scaler -/

/-- Source: `config_rsz_frame`. -/
def config_rsz_frame (ctx : mdp_comp_ctx) (cmd : mmsys_cmdq_cmd) (_compose : v4l2_rect) :
    mmsys_cmdq_cmd × Int :=
  let rsz := ctx.param.rsz
  let base := ctx.comp.reg_base
  let subsys_id := ctx.comp.subsys_id
  if ctx.param.frame.bypass then
    -- Disable RSZ
    let cmd := MM_REG_WRITE cmd subsys_id base mdp_reg.PRZ_ENABLE 0x00000000 0x00000001
    (cmd, 0)
  else
    let cmd := MM_REG_WRITE cmd subsys_id base mdp_reg.PRZ_CONTROL_1 rsz.control1 0x03FFFDF3
    let cmd := MM_REG_WRITE cmd subsys_id base mdp_reg.PRZ_CONTROL_2 rsz.control2 0x0FFFC290
    let cmd := MM_REG_WRITE cmd subsys_id base mdp_reg.PRZ_HORIZONTAL_COEFF_STEP
      rsz.coeff_step_x 0x007FFFFF
    let cmd := MM_REG_WRITE cmd subsys_id base mdp_reg.PRZ_VERTICAL_COEFF_STEP
      rsz.coeff_step_y 0x007FFFFF
    (cmd, 0)

/-! ## Color corrector -/

/-- Source: `config_ccorr_frame` (a disabled function). -/
def config_ccorr_frame (_ctx : mdp_comp_ctx) (cmd : mmsys_cmdq_cmd) (_compose : v4l2_rect) :
    mmsys_cmdq_cmd × Int :=
  (cmd, 0)

/-! ## Writer and rotator -/

/-- Source: `config_wrot_frame`. -/
def config_wrot_frame (ctx : mdp_comp_ctx) (cmd : mmsys_cmdq_cmd) (_compose : v4l2_rect) :
    mmsys_cmdq_cmd × Int :=
  let wrot := ctx.param.wrot
  let mdp_cfg := __get_plat_cfg (some ctx)
  let base := ctx.comp.reg_base
  let subsys_id := ctx.comp.subsys_id
  -- Write frame base address
  let cmd := MM_REG_WRITE cmd subsys_id base mdp_reg.VIDO_BASE_ADDR (wrot.iova 0) 0xFFFFFFFF
  let cmd := MM_REG_WRITE cmd subsys_id base mdp_reg.VIDO_BASE_ADDR_C (wrot.iova 1) 0xFFFFFFFF
  let cmd := MM_REG_WRITE cmd subsys_id base mdp_reg.VIDO_BASE_ADDR_V (wrot.iova 2) 0xFFFFFFFF
  -- Write frame related registers
  let cmd := MM_REG_WRITE cmd subsys_id base mdp_reg.VIDO_CTRL wrot.control 0xF131510F
  -- Write frame Y pitch
  let cmd := MM_REG_WRITE cmd subsys_id base mdp_reg.VIDO_STRIDE (wrot.stride 0) 0x0000FFFF
  -- Write frame UV pitch
  let cmd := MM_REG_WRITE cmd subsys_id base mdp_reg.VIDO_STRIDE_C (wrot.stride 1) 0x0000FFFF
  let cmd := MM_REG_WRITE cmd subsys_id base mdp_reg.VIDO_STRIDE_V (wrot.stride 2) 0x0000FFFF
  -- Write matrix control
  let cmd := MM_REG_WRITE cmd subsys_id base mdp_reg.VIDO_MAT_CTRL wrot.mat_ctrl 0x000000F3
  -- Set the fixed ALPHA as 0xFF
  let cmd := MM_REG_WRITE cmd subsys_id base mdp_reg.VIDO_DITHER 0xFF000000 0xFF000000
  -- Set VIDO_EOL_SEL
  let cmd := MM_REG_WRITE cmd subsys_id base mdp_reg.VIDO_RSV_1 0x80000000 0x80000000
  -- Set VIDO_FIFO_TEST
  let cmd :=
    if wrot.fifo_test ≠ 0 then
      MM_REG_WRITE cmd subsys_id base mdp_reg.VIDO_FIFO_TEST wrot.fifo_test 0x00000FFF
    else cmd
  -- Filter enable
  let cmd :=
    if (match mdp_cfg with
        | none => false
        | some cfg => cfg.wrot_filter_constraint) then
      MM_REG_WRITE cmd subsys_id base mdp_reg.VIDO_MAIN_BUF_SIZE wrot.filter 0x00000077
    else cmd
  (cmd, 0)

/-! ## ISP hand-off -/

/-- Source: `config_isp_frame`. -/
def config_isp_frame (ctx : mdp_comp_ctx) (cmd : mmsys_cmdq_cmd) (_compose : v4l2_rect) :
    mmsys_cmdq_cmd × Int :=
  let isp := ctx.param.isp
  let base := ctx.comp.reg_base
  let subsys_id := ctx.comp.subsys_id
  -- DIP_X_SMX1I_BASE_ADDR, DIP_X_SMX1O_BASE_ADDR
  let cmd := MM_REG_WRITE_MASK cmd subsys_id base (mdp_reg.ofs 0x2890)
    (isp.smxi_iova 0) 0xFFFFFFFF
  let cmd := MM_REG_WRITE_MASK cmd subsys_id base (mdp_reg.ofs 0x27D0)
    (isp.smxi_iova 0) 0xFFFFFFFF
  -- DIP_X_SMX2I_BASE_ADDR, DIP_X_SMX2O_BASE_ADDR
  let cmd := MM_REG_WRITE_MASK cmd subsys_id base (mdp_reg.ofs 0x28C0)
    (isp.smxi_iova 1) 0xFFFFFFFF
  let cmd := MM_REG_WRITE_MASK cmd subsys_id base (mdp_reg.ofs 0x2800)
    (isp.smxi_iova 1) 0xFFFFFFFF
  -- DIP_X_SMX3I_BASE_ADDR, DIP_X_SMX3O_BASE_ADDR
  let cmd := MM_REG_WRITE_MASK cmd subsys_id base (mdp_reg.ofs 0x28F0)
    (isp.smxi_iova 2) 0xFFFFFFFF
  let cmd := MM_REG_WRITE_MASK cmd subsys_id base (mdp_reg.ofs 0x2830)
    (isp.smxi_iova 2) 0xFFFFFFFF
  -- DIP_X_SMX4I_BASE_ADDR, DIP_X_SMX4O_BASE_ADDR
  let cmd := MM_REG_WRITE_MASK cmd subsys_id base (mdp_reg.ofs 0x2920)
    (isp.smxi_iova 3) 0xFFFFFFFF
  let cmd := MM_REG_WRITE_MASK cmd subsys_id base (mdp_reg.ofs 0x2860)
    (isp.smxi_iova 3) 0xFFFFFFFF
  if isp.cq_idx = ISP_DRV_DIP_CQ_THRE0 then
    (MM_REG_WRITE_MASK cmd subsys_id base (mdp_reg.ofs 0x2208) isp.cq_iova 0xFFFFFFFF, 0)
  else if isp.cq_idx = ISP_DRV_DIP_CQ_THRE1 then
    (MM_REG_WRITE_MASK cmd subsys_id base (mdp_reg.ofs 0x2214) isp.cq_iova 0xFFFFFFFF, 0)
  else if isp.cq_idx = ISP_DRV_DIP_CQ_THRE2 then
    (MM_REG_WRITE_MASK cmd subsys_id base (mdp_reg.ofs 0x2220) isp.cq_iova 0xFFFFFFFF, 0)
  else if isp.cq_idx = ISP_DRV_DIP_CQ_THRE3 then
    (MM_REG_WRITE_MASK cmd subsys_id base (mdp_reg.ofs 0x222C) isp.cq_iova 0xFFFFFFFF, 0)
  else if isp.cq_idx = ISP_DRV_DIP_CQ_THRE4 then
    (MM_REG_WRITE_MASK cmd subsys_id base (mdp_reg.ofs 0x2238) isp.cq_iova 0xFFFFFFFF, 0)
  else if isp.cq_idx = ISP_DRV_DIP_CQ_THRE5 then
    (MM_REG_WRITE_MASK cmd subsys_id base (mdp_reg.ofs 0x2244) isp.cq_iova 0xFFFFFFFF, 0)
  else if isp.cq_idx = ISP_DRV_DIP_CQ_THRE6 then
    (MM_REG_WRITE_MASK cmd subsys_id base (mdp_reg.ofs 0x2250) isp.cq_iova 0xFFFFFFFF, 0)
  else if isp.cq_idx = ISP_DRV_DIP_CQ_THRE7 then
    (MM_REG_WRITE_MASK cmd subsys_id base (mdp_reg.ofs 0x225C) isp.cq_iova 0xFFFFFFFF, 0)
  else if isp.cq_idx = ISP_DRV_DIP_CQ_THRE8 then
    (MM_REG_WRITE_MASK cmd subsys_id base (mdp_reg.ofs 0x2268) isp.cq_iova 0xFFFFFFFF, 0)
  else if isp.cq_idx = ISP_DRV_DIP_CQ_THRE9 then
    (MM_REG_WRITE_MASK cmd subsys_id base (mdp_reg.ofs 0x2274) isp.cq_iova 0xFFFFFFFF, 0)
  else if isp.cq_idx = ISP_DRV_DIP_CQ_THRE10 then
    (MM_REG_WRITE_MASK cmd subsys_id base (mdp_reg.ofs 0x2280) isp.cq_iova 0xFFFFFFFF, 0)
  else if isp.cq_idx = ISP_DRV_DIP_CQ_THRE11 then
    (MM_REG_WRITE_MASK cmd subsys_id base (mdp_reg.ofs 0x228C) isp.cq_iova 0xFFFFFFFF, 0)
  else
    -- Do not support this cq
    (cmd, -EINVAL)

/-- Source: `config_isp_subfrm`. -/
def config_isp_subfrm (ctx : mdp_comp_ctx) (cmd : mmsys_cmdq_cmd) (index : Nat) :
    mmsys_cmdq_cmd × Int :=
  let base := ctx.comp.reg_base
  let subsys_id := ctx.comp.subsys_id
  let cmd := MM_REG_WRITE_MASK cmd subsys_id base (mdp_reg.ofs 0x2304)
    (ctx.param.isp.tpipe_iova index) 0xFFFFFFFF
  (cmd, 0)

/-- Source: `wait_isp_event`. -/
def wait_isp_event (K : mdp_comp_ids) (ctx : mdp_comp_ctx) (cmd : mmsys_cmdq_cmd) :
    mmsys_cmdq_cmd × Int :=
  let isp := ctx.param.isp
  let base := ctx.comp.reg_base
  let subsys_id := ctx.comp.subsys_id
  -- MDP_DL_SEL: select MDP_CROP
  let cmd :=
    if isp.dl_flags &&& int_shl 1 K.MDP_COMP_CAMIN ≠ 0 then
      MM_REG_WRITE_MASK cmd subsys_id base (mdp_reg.ofs 0x0030) 0x00000000 0x00000200
    else cmd
  -- MDP2_DL_SEL: select MDP_CROP2
  let cmd :=
    if isp.dl_flags &&& int_shl 1 K.MDP_COMP_CAMIN2 ≠ 0 then
      MM_REG_WRITE_MASK cmd subsys_id base (mdp_reg.ofs 0x0030) 0x00000000 0x00000C00
    else cmd
  if isp.cq_idx = ISP_DRV_DIP_CQ_THRE0 then
    let cmd := MM_REG_WRITE_MASK cmd subsys_id base (mdp_reg.ofs 0x2000) 0x0001 0x00000001
    (MM_REG_WAIT cmd mdp_event.ISP_P2_0_DONE, 0)
  else if isp.cq_idx = ISP_DRV_DIP_CQ_THRE1 then
    let cmd := MM_REG_WRITE_MASK cmd subsys_id base (mdp_reg.ofs 0x2000) 0x0002 0x00000002
    (MM_REG_WAIT cmd mdp_event.ISP_P2_1_DONE, 0)
  else if isp.cq_idx = ISP_DRV_DIP_CQ_THRE2 then
    let cmd := MM_REG_WRITE_MASK cmd subsys_id base (mdp_reg.ofs 0x2000) 0x0004 0x00000004
    (MM_REG_WAIT cmd mdp_event.ISP_P2_2_DONE, 0)
  else if isp.cq_idx = ISP_DRV_DIP_CQ_THRE3 then
    let cmd := MM_REG_WRITE_MASK cmd subsys_id base (mdp_reg.ofs 0x2000) 0x0008 0x00000008
    (MM_REG_WAIT cmd mdp_event.ISP_P2_3_DONE, 0)
  else if isp.cq_idx = ISP_DRV_DIP_CQ_THRE4 then
    let cmd := MM_REG_WRITE_MASK cmd subsys_id base (mdp_reg.ofs 0x2000) 0x0010 0x00000010
    (MM_REG_WAIT cmd mdp_event.ISP_P2_4_DONE, 0)
  else if isp.cq_idx = ISP_DRV_DIP_CQ_THRE5 then
    let cmd := MM_REG_WRITE_MASK cmd subsys_id base (mdp_reg.ofs 0x2000) 0x0020 0x00000020
    (MM_REG_WAIT cmd mdp_event.ISP_P2_5_DONE, 0)
  else if isp.cq_idx = ISP_DRV_DIP_CQ_THRE6 then
    let cmd := MM_REG_WRITE_MASK cmd subsys_id base (mdp_reg.ofs 0x2000) 0x0040 0x00000040
    (MM_REG_WAIT cmd mdp_event.ISP_P2_6_DONE, 0)
  else if isp.cq_idx = ISP_DRV_DIP_CQ_THRE7 then
    let cmd := MM_REG_WRITE_MASK cmd subsys_id base (mdp_reg.ofs 0x2000) 0x0080 0x00000080
    (MM_REG_WAIT cmd mdp_event.ISP_P2_7_DONE, 0)
  else if isp.cq_idx = ISP_DRV_DIP_CQ_THRE8 then
    let cmd := MM_REG_WRITE_MASK cmd subsys_id base (mdp_reg.ofs 0x2000) 0x0100 0x00000100
    (MM_REG_WAIT cmd mdp_event.ISP_P2_8_DONE, 0)
  else if isp.cq_idx = ISP_DRV_DIP_CQ_THRE9 then
    let cmd := MM_REG_WRITE_MASK cmd subsys_id base (mdp_reg.ofs 0x2000) 0x0200 0x00000200
    (MM_REG_WAIT cmd mdp_event.ISP_P2_9_DONE, 0)
  else if isp.cq_idx = ISP_DRV_DIP_CQ_THRE10 then
    let cmd := MM_REG_WRITE_MASK cmd subsys_id base (mdp_reg.ofs 0x2000) 0x0400 0x00000400
    (MM_REG_WAIT cmd mdp_event.ISP_P2_10_DONE, 0)
  else if isp.cq_idx = ISP_DRV_DIP_CQ_THRE11 then
    let cmd := MM_REG_WRITE_MASK cmd subsys_id base (mdp_reg.ofs 0x2000) 0x0800 0x00000800
    (MM_REG_WAIT cmd mdp_event.ISP_P2_11_DONE, 0)
  else
    -- Do not support this cq
    (cmd, -EINVAL)

/-- The eight SMX base-address writes with which `config_isp_frame` starts: each of
`smxi_iova[0..3]` to its input and to its output base register. -/
def smx_writes (ctx : mdp_comp_ctx) : List cmdq_entry :=
  [cmdq_entry.write ctx.comp.subsys_id ctx.comp.reg_base (mdp_reg.ofs 0x2890)
     (ctx.param.isp.smxi_iova 0) 0xFFFFFFFF,
   cmdq_entry.write ctx.comp.subsys_id ctx.comp.reg_base (mdp_reg.ofs 0x27D0)
     (ctx.param.isp.smxi_iova 0) 0xFFFFFFFF,
   cmdq_entry.write ctx.comp.subsys_id ctx.comp.reg_base (mdp_reg.ofs 0x28C0)
     (ctx.param.isp.smxi_iova 1) 0xFFFFFFFF,
   cmdq_entry.write ctx.comp.subsys_id ctx.comp.reg_base (mdp_reg.ofs 0x2800)
     (ctx.param.isp.smxi_iova 1) 0xFFFFFFFF,
   cmdq_entry.write ctx.comp.subsys_id ctx.comp.reg_base (mdp_reg.ofs 0x28F0)
     (ctx.param.isp.smxi_iova 2) 0xFFFFFFFF,
   cmdq_entry.write ctx.comp.subsys_id ctx.comp.reg_base (mdp_reg.ofs 0x2830)
     (ctx.param.isp.smxi_iova 2) 0xFFFFFFFF,
   cmdq_entry.write ctx.comp.subsys_id ctx.comp.reg_base (mdp_reg.ofs 0x2920)
     (ctx.param.isp.smxi_iova 3) 0xFFFFFFFF,
   cmdq_entry.write ctx.comp.subsys_id ctx.comp.reg_base (mdp_reg.ofs 0x2860)
     (ctx.param.isp.smxi_iova 3) 0xFFFFFFFF]

/-- The direct-link select writes with which `wait_isp_event` starts: one write of 0
to offset 0x0030 for each of the two direct-link flags set in `dl_flags`. -/
def dl_sel_writes (K : mdp_comp_ids) (ctx : mdp_comp_ctx) : List cmdq_entry :=
  (if ctx.param.isp.dl_flags &&& int_shl 1 K.MDP_COMP_CAMIN ≠ 0 then
      [cmdq_entry.write ctx.comp.subsys_id ctx.comp.reg_base (mdp_reg.ofs 0x0030)
        0x00000000 0x00000200]
    else []) ++
  (if ctx.param.isp.dl_flags &&& int_shl 1 K.MDP_COMP_CAMIN2 ≠ 0 then
      [cmdq_entry.write ctx.comp.subsys_id ctx.comp.reg_base (mdp_reg.ofs 0x0030)
        0x00000000 0x00000C00]
    else [])

/-! ## Further constants and helpers of the operations -/

/-- The colour format macros `MDP_COLOR_IS_10BIT_PACKED` and `MDP_COLOR_IS_UFP`.  They
are defined in a header that is not among the sources, so they are parameters of the
model. -/
structure mdp_color_macros where
  MDP_COLOR_IS_10BIT_PACKED : Nat → Bool
  MDP_COLOR_IS_UFP : Nat → Bool

/-- A concrete pair of colour format macros: two distinct bits of the format word. -/
def example_color : mdp_color_macros where
  MDP_COLOR_IS_10BIT_PACKED := fun c => c.testBit 27
  MDP_COLOR_IS_UFP := fun c => c.testBit 29

/-- The C test `mdp_cfg && mdp_cfg->flag` on the platform configuration pointer. -/
def cfg_has (mdp_cfg : Option mdp_platform_config) (flag : mdp_platform_config → Bool) :
    Bool :=
  match mdp_cfg with
  | none => false
  | some cfg => flag cfg

/-- Conversion of a signed value to `u32`. -/
def u32_of_int (x : Int) : Nat := (x % 2 ^ 32).toNat

/-- The entry is a poll entry. -/
def cmdq_entry.is_poll : cmdq_entry → Bool
  | cmdq_entry.poll _ _ _ _ _ => true
  | _ => false

/-- The entry is a masked write to register `r` under the mask `m`. -/
def cmdq_entry.writes_reg_mask (r : mdp_reg) (m : Nat) : cmdq_entry → Bool
  | cmdq_entry.write _ _ reg _ mask => decide (reg = r) && decide (mask = m)
  | _ => false

/-! ## Frame reader -/

/-- Source: `init_rdma`.  The registry `mdp_dev->comp[]` is a list, a position beyond
the list holds no component. -/
def init_rdma (K : mdp_comp_ids) (ctx : mdp_comp_ctx) (cmd : mmsys_cmdq_cmd) :
    mmsys_cmdq_cmd × Int :=
  let mdp_cfg := __get_plat_cfg (some ctx)
  let base := ctx.comp.reg_base
  let subsys_id := ctx.comp.subsys_id
  let cmd :=
    if cfg_has mdp_cfg (fun c => c.rdma_support_10bit) then
      let prz1 := ctx.mdp_dev.comp.getD K.MDP_COMP_RSZ1 none
      -- Disable RSZ1
      if ctx.comp.id = K.MDP_COMP_RDMA0 then
        match prz1 with
        | some prz1 =>
          MM_REG_WRITE cmd subsys_id prz1.reg_base mdp_reg.PRZ_ENABLE 0x00000000 0x00000001
        | none => cmd
      else cmd
    else cmd
  -- Reset RDMA
  let cmd := MM_REG_WRITE cmd subsys_id base mdp_reg.MDP_RDMA_RESET 0x00000001 0x00000001
  let cmd := MM_REG_POLL cmd subsys_id base mdp_reg.MDP_RDMA_MON_STA_1 0x00000100 0x00000100
  let cmd := MM_REG_WRITE cmd subsys_id base mdp_reg.MDP_RDMA_RESET 0x00000000 0x00000001
  (cmd, 0)

/-- Source: `config_rdma_frame`. -/
def config_rdma_frame (C : mdp_color_macros) (ctx : mdp_comp_ctx) (cmd : mmsys_cmdq_cmd)
    (_compose : v4l2_rect) : mmsys_cmdq_cmd × Int :=
  let rdma := ctx.param.rdma
  let mdp_cfg := __get_plat_cfg (some ctx)
  let colorformat := ctx.input.buffer.format.colorformat
  let block10bit := C.MDP_COLOR_IS_10BIT_PACKED colorformat
  let en_ufo := C.MDP_COLOR_IS_UFP colorformat
  let base := ctx.comp.reg_base
  let subsys_id := ctx.comp.subsys_id
  let cmd :=
    if cfg_has mdp_cfg (fun c => c.rdma_support_10bit) then
      if block10bit then
        MM_REG_WRITE cmd subsys_id base mdp_reg.MDP_RDMA_RESV_DUMMY_0 0x00000007 0x00000007
      else
        MM_REG_WRITE cmd subsys_id base mdp_reg.MDP_RDMA_RESV_DUMMY_0 0x00000000 0x00000007
    else cmd
  -- Setup smi control
  let cmd := MM_REG_WRITE cmd subsys_id base mdp_reg.MDP_RDMA_GMCIF_CON
    ((1 <<< 0) + (7 <<< 4) + (1 <<< 16)) 0x00030071
  -- Setup source frame info
  let cmd := MM_REG_WRITE cmd subsys_id base mdp_reg.MDP_RDMA_SRC_CON rdma.src_ctrl 0x03C8FE0F
  let cmd :=
    if cfg_has mdp_cfg (fun c => c.rdma_support_10bit && en_ufo) then
      -- Setup source buffer base
      let cmd := MM_REG_WRITE cmd subsys_id base mdp_reg.MDP_RDMA_UFO_DEC_LENGTH_BASE_Y
        rdma.ufo_dec_y 0xFFFFFFFF
      let cmd := MM_REG_WRITE cmd subsys_id base mdp_reg.MDP_RDMA_UFO_DEC_LENGTH_BASE_C
        rdma.ufo_dec_c 0xFFFFFFFF
      -- Set 10bit source frame pitch
      if block10bit then
        MM_REG_WRITE cmd subsys_id base mdp_reg.MDP_RDMA_MF_BKGD_SIZE_IN_PXL
          rdma.mf_bkgd_in_pxl 0x001FFFFF
      else cmd
    else cmd
  let cmd := MM_REG_WRITE cmd subsys_id base mdp_reg.MDP_RDMA_CON rdma.control 0x00001110
  -- Setup source buffer base
  let cmd := MM_REG_WRITE cmd subsys_id base mdp_reg.MDP_RDMA_SRC_BASE_0 (rdma.iova 0) 0xFFFFFFFF
  let cmd := MM_REG_WRITE cmd subsys_id base mdp_reg.MDP_RDMA_SRC_BASE_1 (rdma.iova 1) 0xFFFFFFFF
  let cmd := MM_REG_WRITE cmd subsys_id base mdp_reg.MDP_RDMA_SRC_BASE_2 (rdma.iova 2) 0xFFFFFFFF
  -- Setup source buffer end
  let cmd := MM_REG_WRITE cmd subsys_id base mdp_reg.MDP_RDMA_SRC_END_0
    (rdma.iova_end 0) 0xFFFFFFFF
  let cmd := MM_REG_WRITE cmd subsys_id base mdp_reg.MDP_RDMA_SRC_END_1
    (rdma.iova_end 1) 0xFFFFFFFF
  let cmd := MM_REG_WRITE cmd subsys_id base mdp_reg.MDP_RDMA_SRC_END_2
    (rdma.iova_end 2) 0xFFFFFFFF
  -- Setup source frame pitch
  let cmd := MM_REG_WRITE cmd subsys_id base mdp_reg.MDP_RDMA_MF_BKGD_SIZE_IN_BYTE
    rdma.mf_bkgd 0x001FFFFF
  let cmd := MM_REG_WRITE cmd subsys_id base mdp_reg.MDP_RDMA_SF_BKGD_SIZE_IN_BYTE
    rdma.sf_bkgd 0x001FFFFF
  -- Setup color transform
  let cmd := MM_REG_WRITE cmd subsys_id base mdp_reg.MDP_RDMA_TRANSFORM_0
    rdma.transform 0x0F110000
  (cmd, 0)

/-- Source: `config_rdma_subfrm`. -/
def config_rdma_subfrm (C : mdp_color_macros) (ctx : mdp_comp_ctx) (cmd : mmsys_cmdq_cmd)
    (index : Nat) : mmsys_cmdq_cmd × Int :=
  let subfrm := ctx.param.rdma.subfrms index
  let csf := ctx.param.subfrms index
  let mdp_cfg := __get_plat_cfg (some ctx)
  let colorformat := ctx.input.buffer.format.colorformat
  let block10bit := C.MDP_COLOR_IS_10BIT_PACKED colorformat
  let en_ufo := C.MDP_COLOR_IS_UFP colorformat
  let base := ctx.comp.reg_base
  let subsys_id := ctx.comp.subsys_id
  -- Enable RDMA
  let cmd := MM_REG_WRITE cmd subsys_id base mdp_reg.MDP_RDMA_EN 0x00000001 0x00000001
  -- Set Y pixel offset
  let cmd := MM_REG_WRITE cmd subsys_id base mdp_reg.MDP_RDMA_SRC_OFFSET_0
    (subfrm.offset 0) 0xFFFFFFFF
  -- Set 10bit UFO mode
  let cmd :=
    if cfg_has mdp_cfg (fun c => c.rdma_support_10bit && block10bit && en_ufo) then
      MM_REG_WRITE cmd subsys_id base mdp_reg.MDP_RDMA_SRC_OFFSET_0_P
        subfrm.offset_0_p 0xFFFFFFFF
    else cmd
  -- Set U pixel offset
  let cmd := MM_REG_WRITE cmd subsys_id base mdp_reg.MDP_RDMA_SRC_OFFSET_1
    (subfrm.offset 1) 0xFFFFFFFF
  -- Set V pixel offset
  let cmd := MM_REG_WRITE cmd subsys_id base mdp_reg.MDP_RDMA_SRC_OFFSET_2
    (subfrm.offset 2) 0xFFFFFFFF
  -- Set source size
  let cmd := MM_REG_WRITE cmd subsys_id base mdp_reg.MDP_RDMA_MF_SRC_SIZE subfrm.src 0x1FFF1FFF
  -- Set target size
  let cmd := MM_REG_WRITE cmd subsys_id base mdp_reg.MDP_RDMA_MF_CLIP_SIZE
    subfrm.clip 0x1FFF1FFF
  -- Set crop offset
  let cmd := MM_REG_WRITE cmd subsys_id base mdp_reg.MDP_RDMA_MF_OFFSET_1
    subfrm.clip_ofst 0x003F001F
  let cmd :=
    if cfg_has mdp_cfg (fun c => c.rdma_upsample_repeat_only) then
      if csf.«in».right - csf.«in».left + 1 > 320 then
        MM_REG_WRITE cmd subsys_id base mdp_reg.MDP_RDMA_RESV_DUMMY_0 0x00000004 0x00000004
      else cmd
    else cmd
  (cmd, 0)

/-- Source: `wait_rdma_event`.  For an alias other than 0 the code only prints an error
to the kernel log, which is not part of the result. -/
def wait_rdma_event (ctx : mdp_comp_ctx) (cmd : mmsys_cmdq_cmd) : mmsys_cmdq_cmd × Int :=
  let base := ctx.comp.reg_base
  let subsys_id := ctx.comp.subsys_id
  let cmd :=
    if ctx.comp.alias_id = 0 then MM_REG_WAIT cmd mdp_event.RDMA0_DONE
    else cmd
  -- Disable RDMA
  let cmd := MM_REG_WRITE cmd subsys_id base mdp_reg.MDP_RDMA_EN 0x00000000 0x00000001
  (cmd, 0)

/-! ## Scaler, per subframe -/

/-- Source: `init_rsz`. -/
def init_rsz (ctx : mdp_comp_ctx) (cmd : mmsys_cmdq_cmd) : mmsys_cmdq_cmd × Int :=
  let base := ctx.comp.reg_base
  let subsys_id := ctx.comp.subsys_id
  -- Reset RSZ
  let cmd := MM_REG_WRITE cmd subsys_id base mdp_reg.PRZ_ENABLE 0x00010000 0x00010000
  let cmd := MM_REG_WRITE cmd subsys_id base mdp_reg.PRZ_ENABLE 0x00000000 0x00010000
  -- Enable RSZ
  let cmd := MM_REG_WRITE cmd subsys_id base mdp_reg.PRZ_ENABLE 0x00000001 0x00000001
  (cmd, 0)

/-- Source: `config_rsz_subfrm`. -/
def config_rsz_subfrm (ctx : mdp_comp_ctx) (cmd : mmsys_cmdq_cmd) (index : Nat) :
    mmsys_cmdq_cmd × Int :=
  let subfrm := ctx.param.rsz.subfrms index
  let csf := ctx.param.subfrms index
  let mdp_cfg := __get_plat_cfg (some ctx)
  let base := ctx.comp.reg_base
  let subsys_id := ctx.comp.subsys_id
  let cmd := MM_REG_WRITE cmd subsys_id base mdp_reg.PRZ_CONTROL_2 subfrm.control2 0x00003800
  let cmd := MM_REG_WRITE cmd subsys_id base mdp_reg.PRZ_INPUT_IMAGE subfrm.src 0xFFFFFFFF
  let cmd :=
    if cfg_has mdp_cfg (fun c => c.rsz_disable_dcm_small_sample) then
      if csf.«in».right - csf.«in».left + 1 ≤ 16 then
        MM_REG_WRITE cmd subsys_id base mdp_reg.PRZ_CONTROL_1 (1 <<< 27) (1 <<< 27)
      else cmd
    else cmd
  let cmd := MM_REG_WRITE cmd subsys_id base mdp_reg.PRZ_LUMA_HORIZONTAL_INTEGER_OFFSET
    csf.luma.left 0x0000FFFF
  let cmd := MM_REG_WRITE cmd subsys_id base mdp_reg.PRZ_LUMA_HORIZONTAL_SUBPIXEL_OFFSET
    csf.luma.left_subpix 0x001FFFFF
  let cmd := MM_REG_WRITE cmd subsys_id base mdp_reg.PRZ_LUMA_VERTICAL_INTEGER_OFFSET
    csf.luma.top 0x0000FFFF
  let cmd := MM_REG_WRITE cmd subsys_id base mdp_reg.PRZ_LUMA_VERTICAL_SUBPIXEL_OFFSET
    csf.luma.top_subpix 0x001FFFFF
  let cmd := MM_REG_WRITE cmd subsys_id base mdp_reg.PRZ_CHROMA_HORIZONTAL_INTEGER_OFFSET
    csf.chroma.left 0x0000FFFF
  let cmd := MM_REG_WRITE cmd subsys_id base mdp_reg.PRZ_CHROMA_HORIZONTAL_SUBPIXEL_OFFSET
    csf.chroma.left_subpix 0x001FFFFF
  let cmd := MM_REG_WRITE cmd subsys_id base mdp_reg.PRZ_OUTPUT_IMAGE subfrm.clip 0xFFFFFFFF
  (cmd, 0)

/-- Source: `advance_rsz_subfrm`. -/
def advance_rsz_subfrm (ctx : mdp_comp_ctx) (cmd : mmsys_cmdq_cmd) (index : Nat) :
    mmsys_cmdq_cmd × Int :=
  let mdp_cfg := __get_plat_cfg (some ctx)
  let cmd :=
    if cfg_has mdp_cfg (fun c => c.rsz_disable_dcm_small_sample) then
      let csf := ctx.param.subfrms index
      let base := ctx.comp.reg_base
      let subsys_id := ctx.comp.subsys_id
      if csf.«in».right - csf.«in».left + 1 ≤ 16 then
        MM_REG_WRITE cmd subsys_id base mdp_reg.PRZ_CONTROL_1 0 (1 <<< 27)
      else cmd
    else cmd
  (cmd, 0)

/-! ## Writer and rotator, further operations -/

/-- Source: `init_wrot`. -/
def init_wrot (ctx : mdp_comp_ctx) (cmd : mmsys_cmdq_cmd) : mmsys_cmdq_cmd × Int :=
  let base := ctx.comp.reg_base
  let subsys_id := ctx.comp.subsys_id
  -- Reset WROT
  let cmd := MM_REG_WRITE cmd subsys_id base mdp_reg.VIDO_SOFT_RST 0x01 0x00000001
  let cmd := MM_REG_POLL cmd subsys_id base mdp_reg.VIDO_SOFT_RST_STAT 0x01 0x00000001
  let cmd := MM_REG_WRITE cmd subsys_id base mdp_reg.VIDO_SOFT_RST 0x00 0x00000001
  let cmd := MM_REG_POLL cmd subsys_id base mdp_reg.VIDO_SOFT_RST_STAT 0x00 0x00000001
  (cmd, 0)

/-- Source: `config_wrot_subfrm`. -/
def config_wrot_subfrm (ctx : mdp_comp_ctx) (cmd : mmsys_cmdq_cmd) (index : Nat) :
    mmsys_cmdq_cmd × Int :=
  let subfrm := ctx.param.wrot.subfrms index
  let base := ctx.comp.reg_base
  let subsys_id := ctx.comp.subsys_id
  -- Write Y pixel offset
  let cmd := MM_REG_WRITE cmd subsys_id base mdp_reg.VIDO_OFST_ADDR (subfrm.offset 0) 0x0FFFFFFF
  -- Write U pixel offset
  let cmd := MM_REG_WRITE cmd subsys_id base mdp_reg.VIDO_OFST_ADDR_C
    (subfrm.offset 1) 0x0FFFFFFF
  -- Write V pixel offset
  let cmd := MM_REG_WRITE cmd subsys_id base mdp_reg.VIDO_OFST_ADDR_V
    (subfrm.offset 2) 0x0FFFFFFF
  -- Write source size
  let cmd := MM_REG_WRITE cmd subsys_id base mdp_reg.VIDO_IN_SIZE subfrm.src 0x1FFF1FFF
  -- Write target size
  let cmd := MM_REG_WRITE cmd subsys_id base mdp_reg.VIDO_TAR_SIZE subfrm.clip 0x1FFF1FFF
  let cmd := MM_REG_WRITE cmd subsys_id base mdp_reg.VIDO_CROP_OFST subfrm.clip_ofst 0x1FFF1FFF
  let cmd := MM_REG_WRITE cmd subsys_id base mdp_reg.VIDO_MAIN_BUF_SIZE
    subfrm.main_buf 0x1FFF7F00
  -- Enable WROT
  let cmd := MM_REG_WRITE cmd subsys_id base mdp_reg.VIDO_ROT_EN 0x01 0x00000001
  (cmd, 0)

/-- Source: `wait_wrot_event`.  For an alias other than 0 the code only prints an error
to the kernel log, which is not part of the result. -/
def wait_wrot_event (ctx : mdp_comp_ctx) (cmd : mmsys_cmdq_cmd) : mmsys_cmdq_cmd × Int :=
  let mdp_cfg := __get_plat_cfg (some ctx)
  let base := ctx.comp.reg_base
  let subsys_id := ctx.comp.subsys_id
  let cmd :=
    if ctx.comp.alias_id = 0 then MM_REG_WAIT cmd mdp_event.WROT0_DONE
    else cmd
  let cmd :=
    if cfg_has mdp_cfg (fun c => c.wrot_filter_constraint) then
      MM_REG_WRITE cmd subsys_id base mdp_reg.VIDO_MAIN_BUF_SIZE 0 0x00000077
    else cmd
  -- Disable WROT
  let cmd := MM_REG_WRITE cmd subsys_id base mdp_reg.VIDO_ROT_EN 0x00 0x00000001
  (cmd, 0)

/-! ## DMA writer -/

/-- Source: `init_wdma`. -/
def init_wdma (ctx : mdp_comp_ctx) (cmd : mmsys_cmdq_cmd) : mmsys_cmdq_cmd × Int :=
  let base := ctx.comp.reg_base
  let subsys_id := ctx.comp.subsys_id
  -- Reset WDMA
  let cmd := MM_REG_WRITE cmd subsys_id base mdp_reg.WDMA_RST 0x1 0x00000001
  let cmd := MM_REG_POLL cmd subsys_id base mdp_reg.WDMA_FLOW_CTRL_DBG 0x01 0x00000001
  let cmd := MM_REG_WRITE cmd subsys_id base mdp_reg.WDMA_RST 0x0 0x00000001
  (cmd, 0)

/-- Source: `config_wdma_frame`. -/
def config_wdma_frame (ctx : mdp_comp_ctx) (cmd : mmsys_cmdq_cmd) (_compose : v4l2_rect) :
    mmsys_cmdq_cmd × Int :=
  let wdma := ctx.param.wdma
  let base := ctx.comp.reg_base
  let subsys_id := ctx.comp.subsys_id
  let cmd := MM_REG_WRITE cmd subsys_id base mdp_reg.WDMA_BUF_CON2 0x10101050 0xFFFFFFFF
  -- Setup frame information
  let cmd := MM_REG_WRITE cmd subsys_id base mdp_reg.WDMA_CFG wdma.wdma_cfg 0x0F01B8F0
  -- Setup frame base address
  let cmd := MM_REG_WRITE cmd subsys_id base mdp_reg.WDMA_DST_ADDR (wdma.iova 0) 0xFFFFFFFF
  let cmd := MM_REG_WRITE cmd subsys_id base mdp_reg.WDMA_DST_U_ADDR (wdma.iova 1) 0xFFFFFFFF
  let cmd := MM_REG_WRITE cmd subsys_id base mdp_reg.WDMA_DST_V_ADDR (wdma.iova 2) 0xFFFFFFFF
  -- Setup Y pitch
  let cmd := MM_REG_WRITE cmd subsys_id base mdp_reg.WDMA_DST_W_IN_BYTE
    wdma.w_in_byte 0x0000FFFF
  -- Setup UV pitch
  let cmd := MM_REG_WRITE cmd subsys_id base mdp_reg.WDMA_DST_UV_PITCH
    wdma.uv_stride 0x0000FFFF
  -- Set the fixed ALPHA as 0xFF
  let cmd := MM_REG_WRITE cmd subsys_id base mdp_reg.WDMA_ALPHA 0x800000FF 0x800000FF
  (cmd, 0)

/-- Source: `config_wdma_subfrm`. -/
def config_wdma_subfrm (ctx : mdp_comp_ctx) (cmd : mmsys_cmdq_cmd) (index : Nat) :
    mmsys_cmdq_cmd × Int :=
  let subfrm := ctx.param.wdma.subfrms index
  let base := ctx.comp.reg_base
  let subsys_id := ctx.comp.subsys_id
  -- Write Y pixel offset
  let cmd := MM_REG_WRITE cmd subsys_id base mdp_reg.WDMA_DST_ADDR_OFFSET
    (subfrm.offset 0) 0x0FFFFFFF
  -- Write U pixel offset
  let cmd := MM_REG_WRITE cmd subsys_id base mdp_reg.WDMA_DST_U_ADDR_OFFSET
    (subfrm.offset 1) 0x0FFFFFFF
  -- Write V pixel offset
  let cmd := MM_REG_WRITE cmd subsys_id base mdp_reg.WDMA_DST_V_ADDR_OFFSET
    (subfrm.offset 2) 0x0FFFFFFF
  -- Write source size
  let cmd := MM_REG_WRITE cmd subsys_id base mdp_reg.WDMA_SRC_SIZE subfrm.src 0x3FFF3FFF
  -- Write target size
  let cmd := MM_REG_WRITE cmd subsys_id base mdp_reg.WDMA_CLIP_SIZE subfrm.clip 0x3FFF3FFF
  -- Write clip offset
  let cmd := MM_REG_WRITE cmd subsys_id base mdp_reg.WDMA_CLIP_COORD
    subfrm.clip_ofst 0x3FFF3FFF
  -- Enable WDMA
  let cmd := MM_REG_WRITE cmd subsys_id base mdp_reg.WDMA_EN 0x01 0x00000001
  (cmd, 0)

/-- Source: `wait_wdma_event`. -/
def wait_wdma_event (ctx : mdp_comp_ctx) (cmd : mmsys_cmdq_cmd) : mmsys_cmdq_cmd × Int :=
  let base := ctx.comp.reg_base
  let subsys_id := ctx.comp.subsys_id
  let cmd := MM_REG_WAIT cmd mdp_event.WDMA0_DONE
  -- Disable WDMA
  let cmd := MM_REG_WRITE cmd subsys_id base mdp_reg.WDMA_EN 0x00 0x00000001
  (cmd, 0)

/-! ## Color corrector, further operations -/

/-- Source: `init_ccorr`. -/
def init_ccorr (ctx : mdp_comp_ctx) (cmd : mmsys_cmdq_cmd) : mmsys_cmdq_cmd × Int :=
  let base := ctx.comp.reg_base
  let subsys_id := ctx.comp.subsys_id
  -- CCORR enable
  let cmd := MM_REG_WRITE cmd subsys_id base mdp_reg.MDP_CCORR_EN 0x1 0x1
  -- Relay mode
  let cmd := MM_REG_WRITE cmd subsys_id base mdp_reg.MDP_CCORR_CFG 0x1 0x1
  (cmd, 0)

/-- Source: `config_ccorr_subfrm`.  `hsize` and `vsize` are `u32`, and so is the value
that is written. -/
def config_ccorr_subfrm (ctx : mdp_comp_ctx) (cmd : mmsys_cmdq_cmd) (index : Nat) :
    mmsys_cmdq_cmd × Int :=
  let csf := ctx.param.subfrms index
  let base := ctx.comp.reg_base
  let subsys_id := ctx.comp.subsys_id
  let hsize := u32_of_int (csf.«in».right - csf.«in».left + 1)
  let vsize := u32_of_int (csf.«in».bottom - csf.«in».top + 1)
  let cmd := MM_REG_WRITE cmd subsys_id base mdp_reg.MDP_CCORR_SIZE
    (((hsize <<< 16) + (vsize <<< 0)) % 2 ^ 32) 0x1FFF1FFF
  (cmd, 0)

/-! ## Execution of masked writes -/

/-- Modelled from the spec: a masked write is a read-modify-write of a 32-bit register
in which only the bits set in the write mask change. -/
def masked_write (old value mask : Nat) : Nat :=
  (old &&& (0xFFFFFFFF ^^^ mask)) ||| (value &&& mask)

/-- The contents of the registers, by base address and register. -/
def reg_file : Type := Nat → mdp_reg → Nat

/-- Modelled from the spec: the effect of one entry on the registers.  A write changes
the addressed register by `masked_write`; polls and waits change no register. -/
def exec_entry (regs : reg_file) : cmdq_entry → reg_file
  | cmdq_entry.write _ base reg value mask => fun b r =>
      if b = base ∧ r = reg then masked_write (regs base reg) value mask else regs b r
  | _ => regs

/-- Modelled from the spec: the entries are executed strictly in append order. -/
def exec (regs : reg_file) (entries : List cmdq_entry) : reg_file :=
  entries.foldl exec_entry regs

/-- A reset handshake inside a list of entries: the reset-assert write, later the poll
for the acknowledge, later the reset-release write, and no occurrence of the release
write ahead of the poll. -/
def reset_handshake (l : List cmdq_entry) (asserted poll release : cmdq_entry) : Prop :=
  ∃ pre mid post rest,
    l = pre ++ [asserted] ++ mid ++ [poll] ++ post ++ [release] ++ rest ∧
    release ∉ pre ++ [asserted] ++ mid

/-- The writes to a capability-gated register field: any write to
`MDP_RDMA_RESV_DUMMY_0`, `MDP_RDMA_UFO_DEC_LENGTH_BASE_Y`, `MDP_RDMA_UFO_DEC_LENGTH_BASE_C`,
`MDP_RDMA_MF_BKGD_SIZE_IN_PXL` or `MDP_RDMA_SRC_OFFSET_0_P`, a write to `PRZ_CONTROL_1`
under the mask `1 << 27`, and a write to `VIDO_MAIN_BUF_SIZE` under the mask 0x00000077. -/
def cmdq_entry.capability_gated : cmdq_entry → Bool
  | cmdq_entry.write _ _ reg _ mask =>
    decide (reg = mdp_reg.MDP_RDMA_RESV_DUMMY_0) ||
    decide (reg = mdp_reg.MDP_RDMA_UFO_DEC_LENGTH_BASE_Y) ||
    decide (reg = mdp_reg.MDP_RDMA_UFO_DEC_LENGTH_BASE_C) ||
    decide (reg = mdp_reg.MDP_RDMA_MF_BKGD_SIZE_IN_PXL) ||
    decide (reg = mdp_reg.MDP_RDMA_SRC_OFFSET_0_P) ||
    (decide (reg = mdp_reg.PRZ_CONTROL_1) && decide (mask = 1 <<< 27)) ||
    (decide (reg = mdp_reg.VIDO_MAIN_BUF_SIZE) && decide (mask = 0x00000077))
  | _ => false

/-- The platform configuration is absent, or all of its capability flags are false. -/
def no_capability (ctx : mdp_comp_ctx) : Prop :=
  ctx.mdp_dev.mdp_cfg = none ∨
  ctx.mdp_dev.mdp_cfg
    = some { rdma_support_10bit := false, rdma_rsz1_sram_sharing := false,
             rdma_upsample_repeat_only := false, rsz_disable_dcm_small_sample := false,
             wrot_filter_constraint := false }

/-- A call only appended to the packet, and none of the appended entries is a write to
a capability-gated register field. -/
def appends_no_gated_write (before after : mmsys_cmdq_cmd) : Prop :=
  ∃ l, after.pkt = before.pkt ++ l ∧ ∀ e ∈ l, e.capability_gated = false

/-! ## Component table and lookup -/

/-- The errno value `ENODEV`. -/
def ENODEV : Int := 19

/-- The enumerators of `enum mdp_comp_type` that the component code names.  The
enumeration is declared in `mtk-mdp3-comp.h`, which is not among the sources, so the
values are parameters of the model. -/
structure mdp_comp_types where
  MDP_COMP_TYPE_INVALID : Nat
  MDP_COMP_TYPE_RDMA : Nat
  MDP_COMP_TYPE_RSZ : Nat
  MDP_COMP_TYPE_WROT : Nat
  MDP_COMP_TYPE_WDMA : Nat
  MDP_COMP_TYPE_PATH1 : Nat
  MDP_COMP_TYPE_PATH2 : Nat
  MDP_COMP_TYPE_CCORR : Nat
  MDP_COMP_TYPE_IMGI : Nat
  MDP_COMP_TYPE_WPEI : Nat
  MDP_COMP_TYPE_EXTO : Nat
  MDP_COMP_TYPE_DL_PATH1 : Nat
  MDP_COMP_TYPE_DL_PATH2 : Nat

/-- A concrete enumeration of the component types: pairwise distinct values, 0 for the
invalid type. -/
def example_types : mdp_comp_types where
  MDP_COMP_TYPE_INVALID := 0
  MDP_COMP_TYPE_RDMA := 1
  MDP_COMP_TYPE_RSZ := 2
  MDP_COMP_TYPE_WROT := 3
  MDP_COMP_TYPE_WDMA := 4
  MDP_COMP_TYPE_PATH1 := 5
  MDP_COMP_TYPE_PATH2 := 6
  MDP_COMP_TYPE_CCORR := 10
  MDP_COMP_TYPE_IMGI := 12
  MDP_COMP_TYPE_WPEI := 13
  MDP_COMP_TYPE_EXTO := 14
  MDP_COMP_TYPE_DL_PATH1 := 15
  MDP_COMP_TYPE_DL_PATH2 := 16

/-- Source: `struct mdp_comp_match`. -/
structure mdp_comp_match where
  type : Nat
  alias_id : Nat
  deriving DecidableEq, Repr

/-- The designated initializers of `mdp_comp_matches` in the order of the source: the
index and the entry of each. -/
def mdp_comp_matches_init (K : mdp_comp_ids) (T : mdp_comp_types) :
    List (Nat × mdp_comp_match) :=
  [(K.MDP_COMP_WPEI, { type := T.MDP_COMP_TYPE_WPEI, alias_id := 0 }),
   (K.MDP_COMP_WPEO, { type := T.MDP_COMP_TYPE_EXTO, alias_id := 2 }),
   (K.MDP_COMP_WPEI2, { type := T.MDP_COMP_TYPE_WPEI, alias_id := 1 }),
   (K.MDP_COMP_WPEO2, { type := T.MDP_COMP_TYPE_EXTO, alias_id := 3 }),
   (K.MDP_COMP_ISP_IMGI, { type := T.MDP_COMP_TYPE_IMGI, alias_id := 0 }),
   (K.MDP_COMP_ISP_IMGO, { type := T.MDP_COMP_TYPE_EXTO, alias_id := 0 }),
   (K.MDP_COMP_ISP_IMG2O, { type := T.MDP_COMP_TYPE_EXTO, alias_id := 1 }),
   (K.MDP_COMP_CAMIN, { type := T.MDP_COMP_TYPE_DL_PATH1, alias_id := 0 }),
   (K.MDP_COMP_CAMIN2, { type := T.MDP_COMP_TYPE_DL_PATH2, alias_id := 1 }),
   (K.MDP_COMP_RDMA0, { type := T.MDP_COMP_TYPE_RDMA, alias_id := 0 }),
   (K.MDP_COMP_CCORR0, { type := T.MDP_COMP_TYPE_CCORR, alias_id := 0 }),
   (K.MDP_COMP_RSZ0, { type := T.MDP_COMP_TYPE_RSZ, alias_id := 0 }),
   (K.MDP_COMP_RSZ1, { type := T.MDP_COMP_TYPE_RSZ, alias_id := 1 }),
   (K.MDP_COMP_PATH0_SOUT, { type := T.MDP_COMP_TYPE_PATH1, alias_id := 0 }),
   (K.MDP_COMP_PATH1_SOUT, { type := T.MDP_COMP_TYPE_PATH2, alias_id := 1 }),
   (K.MDP_COMP_WROT0, { type := T.MDP_COMP_TYPE_WROT, alias_id := 0 }),
   (K.MDP_COMP_WDMA, { type := T.MDP_COMP_TYPE_WDMA, alias_id := 0 })]

/-- Source: `mdp_comp_matches`, an array of `MDP_MAX_COMP_COUNT` entries.  An entry
without an initializer is zero, and every designated initializer stores its entry at
its index, in the order of the source. -/
def mdp_comp_matches (K : mdp_comp_ids) (T : mdp_comp_types) : List mdp_comp_match :=
  (mdp_comp_matches_init K T).foldl (fun tbl p => tbl.set p.1 p.2)
    (List.replicate K.MDP_MAX_COMP_COUNT { type := 0, alias_id := 0 })

/-- The loop of `mdp_comp_get_id` from index `i` on, over the entries that are left. -/
def mdp_comp_get_id_loop (type alias_id : Nat) : List mdp_comp_match → Nat → Int
  | [], _ => -ENODEV
  | m :: rest, i =>
    if m.type = type ∧ m.alias_id = alias_id then (i : Int)
    else mdp_comp_get_id_loop type alias_id rest (i + 1)

/-- Source: `mdp_comp_get_id`. -/
def mdp_comp_get_id (K : mdp_comp_ids) (T : mdp_comp_types) (type alias_id : Nat) : Int :=
  mdp_comp_get_id_loop type alias_id (mdp_comp_matches K T) 0

/-- The enumerations are well-formed for the table: the listed component identifiers
are pairwise distinct and below `MDP_MAX_COMP_COUNT`, the listed (type, alias) pairs are
pairwise distinct, and none of them is the pair of a zeroed entry. -/
def matches_wf (K : mdp_comp_ids) (T : mdp_comp_types) : Prop :=
  ((mdp_comp_matches_init K T).map (fun p => p.1)).Nodup ∧
  ((mdp_comp_matches_init K T).map (fun p => p.2)).Nodup ∧
  (∀ p ∈ mdp_comp_matches_init K T, p.1 < K.MDP_MAX_COMP_COUNT) ∧
  (∀ p ∈ mdp_comp_matches_init K T, p.2 ≠ { type := 0, alias_id := 0 })

instance (K : mdp_comp_ids) (T : mdp_comp_types) : Decidable (matches_wf K T) := by
  unfold matches_wf; infer_instance

/-! ## Binding of a block context -/

/-- An output of the job (`frame->outputs[]`). -/
structure img_output where
  buffer : img_image_buffer := {}
  deriving DecidableEq, Repr

/-- The frame parameters `struct img_ipi_frameparam`: the arrays of inputs and outputs
of the job. -/
structure img_ipi_frameparam where
  inputs : List img_input := []
  outputs : List img_output := []
  deriving DecidableEq, Repr

/-- The pointer fields of `struct mdp_comp_ctx` as `mdp_comp_ctx_init` writes them.  A
pointer `&frame->inputs[k]` or `&frame->outputs[k]` is held as the index `k` of the
element it addresses; nothing keeps the index inside the array.  `outputs i` is the
slot `ctx->outputs[i]`. -/
structure mdp_comp_ctx_ptrs where
  comp : Option mdp_comp := none
  param : Option img_compparam := none
  input : Option Nat := none
  outputs : Nat → Option Nat := fun _ => none

/-- Source: `mdp_comp_ctx_init`.  The registry `mdp->comp[]` is a list, a position
beyond the list holds no component. -/
def mdp_comp_ctx_init (K : mdp_comp_ids) (mdp : mdp_dev) (ctx : mdp_comp_ctx_ptrs)
    (param : img_compparam) (_frame : img_ipi_frameparam) : mdp_comp_ctx_ptrs × Int :=
  if param.type < 0 ∨ param.type ≥ (K.MDP_MAX_COMP_COUNT : Int) then
    -- Invalid component id
    (ctx, -EINVAL)
  else
    let ctx := { ctx with comp := mdp.comp.getD param.type.toNat none }
    match ctx.comp with
    | none =>
      -- Uninit component id
      (ctx, -EINVAL)
    | some _ =>
      let ctx := { ctx with param := some param }
      let ctx := { ctx with input := some param.input }
      let ctx := (List.range param.num_outputs).foldl
        (fun c i =>
          { c with outputs := fun j => if j = i then some (param.outputs i) else c.outputs j })
        ctx
      (ctx, 0)

/-! ## Pipeline driver -/

/-- A call of a block operation by the pipeline driver: the block and, for the
operations of a subframe, the index of the subframe. -/
inductive op_call where
  | init (block : Nat)
  | config_frame (block : Nat)
  | config_subfrm (block index : Nat)
  | wait_comp_event (block index : Nat)
  | advance_subfrm (block index : Nat)
  | post_process (block : Nat)
  deriving DecidableEq, Repr

/-- Modelled from the spec: the Pipeline Driver is not among the sources.  Phase
`INIT_ALL` with `CONFIG_FRAME` interleaved: each block is initialised and
frame-configured before the init of the next block begins. -/
def pipeline_init_all : List Nat → List op_call
  | [] => []
  | b :: rest => op_call.init b :: op_call.config_frame b :: pipeline_init_all rest

/-- Modelled from the spec: the Pipeline Driver is not among the sources.  The calls for
subframe `i` of `n`: `CONFIG_SUBFRM_ALL`, then `WAIT_ALL` over the blocks that define
`wait_comp_event`, then `ADVANCE_ALL` if the subframe is not the last. -/
def pipeline_subframe (blocks : List Nat) (has_wait : Nat → Bool) (n i : Nat) :
    List op_call :=
  blocks.map (fun b => op_call.config_subfrm b i) ++
  (blocks.filter has_wait).map (fun b => op_call.wait_comp_event b i) ++
  (if i + 1 < n then blocks.map (fun b => op_call.advance_subfrm b i) else [])

/-- Modelled from the spec: the Pipeline Driver is not among the sources.  The calls for
the subframes `0 .. k - 1` of `n`, in index order. -/
def pipeline_subframes (blocks : List Nat) (has_wait : Nat → Bool) (n : Nat) :
    Nat → List op_call
  | 0 => []
  | k + 1 => pipeline_subframes blocks has_wait n k ++ pipeline_subframe blocks has_wait n k

/-- Modelled from the spec: the Pipeline Driver is not among the sources.  The calls of a
job over `blocks` with `n` subframes in which every operation succeeds:
`START → INIT_ALL → FOR each subframe: CONFIG_SUBFRM_ALL → WAIT_ALL → (ADVANCE_ALL if not
last) → DONE`, with `post_process` once per block after all subframes. -/
def pipeline_calls (blocks : List Nat) (has_wait : Nat → Bool) (n : Nat) : List op_call :=
  pipeline_init_all blocks ++ pipeline_subframes blocks has_wait n n ++
    blocks.map op_call.post_process

/-- The subframe index of a call when it is `config_subfrm` of block `b`. -/
def op_call.config_subfrm_index (b : Nat) : op_call → Option Nat
  | op_call.config_subfrm block index => if block = b then some index else none
  | _ => none

/-! ## Stray bits -/

/-- The entry has no stray bits: no bit of its value lies outside of its mask, that is
value AND NOT mask = 0 on 32 bits.  A wait has no value. -/
def cmdq_entry.no_stray_bits : cmdq_entry → Bool
  | cmdq_entry.write _ _ _ value mask => value &&& (0xFFFFFFFF ^^^ mask) == 0
  | cmdq_entry.poll _ _ _ value mask => value &&& (0xFFFFFFFF ^^^ mask) == 0
  | cmdq_entry.wfe _ => true

/-- The value of the entry is one of the given values. -/
def cmdq_entry.carries (vals : List Nat) : cmdq_entry → Prop
  | cmdq_entry.write _ _ _ value _ => value ∈ vals
  | cmdq_entry.poll _ _ _ value _ => value ∈ vals
  | cmdq_entry.wfe _ => False

/-- The job values that the operations of the reader write for subframe `index`. -/
def rdma_values (ctx : mdp_comp_ctx) (index : Nat) : List Nat :=
  [ctx.param.rdma.src_ctrl, ctx.param.rdma.ufo_dec_y, ctx.param.rdma.ufo_dec_c,
   ctx.param.rdma.mf_bkgd_in_pxl, ctx.param.rdma.control,
   ctx.param.rdma.iova 0, ctx.param.rdma.iova 1, ctx.param.rdma.iova 2,
   ctx.param.rdma.iova_end 0, ctx.param.rdma.iova_end 1, ctx.param.rdma.iova_end 2,
   ctx.param.rdma.mf_bkgd, ctx.param.rdma.sf_bkgd, ctx.param.rdma.transform,
   (ctx.param.rdma.subfrms index).offset 0, (ctx.param.rdma.subfrms index).offset_0_p,
   (ctx.param.rdma.subfrms index).offset 1, (ctx.param.rdma.subfrms index).offset 2,
   (ctx.param.rdma.subfrms index).src, (ctx.param.rdma.subfrms index).clip,
   (ctx.param.rdma.subfrms index).clip_ofst]

/-- The job values that the operations of the scaler write for subframe `index`. -/
def rsz_values (ctx : mdp_comp_ctx) (index : Nat) : List Nat :=
  [ctx.param.rsz.control1, ctx.param.rsz.control2, ctx.param.rsz.coeff_step_x,
   ctx.param.rsz.coeff_step_y, (ctx.param.rsz.subfrms index).control2,
   (ctx.param.rsz.subfrms index).src, (ctx.param.subfrms index).luma.left,
   (ctx.param.subfrms index).luma.left_subpix, (ctx.param.subfrms index).luma.top,
   (ctx.param.subfrms index).luma.top_subpix, (ctx.param.subfrms index).chroma.left,
   (ctx.param.subfrms index).chroma.left_subpix, (ctx.param.rsz.subfrms index).clip]

/-- The job values that the operations of the writer and rotator write for subframe
`index`. -/
def wrot_values (ctx : mdp_comp_ctx) (index : Nat) : List Nat :=
  [ctx.param.wrot.iova 0, ctx.param.wrot.iova 1, ctx.param.wrot.iova 2,
   ctx.param.wrot.control, ctx.param.wrot.stride 0, ctx.param.wrot.stride 1,
   ctx.param.wrot.stride 2, ctx.param.wrot.mat_ctrl, ctx.param.wrot.fifo_test,
   ctx.param.wrot.filter, (ctx.param.wrot.subfrms index).offset 0,
   (ctx.param.wrot.subfrms index).offset 1, (ctx.param.wrot.subfrms index).offset 2,
   (ctx.param.wrot.subfrms index).src, (ctx.param.wrot.subfrms index).clip,
   (ctx.param.wrot.subfrms index).clip_ofst, (ctx.param.wrot.subfrms index).main_buf]

/-- The job values that the operations of the DMA writer write for subframe `index`. -/
def wdma_values (ctx : mdp_comp_ctx) (index : Nat) : List Nat :=
  [ctx.param.wdma.wdma_cfg, ctx.param.wdma.iova 0, ctx.param.wdma.iova 1,
   ctx.param.wdma.iova 2, ctx.param.wdma.w_in_byte, ctx.param.wdma.uv_stride,
   (ctx.param.wdma.subfrms index).offset 0, (ctx.param.wdma.subfrms index).offset 1,
   (ctx.param.wdma.subfrms index).offset 2, (ctx.param.wdma.subfrms index).src,
   (ctx.param.wdma.subfrms index).clip, (ctx.param.wdma.subfrms index).clip_ofst]

/-- The job values that the operations of the ISP hand-off write for subframe `index`. -/
def isp_values (ctx : mdp_comp_ctx) (index : Nat) : List Nat :=
  [ctx.param.isp.smxi_iova 0, ctx.param.isp.smxi_iova 1, ctx.param.isp.smxi_iova 2,
   ctx.param.isp.smxi_iova 3, ctx.param.isp.cq_iova, ctx.param.isp.tpipe_iova index]

/-- A call only appended to the packet, and every appended entry that does not carry
one of the job values `vals`, hence every entry with a constant value, has no stray
bits. -/
def constants_have_no_stray_bits (vals : List Nat) (before after : mmsys_cmdq_cmd) : Prop :=
  ∃ l, after.pkt = before.pkt ++ l ∧
    ∀ e ∈ l, e.no_stray_bits = true ∨ e.carries vals

/-! ## Later calls of the writer and rotator -/

/-- A call of the writer and rotator that may follow a wait on the same context: the
configuration of a subframe or a further wait. -/
inductive wrot_call where
  | subfrm (index : Nat)
  | wait
  deriving DecidableEq, Repr

/-- The packet after one later call of the writer and rotator. -/
def apply_wrot_call (ctx : mdp_comp_ctx) (cmd : mmsys_cmdq_cmd) : wrot_call → mmsys_cmdq_cmd
  | wrot_call.subfrm index => (config_wrot_subfrm ctx cmd index).1
  | wrot_call.wait => (wait_wrot_event ctx cmd).1

/-- The packet after a sequence of later calls of the writer and rotator, none of which
is `config_wrot_frame`. -/
def apply_wrot_calls (ctx : mdp_comp_ctx) (cmd : mmsys_cmdq_cmd) (calls : List wrot_call) :
    mmsys_cmdq_cmd :=
  calls.foldl (apply_wrot_call ctx) cmd

end Mdp3

/-! Pablito audio control: the three mixer controls.

A shallow embedding of `sound/soc/codecs/pablito-ctrl.c`.  The private data of the
driver is passed explicitly: a `put` returns the private data after the call paired
with the C return value, a `get` returns the control value it stored paired with the C
return value. -/

namespace PablitoCtrl

/-- The errno value `ENOMEM`. -/
def ENOMEM : Int := 12

/-- The conversion of a `long` to `int`: the value is reduced to 32 bits, two's
complement. -/
def int_of_long (v : Int) : Int := (v + 2 ^ 31) % 2 ^ 32 - 2 ^ 31

/-- The conversion of a `bool` to an integer type. -/
def int_of_bool (b : Bool) : Int := if b then 1 else 0

/-- The conversion of an integer to `bool`: every value other than zero is `true`. -/
def bool_of_long (v : Int) : Bool := decide (v ≠ 0)

/-- Modelled from the spec: `struct gpio_desc` of the GPIO library, which is not part of
the sources.  A line is known by the logical level last driven on it. -/
structure gpio_desc where
  value : Int := 0
  deriving DecidableEq, Repr

/-- Modelled from the spec: `gpiod_set_value` of the GPIO library, which is not part of
the sources.  It drives the level on the line; a null descriptor, which is what an absent
optional line is, is ignored. -/
def gpiod_set_value (desc : Option gpio_desc) (value : Int) : Option gpio_desc :=
  match desc with
  | none => none
  | some _ => some { value := value }

/-- Source: `struct pablito_ctrl_priv`.  A descriptor pointer is `none` when it is
null. -/
structure pablito_ctrl_priv where
  gpiod_dac_mute : Option gpio_desc := none
  gpiod_hp1 : Option gpio_desc := none
  gpiod_hp2 : Option gpio_desc := none
  gpiod_xlr_gl : Option gpio_desc := none
  hp_gain : Int := 0
  dac_mute : Bool := false
  xlr_gl : Bool := false
  deriving DecidableEq, Repr

/-- The element types of `struct snd_ctl_elem_info` that the driver uses, by name. -/
inductive snd_ctl_elem_type where
  | SNDRV_CTL_ELEM_TYPE_NONE
  | SNDRV_CTL_ELEM_TYPE_BOOLEAN
  | SNDRV_CTL_ELEM_TYPE_INTEGER
  deriving DecidableEq, Repr

/-- The fields of `struct snd_ctl_elem_info` that the driver fills in; `min` and `max`
are `value.integer.min` and `value.integer.max`. -/
structure snd_ctl_elem_info where
  type : snd_ctl_elem_type := snd_ctl_elem_type.SNDRV_CTL_ELEM_TYPE_NONE
  count : Nat := 0
  min : Int := 0
  max : Int := 0
  deriving DecidableEq, Repr

/-- The part of `struct snd_ctl_elem_value` that the driver uses: the array
`value.integer.value` of `long`. -/
structure snd_ctl_elem_value where
  value : Nat → Int := fun _ => 0

/-- Source: `pablito_ctrl_headphone_info`. -/
def pablito_ctrl_headphone_info (uinfo : snd_ctl_elem_info) : snd_ctl_elem_info × Int :=
  let uinfo := { uinfo with type := snd_ctl_elem_type.SNDRV_CTL_ELEM_TYPE_INTEGER }
  let uinfo := { uinfo with count := 1 }
  let uinfo := { uinfo with min := 0 }
  let uinfo := { uinfo with max := 2 }
  (uinfo, 0)

/-- Source: `pablito_ctrl_headphone_get`. -/
def pablito_ctrl_headphone_get (priv : pablito_ctrl_priv) (ucontrol : snd_ctl_elem_value) :
    snd_ctl_elem_value × Int :=
  ({ ucontrol with value := Function.update ucontrol.value 0 priv.hp_gain }, 0)

/-- Source: `pablito_ctrl_headphone_put`.  The comparison is made on `long`, the
assignment converts the `long` to the `int` field, and the `switch` has no default
case. -/
def pablito_ctrl_headphone_put (priv : pablito_ctrl_priv) (ucontrol : snd_ctl_elem_value) :
    pablito_ctrl_priv × Int :=
  if priv.hp_gain ≠ ucontrol.value 0 then
    let priv := { priv with hp_gain := int_of_long (ucontrol.value 0) }
    -- 0: 1-high 2-high -> -10dB
    -- 1: 1-low 2-high -> 0dB
    -- 2: 1-low 2-low -> +10dB
    let priv :=
      if priv.hp_gain = 0 then
        let priv := { priv with gpiod_hp1 := gpiod_set_value priv.gpiod_hp1 1 }
        { priv with gpiod_hp2 := gpiod_set_value priv.gpiod_hp2 1 }
      else if priv.hp_gain = 1 then
        let priv := { priv with gpiod_hp1 := gpiod_set_value priv.gpiod_hp1 0 }
        { priv with gpiod_hp2 := gpiod_set_value priv.gpiod_hp2 1 }
      else if priv.hp_gain = 2 then
        let priv := { priv with gpiod_hp1 := gpiod_set_value priv.gpiod_hp1 0 }
        { priv with gpiod_hp2 := gpiod_set_value priv.gpiod_hp2 0 }
      else priv
    (priv, 1)
  else (priv, 0)

/-- Source: `pablito_ctrl_switch_info`. -/
def pablito_ctrl_switch_info (uinfo : snd_ctl_elem_info) : snd_ctl_elem_info × Int :=
  let uinfo := { uinfo with type := snd_ctl_elem_type.SNDRV_CTL_ELEM_TYPE_BOOLEAN }
  let uinfo := { uinfo with count := 1 }
  let uinfo := { uinfo with min := 0 }
  let uinfo := { uinfo with max := 1 }
  (uinfo, 0)

/-- Source: `pablito_ctrl_dac_mute_get`. -/
def pablito_ctrl_dac_mute_get (priv : pablito_ctrl_priv) (ucontrol : snd_ctl_elem_value) :
    snd_ctl_elem_value × Int :=
  ({ ucontrol with value := Function.update ucontrol.value 0 (int_of_bool priv.dac_mute) }, 0)

/-- Source: `pablito_ctrl_dac_mute_put`.  The `bool` field is promoted for the
comparison with the `long`; the assignment converts the `long` to `bool`. -/
def pablito_ctrl_dac_mute_put (priv : pablito_ctrl_priv) (ucontrol : snd_ctl_elem_value) :
    pablito_ctrl_priv × Int :=
  if int_of_bool priv.dac_mute ≠ ucontrol.value 0 then
    let priv := { priv with dac_mute := bool_of_long (ucontrol.value 0) }
    let priv := { priv with
      gpiod_dac_mute := gpiod_set_value priv.gpiod_dac_mute (int_of_bool priv.dac_mute) }
    (priv, 1)
  else (priv, 0)

/-- Source: `pablito_ctrl_xlr_gl_get`. -/
def pablito_ctrl_xlr_gl_get (priv : pablito_ctrl_priv) (ucontrol : snd_ctl_elem_value) :
    snd_ctl_elem_value × Int :=
  ({ ucontrol with value := Function.update ucontrol.value 0 (int_of_bool priv.xlr_gl) }, 0)

/-- Source: `pablito_ctrl_xlr_gl_put`. -/
def pablito_ctrl_xlr_gl_put (priv : pablito_ctrl_priv) (ucontrol : snd_ctl_elem_value) :
    pablito_ctrl_priv × Int :=
  if int_of_bool priv.xlr_gl ≠ ucontrol.value 0 then
    let priv := { priv with xlr_gl := bool_of_long (ucontrol.value 0) }
    let priv := { priv with
      gpiod_xlr_gl := gpiod_set_value priv.gpiod_xlr_gl (int_of_bool priv.xlr_gl) }
    (priv, 1)
  else (priv, 0)

/-- Source: `pablito_ctrl_probe`.  The results of the calls into the kernel are
arguments: whether the allocation succeeded, the result of each of the four
`devm_gpiod_get_optional` calls (an error code, a null descriptor or a line) and the
return value of `devm_snd_soc_register_component`.  The result is the private data as
it is when the function returns, if it was allocated, and the C return value. -/
def pablito_ctrl_probe (allocated : Bool)
    (dac_mute hp1 hp2 xlr_gl : Except Int (Option gpio_desc)) (registered : Int) :
    Option pablito_ctrl_priv × Int :=
  if !allocated then (none, -ENOMEM)
  else
    let priv : pablito_ctrl_priv := {}
    -- load all gpios
    match dac_mute with
    | Except.error e => (some priv, e)
    | Except.ok d =>
    let priv := { priv with gpiod_dac_mute := d }
    match hp1 with
    | Except.error e => (some priv, e)
    | Except.ok d =>
    let priv := { priv with gpiod_hp1 := d }
    match hp2 with
    | Except.error e => (some priv, e)
    | Except.ok d =>
    let priv := { priv with gpiod_hp2 := d }
    match xlr_gl with
    | Except.error e => (some priv, e)
    | Except.ok d =>
    let priv := { priv with gpiod_xlr_gl := d }
    -- force initial known state
    let priv := { priv with hp_gain := 0 }
    let priv := { priv with dac_mute := false }
    let priv := { priv with xlr_gl := false }
    let priv := { priv with gpiod_dac_mute := gpiod_set_value priv.gpiod_dac_mute 0 }
    let priv := { priv with gpiod_hp1 := gpiod_set_value priv.gpiod_hp1 1 }
    let priv := { priv with gpiod_hp2 := gpiod_set_value priv.gpiod_hp2 1 }
    let priv := { priv with gpiod_xlr_gl := gpiod_set_value priv.gpiod_xlr_gl 0 }
    (some priv, registered)

/-- A control value whose first entry is `v`. -/
def ucontrol_of (v : Int) : snd_ctl_elem_value := { value := fun _ => v }

/-- The private data after a sequence of `Headphone Gain` put calls with the given
values. -/
def headphone_puts (priv : pablito_ctrl_priv) (values : List Int) : pablito_ctrl_priv :=
  values.foldl (fun p v => (pablito_ctrl_headphone_put p (ucontrol_of v)).1) priv

/-- The levels of the lines `hp1` and `hp2` that the driver documents for a gain. -/
def documented_levels (gain : Int) : Option (Int × Int) :=
  if gain = 0 then some (1, 1)
  else if gain = 1 then some (0, 1)
  else if gain = 2 then some (0, 0)
  else none

/-- The levels of the lines `hp1` and `hp2` of the private data, when both lines are
there. -/
def hp_levels (priv : pablito_ctrl_priv) : Option (Int × Int) :=
  match priv.gpiod_hp1, priv.gpiod_hp2 with
  | some a, some b => some (a.value, b.value)
  | _, _ => none

/-- The private data after a probe that found all four lines and registered the
component. -/
def probed_state : pablito_ctrl_priv :=
  { gpiod_dac_mute := some { value := 0 }
    gpiod_hp1 := some { value := 1 }
    gpiod_hp2 := some { value := 1 }
    gpiod_xlr_gl := some { value := 0 }
    hp_gain := 0
    dac_mute := false
    xlr_gl := false }

/-- The stored gain is one of the advertised values and each of the lines `hp1` and
`hp2` that is there holds the level documented for the stored gain. -/
def headphone_consistent (priv : pablito_ctrl_priv) : Prop :=
  (priv.hp_gain = 0 ∧ priv.gpiod_hp1 = gpiod_set_value priv.gpiod_hp1 1 ∧
    priv.gpiod_hp2 = gpiod_set_value priv.gpiod_hp2 1) ∨
  (priv.hp_gain = 1 ∧ priv.gpiod_hp1 = gpiod_set_value priv.gpiod_hp1 0 ∧
    priv.gpiod_hp2 = gpiod_set_value priv.gpiod_hp2 1) ∨
  (priv.hp_gain = 2 ∧ priv.gpiod_hp1 = gpiod_set_value priv.gpiod_hp1 0 ∧
    priv.gpiod_hp2 = gpiod_set_value priv.gpiod_hp2 0)

instance (priv : pablito_ctrl_priv) : Decidable (headphone_consistent priv) := by
  unfold headphone_consistent
  infer_instance

end PablitoCtrl

/-! Rockpi touchscreen MCU: the conversion of a command string to bytes.

A shallow embedding of `is_hex` and `string_to_byte` of `drivers/misc/rockpi_mcu.c`.
A `char` is its integer value, the source string is the function from the index to the
character, and the destination buffer is the function from the index to the byte.
`string_to_byte` returns the destination after the call paired with the C return
value. -/

namespace RockpiMcu

/-- The errno value `EINVAL`. -/
def EINVAL : Int := 22

/-- Source: `is_hex`. -/
def is_hex (num : Int) : Int :=
  -- 0-9, a-f, A-F
  if (47 < num ∧ num < 58) ∨ (64 < num ∧ num < 71) ∨ (96 < num ∧ num < 103) then 1
  else 0

/-- Modelled from the spec: `hexval`, the value of a hexadecimal digit, the same for an
upper-case and a lower-case letter.  A character that is no digit has no value; 0
stands for it. -/
def hexval (c : Int) : Nat :=
  if 48 ≤ c ∧ c ≤ 57 then (c - 48).toNat
  else if 97 ≤ c ∧ c ≤ 102 then (c - 97).toNat + 10
  else if 65 ≤ c ∧ c ≤ 70 then (c - 65).toNat + 10
  else 0

/-- Modelled from the spec: the test of the C library for a hexadecimal digit. -/
def isxdigit (c : Int) : Bool :=
  decide ((48 ≤ c ∧ c ≤ 57) ∨ (97 ≤ c ∧ c ≤ 102) ∨ (65 ≤ c ∧ c ≤ 70))

/-- Modelled from the spec: the number that the library reads from the hexadecimal
digits at the head of a string, continuing from `acc`; it stops at the first character
that is no digit, the terminator included. -/
def parse_hex : List Int → Nat → Nat
  | [], acc => acc
  | ch :: rest, acc => if isxdigit ch then parse_hex rest (acc * 16 + hexval ch) else acc

/-- Modelled from the spec: the library call `sscanf(c, "%hhx", &bytes)`, which is not
part of the sources.  `c` holds the characters of the array.  When the string starts
with a hexadecimal digit the number read is stored as an `unsigned char`; otherwise
nothing is converted and `bytes` keeps its value. -/
def sscanf_hhx (c : List Int) (bytes : Nat) : Nat :=
  match c with
  | [] => bytes
  | ch :: _ => if isxdigit ch then parse_hex c 0 % 256 else bytes

/-- The loop of `string_to_byte` with `n` iterations left, at index `i`. -/
def string_to_byte_loop (source : Nat → Int) :
    Nat → Nat → Nat → (Nat → Nat) → Nat → (Nat → Nat) × Int
  | 0, _, _, destination, _ => (destination, 0)
  | n + 1, i, counter, destination, bytes =>
    if is_hex (source i) = 0 then (destination, -EINVAL)
    else if 0 = i % 2 then
      let c : List Int := [source i, source (i + 1), 0]
      let bytes := sscanf_hhx c bytes
      let destination := Function.update destination counter bytes
      string_to_byte_loop source n (i + 1) (counter + 1) destination bytes
    else string_to_byte_loop source n (i + 1) counter destination bytes

/-- Source: `string_to_byte`.  `bytes` is the value that the local variable of that name
holds before it is assigned, which C leaves open.  The remainder `size%2` is the one of
C, with the sign of `size`; the loop `for (i = 0; i < size; i++)` makes `size`
iterations, none when `size` is negative. -/
def string_to_byte (source : Nat → Int) (destination : Nat → Nat) (size : Int)
    (bytes : Nat) : (Nat → Nat) × Int :=
  if Int.tmod size 2 = 1 then (destination, -EINVAL)
  else string_to_byte_loop source size.toNat 0 0 destination bytes

/-- The characters of a C string literal followed by its terminator. -/
def c_string (s : String) : Nat → Int :=
  fun i => (s.data.map (fun ch => (ch.toNat : Int))).getD i 0

end RockpiMcu


namespace Mdp3

/-! ## Arithmetic of the engine flag -/

theorem int_shl_one_eq (n : Nat) (h : n < 31) : int_shl 1 n = 2 ^ n := by
  unfold int_shl
  rw [Nat.one_shiftLeft]
  apply Nat.mod_eq_of_lt
  exact Nat.pow_lt_pow_right (by norm_num) (by omega)

theorem int_shl_one_lt (n : Nat) (h : n < 31) : int_shl 1 n < 2 ^ 31 := by
  rw [int_shl_one_eq n h]
  exact Nat.pow_lt_pow_right (by norm_num) h

theorem s64_of_int_eq (p : Nat) (h : p < 2 ^ 31) : s64_of_int p = (p : Int) := by
  unfold s64_of_int
  have h1 : p % 2 ^ 32 = p := Nat.mod_eq_of_lt (by omega)
  rw [h1, if_pos h]

theorem testBit_two_pow (n j : Nat) : (2 ^ n).testBit j = decide (j = n) := by
  rw [Nat.testBit_two_pow]
  by_cases h : n = j <;> simp [h, eq_comm]

/-- The flag of a single component with an identifier below 31 is the power of two of
the identifier. -/
theorem own_flag_eq (n : Nat) (h : n < 31) :
    s64_of_int (int_shl 1 n) = ((1 <<< n : Nat) : Int) := by
  rw [s64_of_int_eq _ (int_shl_one_lt n h), int_shl_one_eq n h, Nat.one_shiftLeft]

/-- The flag of the reader that shares the SRAM of the resizer. -/
theorem shared_flag_eq (a b : Nat) (ha : a < 31) (hb : b < 31) :
    s64_of_int (int_shl 1 a ||| int_shl 1 b) = (((1 <<< a) ||| (1 <<< b) : Nat) : Int) := by
  rw [s64_of_int_eq _ (Nat.or_lt_two_pow (int_shl_one_lt a ha) (int_shl_one_lt b hb)),
    int_shl_one_eq a ha, int_shl_one_eq b hb, Nat.one_shiftLeft, Nat.one_shiftLeft]

/-- The two branches of `get_comp_flag`. -/
theorem get_comp_flag_cases (K : mdp_comp_ids) (ctx : mdp_comp_ctx) :
    get_comp_flag K ctx =
      if (∃ cfg, ctx.mdp_dev.mdp_cfg = some cfg ∧ cfg.rdma_rsz1_sram_sharing = true) ∧
          ctx.comp.id = K.MDP_COMP_RDMA0 then
        s64_of_int (int_shl 1 K.MDP_COMP_RDMA0 ||| int_shl 1 K.MDP_COMP_RSZ1)
      else s64_of_int (int_shl 1 ctx.comp.id) := by
  obtain ⟨comp, ⟨cfg, comps⟩, param, input⟩ := ctx
  cases cfg with
  | none => simp [get_comp_flag, __get_plat_cfg]
  | some cfg =>
    cases hs : cfg.rdma_rsz1_sram_sharing <;> by_cases hi : comp.id = K.MDP_COMP_RDMA0 <;>
      simp [get_comp_flag, __get_plat_cfg, hs, hi]

/-- C1: with the platform configuration present, `rdma_rsz1_sram_sharing` set and the
block being `MDP_COMP_RDMA0`, `get_comp_flag` returns exactly
`(1 << MDP_COMP_RDMA0) | (1 << MDP_COMP_RSZ1)`; in every other case (flag clear,
configuration absent, any other block) it returns exactly `1 << id`, a value with no
other bit set. -/
theorem get_comp_flag_exact (K : mdp_comp_ids) (ctx : mdp_comp_ctx)
    (hK : K.flags_fit) (hid : ctx.comp.id < K.MDP_MAX_COMP_COUNT) :
    ((∃ cfg, ctx.mdp_dev.mdp_cfg = some cfg ∧ cfg.rdma_rsz1_sram_sharing = true) ∧
        ctx.comp.id = K.MDP_COMP_RDMA0 →
      get_comp_flag K ctx
          = (((1 <<< K.MDP_COMP_RDMA0) ||| (1 <<< K.MDP_COMP_RSZ1) : Nat) : Int) ∧
        ∀ j, (get_comp_flag K ctx).testBit j
          = decide (j = K.MDP_COMP_RDMA0 ∨ j = K.MDP_COMP_RSZ1)) ∧
    (¬((∃ cfg, ctx.mdp_dev.mdp_cfg = some cfg ∧ cfg.rdma_rsz1_sram_sharing = true) ∧
        ctx.comp.id = K.MDP_COMP_RDMA0) →
      get_comp_flag K ctx = ((1 <<< ctx.comp.id : Nat) : Int) ∧
        ∀ j, (get_comp_flag K ctx).testBit j = decide (j = ctx.comp.id)) := by
  obtain ⟨hr, hz, hm⟩ := hK
  constructor
  · intro h
    have hv : get_comp_flag K ctx
        = (((1 <<< K.MDP_COMP_RDMA0) ||| (1 <<< K.MDP_COMP_RSZ1) : Nat) : Int) := by
      rw [get_comp_flag_cases, if_pos h]
      exact shared_flag_eq _ _ (by omega) (by omega)
    refine ⟨hv, fun j => ?_⟩
    rw [hv]
    show Nat.testBit _ j = _
    rw [Nat.testBit_or, Nat.one_shiftLeft, Nat.one_shiftLeft, testBit_two_pow, testBit_two_pow]
    simp
  · intro h
    have hv : get_comp_flag K ctx = ((1 <<< ctx.comp.id : Nat) : Int) := by
      rw [get_comp_flag_cases, if_neg h]
      exact own_flag_eq _ (by omega)
    refine ⟨hv, fun j => ?_⟩
    rw [hv]
    show Nat.testBit _ j = _
    rw [Nat.one_shiftLeft, testBit_two_pow]

/-- Witness of C1: the reader of the example enumeration with SRAM sharing. -/
theorem get_comp_flag_exact_witness :
    get_comp_flag example_ids
        { comp := { id := 11 },
          mdp_dev := { mdp_cfg := some { rdma_rsz1_sram_sharing := true } } }
      = (((1 <<< 11) ||| (1 <<< 15) : Nat) : Int) :=
  ((get_comp_flag_exact example_ids
      { comp := { id := 11 },
        mdp_dev := { mdp_cfg := some { rdma_rsz1_sram_sharing := true } } }
      (by decide) (by decide)).1 ⟨⟨_, rfl, rfl⟩, rfl⟩).1

/-- C2: for every block with a valid component identifier and every platform
configuration, absent or present, the mask returned by `get_comp_flag` has the bit of
the identifier of the block set. -/
theorem get_comp_flag_own_bit (K : mdp_comp_ids) (ctx : mdp_comp_ctx)
    (hK : K.flags_fit) (hid : ctx.comp.id < K.MDP_MAX_COMP_COUNT) :
    (get_comp_flag K ctx).testBit ctx.comp.id = true := by
  obtain ⟨hr, hz, hm⟩ := hK
  rw [get_comp_flag_cases]
  split
  · next h =>
    rw [shared_flag_eq _ _ (by omega) (by omega)]
    show Nat.testBit _ _ = _
    rw [Nat.testBit_or, Nat.one_shiftLeft, Nat.one_shiftLeft, testBit_two_pow, testBit_two_pow]
    simp [h.2]
  · rw [own_flag_eq _ (by omega)]
    show Nat.testBit _ _ = _
    rw [Nat.one_shiftLeft, testBit_two_pow]
    simp

/-- Witness of C2: the second resizer of the example enumeration without a platform
configuration. -/
theorem get_comp_flag_own_bit_witness :
    (get_comp_flag example_ids { comp := { id := 15 } }).testBit 15 = true :=
  get_comp_flag_own_bit example_ids { comp := { id := 15 } } (by decide) (by decide)

/-! ## Frame configuration of the scaler, the color corrector and the writer -/

/-- C3: `config_rsz_frame` always returns success.  With `frame.bypass` set it appends
exactly one command, the masked write of 0 to `PRZ_ENABLE` under mask 0x00000001; with
`frame.bypass` clear it appends exactly the four writes `PRZ_CONTROL_1` (mask
0x03FFFDF3), `PRZ_CONTROL_2` (mask 0x0FFFC290), `PRZ_HORIZONTAL_COEFF_STEP` and
`PRZ_VERTICAL_COEFF_STEP` (mask 0x007FFFFF each) in this order, none of them a write to
`PRZ_ENABLE`. -/
theorem config_rsz_frame_commands (ctx : mdp_comp_ctx) (cmd : mmsys_cmdq_cmd)
    (compose : v4l2_rect) :
    (config_rsz_frame ctx cmd compose).2 = 0 ∧
    (config_rsz_frame ctx cmd compose).1.pkt
      = cmd.pkt ++ appended cmd (config_rsz_frame ctx cmd compose).1 ∧
    appended cmd (config_rsz_frame ctx cmd compose).1
      = (if ctx.param.frame.bypass = true then
          [cmdq_entry.write ctx.comp.subsys_id ctx.comp.reg_base mdp_reg.PRZ_ENABLE
            0 0x00000001]
        else
          [cmdq_entry.write ctx.comp.subsys_id ctx.comp.reg_base mdp_reg.PRZ_CONTROL_1
            ctx.param.rsz.control1 0x03FFFDF3,
           cmdq_entry.write ctx.comp.subsys_id ctx.comp.reg_base mdp_reg.PRZ_CONTROL_2
            ctx.param.rsz.control2 0x0FFFC290,
           cmdq_entry.write ctx.comp.subsys_id ctx.comp.reg_base
            mdp_reg.PRZ_HORIZONTAL_COEFF_STEP ctx.param.rsz.coeff_step_x 0x007FFFFF,
           cmdq_entry.write ctx.comp.subsys_id ctx.comp.reg_base
            mdp_reg.PRZ_VERTICAL_COEFF_STEP ctx.param.rsz.coeff_step_y 0x007FFFFF]) ∧
    (if ctx.param.frame.bypass = true then
        (appended cmd (config_rsz_frame ctx cmd compose).1).length = 1
      else
        (appended cmd (config_rsz_frame ctx cmd compose).1).length = 4 ∧
        (appended cmd (config_rsz_frame ctx cmd compose).1).filter
          (cmdq_entry.writes_reg mdp_reg.PRZ_ENABLE) = []) := by
  cases hb : ctx.param.frame.bypass <;>
    simp [config_rsz_frame, appended, MM_REG_WRITE, MM_REG_WRITE_MASK, hb,
      cmdq_entry.writes_reg]

/-- C4: for every context, compose rectangle and builder state, `config_ccorr_frame`
returns success and leaves the command list as it was. -/
theorem config_ccorr_frame_noop (ctx : mdp_comp_ctx) (cmd : mmsys_cmdq_cmd)
    (compose : v4l2_rect) :
    (config_ccorr_frame ctx cmd compose).2 = 0 ∧
    (config_ccorr_frame ctx cmd compose).1 = cmd ∧
    appended cmd (config_ccorr_frame ctx cmd compose).1 = [] := by
  simp [config_ccorr_frame, appended]

/-- C5: for every parameter block and every platform configuration, the commands
appended by `config_wrot_frame` contain exactly one write to `VIDO_DITHER`, and that
write has value 0xFF000000 and mask 0xFF000000. -/
theorem config_wrot_frame_alpha (ctx : mdp_comp_ctx) (cmd : mmsys_cmdq_cmd)
    (compose : v4l2_rect) :
    (config_wrot_frame ctx cmd compose).1.pkt
      = cmd.pkt ++ appended cmd (config_wrot_frame ctx cmd compose).1 ∧
    (appended cmd (config_wrot_frame ctx cmd compose).1).filter
        (cmdq_entry.writes_reg mdp_reg.VIDO_DITHER)
      = [cmdq_entry.write ctx.comp.subsys_id ctx.comp.reg_base mdp_reg.VIDO_DITHER
          0xFF000000 0xFF000000] := by
  obtain ⟨comp, ⟨cfg, comps⟩, param, input⟩ := ctx
  by_cases hf : param.wrot.fifo_test = 0 <;> cases cfg with
  | none =>
    simp [config_wrot_frame, appended, __get_plat_cfg, MM_REG_WRITE, MM_REG_WRITE_MASK, hf,
      cmdq_entry.writes_reg, List.filter_cons]
  | some cfg =>
    cases hc : cfg.wrot_filter_constraint <;>
    simp [config_wrot_frame, appended, __get_plat_cfg, MM_REG_WRITE, MM_REG_WRITE_MASK, hf,
      hc, cmdq_entry.writes_reg, List.filter_cons]

/-! ## ISP hand-off -/

/-- The packet and the return value of `config_isp_frame` for an accepted thread. -/
theorem config_isp_frame_accept (ctx : mdp_comp_ctx) (cmd : mmsys_cmdq_cmd)
    (compose : v4l2_rect) (h : ctx.param.isp.cq_idx < 12) :
    config_isp_frame ctx cmd compose
      = ({ pkt := cmd.pkt ++ smx_writes ctx ++
            [cmdq_entry.write ctx.comp.subsys_id ctx.comp.reg_base
              (mdp_reg.ofs (0x2208 + 12 * ctx.param.isp.cq_idx)) ctx.param.isp.cq_iova
              0xFFFFFFFF] }, 0) := by
  obtain ⟨comp, dev, ⟨fr, rsz, wrot, ⟨dl, smxi, cq, cqv, tp⟩, rdma, wdma, sf, ty, pin, pout,
    nout⟩, inp⟩ := ctx
  simp only at h
  interval_cases cq <;>
    simp [config_isp_frame, smx_writes, MM_REG_WRITE_MASK, ISP_DRV_DIP_CQ_THRE0,
      ISP_DRV_DIP_CQ_THRE1, ISP_DRV_DIP_CQ_THRE2, ISP_DRV_DIP_CQ_THRE3, ISP_DRV_DIP_CQ_THRE4,
      ISP_DRV_DIP_CQ_THRE5, ISP_DRV_DIP_CQ_THRE6, ISP_DRV_DIP_CQ_THRE7, ISP_DRV_DIP_CQ_THRE8,
      ISP_DRV_DIP_CQ_THRE9, ISP_DRV_DIP_CQ_THRE10, ISP_DRV_DIP_CQ_THRE11]

/-- The packet and the return value of `config_isp_frame` for an unknown thread. -/
theorem config_isp_frame_reject (ctx : mdp_comp_ctx) (cmd : mmsys_cmdq_cmd)
    (compose : v4l2_rect) (h : 12 ≤ ctx.param.isp.cq_idx) :
    config_isp_frame ctx cmd compose = ({ pkt := cmd.pkt ++ smx_writes ctx }, -EINVAL) := by
  have h0 : ctx.param.isp.cq_idx ≠ 0 := by omega
  have h1 : ctx.param.isp.cq_idx ≠ 1 := by omega
  have h2 : ctx.param.isp.cq_idx ≠ 2 := by omega
  have h3 : ctx.param.isp.cq_idx ≠ 3 := by omega
  have h4 : ctx.param.isp.cq_idx ≠ 4 := by omega
  have h5 : ctx.param.isp.cq_idx ≠ 5 := by omega
  have h6 : ctx.param.isp.cq_idx ≠ 6 := by omega
  have h7 : ctx.param.isp.cq_idx ≠ 7 := by omega
  have h8 : ctx.param.isp.cq_idx ≠ 8 := by omega
  have h9 : ctx.param.isp.cq_idx ≠ 9 := by omega
  have h10 : ctx.param.isp.cq_idx ≠ 10 := by omega
  have h11 : ctx.param.isp.cq_idx ≠ 11 := by omega
  simp [config_isp_frame, smx_writes, MM_REG_WRITE_MASK, ISP_DRV_DIP_CQ_THRE0,
    ISP_DRV_DIP_CQ_THRE1, ISP_DRV_DIP_CQ_THRE2, ISP_DRV_DIP_CQ_THRE3, ISP_DRV_DIP_CQ_THRE4,
    ISP_DRV_DIP_CQ_THRE5, ISP_DRV_DIP_CQ_THRE6, ISP_DRV_DIP_CQ_THRE7, ISP_DRV_DIP_CQ_THRE8,
    ISP_DRV_DIP_CQ_THRE9, ISP_DRV_DIP_CQ_THRE10, ISP_DRV_DIP_CQ_THRE11,
    h0, h1, h2, h3, h4, h5, h6, h7, h8, h9, h10, h11]

/-- The packet of `wait_isp_event` after the direct-link select writes. -/
theorem wait_isp_event_prefix (K : mdp_comp_ids) (ctx : mdp_comp_ctx) (cmd : mmsys_cmdq_cmd) :
    (if ctx.param.isp.dl_flags &&& int_shl 1 K.MDP_COMP_CAMIN2 ≠ 0 then
        MM_REG_WRITE_MASK
          (if ctx.param.isp.dl_flags &&& int_shl 1 K.MDP_COMP_CAMIN ≠ 0 then
            MM_REG_WRITE_MASK cmd ctx.comp.subsys_id ctx.comp.reg_base (mdp_reg.ofs 0x0030)
              0x00000000 0x00000200
          else cmd)
          ctx.comp.subsys_id ctx.comp.reg_base (mdp_reg.ofs 0x0030) 0x00000000 0x00000C00
      else
        (if ctx.param.isp.dl_flags &&& int_shl 1 K.MDP_COMP_CAMIN ≠ 0 then
          MM_REG_WRITE_MASK cmd ctx.comp.subsys_id ctx.comp.reg_base (mdp_reg.ofs 0x0030)
            0x00000000 0x00000200
        else cmd))
      = { pkt := cmd.pkt ++ dl_sel_writes K ctx } := by
  unfold dl_sel_writes MM_REG_WRITE_MASK
  split_ifs <;> simp

/-- The packet and the return value of `wait_isp_event` for an accepted thread. -/
theorem wait_isp_event_accept (K : mdp_comp_ids) (ctx : mdp_comp_ctx) (cmd : mmsys_cmdq_cmd)
    (h : ctx.param.isp.cq_idx < 12) :
    ∃ ev, isp_p2_done ctx.param.isp.cq_idx = some ev ∧
      wait_isp_event K ctx cmd
        = ({ pkt := cmd.pkt ++ dl_sel_writes K ctx ++
              [cmdq_entry.write ctx.comp.subsys_id ctx.comp.reg_base (mdp_reg.ofs 0x2000)
                (1 <<< ctx.param.isp.cq_idx) (1 <<< ctx.param.isp.cq_idx),
               cmdq_entry.wfe ev] }, 0) := by
  have hp := wait_isp_event_prefix K ctx cmd
  obtain ⟨comp, dev, ⟨fr, rsz, wrot, ⟨dl, smxi, cq, cqv, tp⟩, rdma, wdma, sf, ty, pin, pout,
    nout⟩, inp⟩ := ctx
  simp only at h hp
  unfold wait_isp_event
  simp only [hp]
  interval_cases cq <;>
    simp [isp_p2_done, MM_REG_WRITE_MASK, MM_REG_WAIT, ISP_DRV_DIP_CQ_THRE0,
      ISP_DRV_DIP_CQ_THRE1, ISP_DRV_DIP_CQ_THRE2, ISP_DRV_DIP_CQ_THRE3, ISP_DRV_DIP_CQ_THRE4,
      ISP_DRV_DIP_CQ_THRE5, ISP_DRV_DIP_CQ_THRE6, ISP_DRV_DIP_CQ_THRE7, ISP_DRV_DIP_CQ_THRE8,
      ISP_DRV_DIP_CQ_THRE9, ISP_DRV_DIP_CQ_THRE10, ISP_DRV_DIP_CQ_THRE11]

/-- The packet and the return value of `wait_isp_event` for an unknown thread. -/
theorem wait_isp_event_reject (K : mdp_comp_ids) (ctx : mdp_comp_ctx) (cmd : mmsys_cmdq_cmd)
    (h : 12 ≤ ctx.param.isp.cq_idx) :
    wait_isp_event K ctx cmd = ({ pkt := cmd.pkt ++ dl_sel_writes K ctx }, -EINVAL) := by
  have hp := wait_isp_event_prefix K ctx cmd
  have h0 : ctx.param.isp.cq_idx ≠ 0 := by omega
  have h1 : ctx.param.isp.cq_idx ≠ 1 := by omega
  have h2 : ctx.param.isp.cq_idx ≠ 2 := by omega
  have h3 : ctx.param.isp.cq_idx ≠ 3 := by omega
  have h4 : ctx.param.isp.cq_idx ≠ 4 := by omega
  have h5 : ctx.param.isp.cq_idx ≠ 5 := by omega
  have h6 : ctx.param.isp.cq_idx ≠ 6 := by omega
  have h7 : ctx.param.isp.cq_idx ≠ 7 := by omega
  have h8 : ctx.param.isp.cq_idx ≠ 8 := by omega
  have h9 : ctx.param.isp.cq_idx ≠ 9 := by omega
  have h10 : ctx.param.isp.cq_idx ≠ 10 := by omega
  have h11 : ctx.param.isp.cq_idx ≠ 11 := by omega
  unfold wait_isp_event
  simp only [hp]
  simp [ISP_DRV_DIP_CQ_THRE0,
    ISP_DRV_DIP_CQ_THRE1, ISP_DRV_DIP_CQ_THRE2, ISP_DRV_DIP_CQ_THRE3, ISP_DRV_DIP_CQ_THRE4,
    ISP_DRV_DIP_CQ_THRE5, ISP_DRV_DIP_CQ_THRE6, ISP_DRV_DIP_CQ_THRE7, ISP_DRV_DIP_CQ_THRE8,
    ISP_DRV_DIP_CQ_THRE9, ISP_DRV_DIP_CQ_THRE10, ISP_DRV_DIP_CQ_THRE11,
    h0, h1, h2, h3, h4, h5, h6, h7, h8, h9, h10, h11]

/-- The entries appended to a packet that was extended by a list are that list. -/
theorem appended_append (cmd : mmsys_cmdq_cmd) (l : List cmdq_entry) :
    appended cmd { pkt := cmd.pkt ++ l } = l := by
  simp [appended]

/-- No direct-link select write is a wait entry. -/
theorem dl_sel_writes_no_wfe (K : mdp_comp_ids) (ctx : mdp_comp_ctx) :
    ∀ e ∈ dl_sel_writes K ctx, e.is_wfe = false := by
  intro e he
  unfold dl_sel_writes at he
  rw [List.mem_append] at he
  rcases he with he | he <;> split_ifs at he <;> simp at he <;> simp [he, cmdq_entry.is_wfe]

/-- Counterexample to C6 as stated: with completion-queue index 0, `config_isp_subfrm`
appends a single write, the tile address to offset 0x2304; the packet holds neither a
write of the pattern 0x0001 under mask 0x00000001 nor a wait entry. -/
theorem config_isp_subfrm_no_enable_no_wait :
    (config_isp_subfrm { param := { isp := { cq_idx := 0 } } } {} 0).1.pkt
      = [cmdq_entry.write 0 0 (mdp_reg.ofs 0x2304) 0 0xFFFFFFFF] ∧
    (∀ sub base reg, cmdq_entry.write sub base reg 0x0001 0x00000001
      ∉ appended {} (config_isp_subfrm { param := { isp := { cq_idx := 0 } } } {} 0).1) ∧
    cmdq_entry.wfe mdp_event.ISP_P2_0_DONE
      ∉ appended {} (config_isp_subfrm { param := { isp := { cq_idx := 0 } } } {} 0).1 := by
  simp [config_isp_subfrm, MM_REG_WRITE_MASK, appended]

/-- C6, amended: with completion-queue index 0 the write of the control-enable pattern
0x0001 under mask 0x00000001 and the wait for `ISP_P2_0_DONE` are the last two entries
appended by `wait_isp_event`, which returns success; `config_isp_subfrm` returns success
and appends only the tile address write to offset 0x2304 under the full mask. -/
theorem isp_thread0_enable_and_wait (K : mdp_comp_ids) (ctx : mdp_comp_ctx)
    (cmd : mmsys_cmdq_cmd) (index : Nat)
    (h : ctx.param.isp.cq_idx = ISP_DRV_DIP_CQ_THRE0) :
    (wait_isp_event K ctx cmd).2 = 0 ∧
    (wait_isp_event K ctx cmd).1.pkt
      = cmd.pkt ++ dl_sel_writes K ctx ++
          [cmdq_entry.write ctx.comp.subsys_id ctx.comp.reg_base (mdp_reg.ofs 0x2000)
            0x0001 0x00000001,
           cmdq_entry.wfe mdp_event.ISP_P2_0_DONE] ∧
    config_isp_subfrm ctx cmd index
      = ({ pkt := cmd.pkt ++
            [cmdq_entry.write ctx.comp.subsys_id ctx.comp.reg_base (mdp_reg.ofs 0x2304)
              (ctx.param.isp.tpipe_iova index) 0xFFFFFFFF] }, 0) := by
  have h0 : ctx.param.isp.cq_idx = 0 := h
  obtain ⟨ev, hev, hw⟩ := wait_isp_event_accept K ctx cmd (by omega)
  rw [h0] at hev hw
  simp only [isp_p2_done, Option.some.injEq] at hev
  subst hev
  refine ⟨by rw [hw], by rw [hw]; rfl, ?_⟩
  simp [config_isp_subfrm, MM_REG_WRITE_MASK]

/-- Witness of C6: thread 0 on an empty packet without direct-link flags. -/
theorem isp_thread0_enable_and_wait_witness :
    (wait_isp_event example_ids { param := { isp := { cq_idx := 0 } } } {}).1.pkt
      = [cmdq_entry.write 0 0 (mdp_reg.ofs 0x2000) 0x0001 0x00000001,
         cmdq_entry.wfe mdp_event.ISP_P2_0_DONE] := by
  have h := (isp_thread0_enable_and_wait example_ids { param := { isp := { cq_idx := 0 } } }
    {} 0 rfl).2.1
  rw [h]
  decide

/-- Counterexample to C7 as stated: with completion-queue index 12, `config_isp_subfrm`
returns success, not `-EINVAL`, and appends one command. -/
theorem config_isp_subfrm_accepts_index_12 :
    (config_isp_subfrm { param := { isp := { cq_idx := 12 } } } {} 0).2 = 0 ∧
    (config_isp_subfrm { param := { isp := { cq_idx := 12 } } } {} 0).2 ≠ -EINVAL ∧
    appended {} (config_isp_subfrm { param := { isp := { cq_idx := 12 } } } {} 0).1
      = [cmdq_entry.write 0 0 (mdp_reg.ofs 0x2304) 0 0xFFFFFFFF] := by
  simp [config_isp_subfrm, MM_REG_WRITE_MASK, appended, EINVAL]

/-- C7, amended: with completion-queue index 12 it is `wait_isp_event` that returns
`-EINVAL`; it has then appended no enable write and no wait, only the direct-link select
writes of the flags set in `dl_flags`, hence nothing at all when neither flag is set.
`config_isp_subfrm` does not read the index: it returns success and appends its tile
address write. -/
theorem isp_index_12_rejected_by_wait (K : mdp_comp_ids) (ctx : mdp_comp_ctx)
    (cmd : mmsys_cmdq_cmd) (index : Nat) (h : ctx.param.isp.cq_idx = 12) :
    (wait_isp_event K ctx cmd).2 = -EINVAL ∧
    (wait_isp_event K ctx cmd).1.pkt = cmd.pkt ++ dl_sel_writes K ctx ∧
    (ctx.param.isp.dl_flags &&& int_shl 1 K.MDP_COMP_CAMIN = 0 ∧
        ctx.param.isp.dl_flags &&& int_shl 1 K.MDP_COMP_CAMIN2 = 0 →
      (wait_isp_event K ctx cmd).1 = cmd) ∧
    (config_isp_subfrm ctx cmd index).2 = 0 ∧
    appended cmd (config_isp_subfrm ctx cmd index).1
      = [cmdq_entry.write ctx.comp.subsys_id ctx.comp.reg_base (mdp_reg.ofs 0x2304)
          (ctx.param.isp.tpipe_iova index) 0xFFFFFFFF] := by
  have hw := wait_isp_event_reject K ctx cmd (by omega)
  refine ⟨by rw [hw], by rw [hw], ?_, ?_, ?_⟩
  · rintro ⟨h1, h2⟩
    rw [hw]
    simp [dl_sel_writes, h1, h2]
  · simp [config_isp_subfrm]
  · simp [config_isp_subfrm, MM_REG_WRITE_MASK, appended]

/-- Witness of C7: index 12 on an empty packet without direct-link flags. -/
theorem isp_index_12_rejected_by_wait_witness :
    (wait_isp_event example_ids { param := { isp := { cq_idx := 12 } } } {}).2 = -EINVAL ∧
    (wait_isp_event example_ids { param := { isp := { cq_idx := 12 } } } {}).1 = {} :=
  ⟨(isp_index_12_rejected_by_wait example_ids { param := { isp := { cq_idx := 12 } } }
      {} 0 rfl).1,
   (isp_index_12_rejected_by_wait example_ids { param := { isp := { cq_idx := 12 } } }
      {} 0 rfl).2.2.1 ⟨by decide, by decide⟩⟩

/-- C8: `config_isp_frame` returns `-EINVAL` if and only if `cq_idx` is not one of the
twelve thread indices `ISP_DRV_DIP_CQ_THRE0 .. ISP_DRV_DIP_CQ_THRE11`, and returns
success for each of the twelve. -/
theorem config_isp_frame_einval_iff (ctx : mdp_comp_ctx) (cmd : mmsys_cmdq_cmd)
    (compose : v4l2_rect) :
    ((config_isp_frame ctx cmd compose).2 = -EINVAL ↔ ctx.param.isp.cq_idx ∉ isp_cq_threads) ∧
    ((config_isp_frame ctx cmd compose).2 = 0 ↔ ctx.param.isp.cq_idx ∈ isp_cq_threads) := by
  have hm : ctx.param.isp.cq_idx ∈ isp_cq_threads ↔ ctx.param.isp.cq_idx < 12 := by
    simp only [isp_cq_threads, ISP_DRV_DIP_CQ_THRE0,
      ISP_DRV_DIP_CQ_THRE1, ISP_DRV_DIP_CQ_THRE2, ISP_DRV_DIP_CQ_THRE3, ISP_DRV_DIP_CQ_THRE4,
      ISP_DRV_DIP_CQ_THRE5, ISP_DRV_DIP_CQ_THRE6, ISP_DRV_DIP_CQ_THRE7, ISP_DRV_DIP_CQ_THRE8,
      ISP_DRV_DIP_CQ_THRE9, ISP_DRV_DIP_CQ_THRE10, ISP_DRV_DIP_CQ_THRE11, List.mem_cons,
      List.mem_singleton, List.not_mem_nil, or_false]
    omega
  rw [hm]
  by_cases h : ctx.param.isp.cq_idx < 12
  · rw [config_isp_frame_accept ctx cmd compose h]
    simp [h, EINVAL]
  · rw [config_isp_frame_reject ctx cmd compose (by omega)]
    simp [h, EINVAL]

/-- Counterexample to C9 as stated: with completion-queue index 12 `config_isp_frame`
returns `-EINVAL` after it has appended its eight SMX writes to an empty packet, and
`wait_isp_event` returns `-EINVAL` after it has appended the select write of a
direct-link flag that is set. -/
theorem isp_einval_after_append :
    (config_isp_frame { param := { isp := { cq_idx := 12 } } } {} {}).2 = -EINVAL ∧
    (config_isp_frame { param := { isp := { cq_idx := 12 } } } {} {}).1 ≠ {} ∧
    (appended {} (config_isp_frame { param := { isp := { cq_idx := 12 } } } {} {}).1).length
      = 8 ∧
    (wait_isp_event example_ids { param := { isp := { cq_idx := 12, dl_flags := 512 } } }
      {}).2 = -EINVAL ∧
    (wait_isp_event example_ids { param := { isp := { cq_idx := 12, dl_flags := 512 } } }
      {}).1 ≠ {} ∧
    appended {}
        (wait_isp_event example_ids { param := { isp := { cq_idx := 12, dl_flags := 512 } } }
          {}).1
      = [cmdq_entry.write 0 0 (mdp_reg.ofs 0x0030) 0x00000000 0x00000200] := by
  decide

/-- C9, amended: whenever `config_isp_frame` returns `-EINVAL` it has appended exactly
its eight SMX base-address writes and no completion-queue write; whenever
`wait_isp_event` returns `-EINVAL` it has appended only the direct-link select writes of
the flags set in `dl_flags`, neither an enable write nor a wait, and nothing at all when
neither flag is set.  The entries that were in the packet before the call stay. -/
theorem isp_einval_appended (K : mdp_comp_ids) (ctx : mdp_comp_ctx)
    (cmd : mmsys_cmdq_cmd) (compose : v4l2_rect) :
    ((config_isp_frame ctx cmd compose).2 = -EINVAL →
      (config_isp_frame ctx cmd compose).1.pkt = cmd.pkt ++ smx_writes ctx) ∧
    ((wait_isp_event K ctx cmd).2 = -EINVAL →
      (wait_isp_event K ctx cmd).1.pkt = cmd.pkt ++ dl_sel_writes K ctx ∧
      (∀ e ∈ dl_sel_writes K ctx,
        e.is_wfe = false ∧ e.writes_reg (mdp_reg.ofs 0x2000) = false) ∧
      (ctx.param.isp.dl_flags &&& int_shl 1 K.MDP_COMP_CAMIN = 0 ∧
          ctx.param.isp.dl_flags &&& int_shl 1 K.MDP_COMP_CAMIN2 = 0 →
        (wait_isp_event K ctx cmd).1 = cmd)) := by
  constructor
  · intro h
    by_cases hq : ctx.param.isp.cq_idx < 12
    · rw [config_isp_frame_accept ctx cmd compose hq] at h
      simp [EINVAL] at h
    · rw [config_isp_frame_reject ctx cmd compose (by omega)]
  · intro h
    by_cases hq : ctx.param.isp.cq_idx < 12
    · obtain ⟨ev, -, hw⟩ := wait_isp_event_accept K ctx cmd hq
      rw [hw] at h
      simp [EINVAL] at h
    · rw [wait_isp_event_reject K ctx cmd (by omega)]
      refine ⟨rfl, ?_, ?_⟩
      · intro e he
        refine ⟨dl_sel_writes_no_wfe K ctx e he, ?_⟩
        unfold dl_sel_writes at he
        rw [List.mem_append] at he
        rcases he with he | he <;> split_ifs at he <;> simp at he <;>
          simp [he, cmdq_entry.writes_reg]
      · rintro ⟨h1, h2⟩
        simp [dl_sel_writes, h1, h2]

/-- Witness of C9: index 12 with the first direct-link flag set. -/
theorem isp_einval_appended_witness :
    (config_isp_frame { param := { isp := { cq_idx := 12, dl_flags := 512 } } } {} {}).1.pkt
      = [] ++ smx_writes { param := { isp := { cq_idx := 12, dl_flags := 512 } } } ∧
    (wait_isp_event example_ids { param := { isp := { cq_idx := 12, dl_flags := 512 } } }
        {}).1.pkt
      = [] ++ dl_sel_writes example_ids
          { param := { isp := { cq_idx := 12, dl_flags := 512 } } } :=
  ⟨(isp_einval_appended example_ids { param := { isp := { cq_idx := 12, dl_flags := 512 } } }
      {} {}).1 (by decide),
   ((isp_einval_appended example_ids { param := { isp := { cq_idx := 12, dl_flags := 512 } } }
      {} {}).2 (by decide)).1⟩

/-- C10: `config_isp_frame` and `wait_isp_event` agree on the completion-queue index.
For every `cq_idx` one succeeds if and only if the other does, and for every accepted
thread `k` (0..11) the entries appended by `wait_isp_event` end with the enable write
whose value and mask are both `1 << k`, immediately followed by the wait for
`ISP_P2_k_DONE`, which is the only wait entry. -/
theorem isp_frame_and_wait_agree (K : mdp_comp_ids) (ctx : mdp_comp_ctx)
    (cmd cmd2 : mmsys_cmdq_cmd) (compose : v4l2_rect) :
    ((config_isp_frame ctx cmd compose).2 = 0 ↔ (wait_isp_event K ctx cmd2).2 = 0) ∧
    (∀ k, k < 12 → ctx.param.isp.cq_idx = k →
      ∃ ev pre, isp_p2_done k = some ev ∧
        (wait_isp_event K ctx cmd2).1.pkt
          = cmd2.pkt ++ appended cmd2 (wait_isp_event K ctx cmd2).1 ∧
        appended cmd2 (wait_isp_event K ctx cmd2).1
          = pre ++ [cmdq_entry.write ctx.comp.subsys_id ctx.comp.reg_base (mdp_reg.ofs 0x2000)
                      (1 <<< k) (1 <<< k),
                    cmdq_entry.wfe ev] ∧
        (∀ e ∈ pre, e.is_wfe = false) ∧
        (appended cmd2 (wait_isp_event K ctx cmd2).1).filter cmdq_entry.is_wfe
          = [cmdq_entry.wfe ev]) := by
  constructor
  · by_cases hq : ctx.param.isp.cq_idx < 12
    · obtain ⟨ev, -, hw⟩ := wait_isp_event_accept K ctx cmd2 hq
      rw [config_isp_frame_accept ctx cmd compose hq, hw]
    · rw [config_isp_frame_reject ctx cmd compose (by omega),
        wait_isp_event_reject K ctx cmd2 (by omega)]
  · intro k hk hq
    obtain ⟨ev, hev, hw⟩ := wait_isp_event_accept K ctx cmd2 (by omega)
    rw [hq] at hev hw
    have hno := dl_sel_writes_no_wfe K ctx
    refine ⟨ev, dl_sel_writes K ctx, hev, ?_, ?_, hno, ?_⟩
    · rw [hw]; simp [appended]
    · rw [hw]; simp [appended]
    · rw [hw]
      have hf : (dl_sel_writes K ctx).filter cmdq_entry.is_wfe = [] := by
        rw [List.filter_eq_nil_iff]
        intro e he
        simp [hno e he]
      simp [appended, List.filter_append, hf, List.filter_cons, cmdq_entry.is_wfe]

/-- Witness of C10: thread 5 with both direct-link flags set. -/
theorem isp_frame_and_wait_agree_witness :
    ∃ ev pre, isp_p2_done 5 = some ev ∧
      (wait_isp_event example_ids { param := { isp := { cq_idx := 5, dl_flags := 1536 } } }
          {}).1.pkt
        = [] ++ appended {}
            (wait_isp_event example_ids
              { param := { isp := { cq_idx := 5, dl_flags := 1536 } } } {}).1 ∧
      appended {}
          (wait_isp_event example_ids { param := { isp := { cq_idx := 5, dl_flags := 1536 } } }
            {}).1
        = pre ++ [cmdq_entry.write 0 0 (mdp_reg.ofs 0x2000) (1 <<< 5) (1 <<< 5),
                  cmdq_entry.wfe ev] ∧
      (∀ e ∈ pre, e.is_wfe = false) ∧
      (appended {}
          (wait_isp_event example_ids { param := { isp := { cq_idx := 5, dl_flags := 1536 } } }
            {}).1).filter cmdq_entry.is_wfe
        = [cmdq_entry.wfe ev] :=
  (isp_frame_and_wait_agree example_ids
    { param := { isp := { cq_idx := 5, dl_flags := 1536 } } } {} {} {}).2 5 (by decide) rfl


/-! ## Completion waits of the reader and the writers -/

/-- C11: for the reader with alias 0, the writer and rotator with alias 0 and the DMA
writer, `wait_comp_event` returns success, the first entry it appends is the wait for the
completion event of the block (`RDMA0_DONE`, `WROT0_DONE`, `WDMA0_DONE`), the last entry
is the disable write of the block (value 0 under mask 0x00000001 on `MDP_RDMA_EN`,
`VIDO_ROT_EN`, `WDMA_EN`), and no write precedes the wait. -/
theorem wait_comp_event_wait_then_disable (ctx : mdp_comp_ctx) (cmd : mmsys_cmdq_cmd) :
    (ctx.comp.alias_id = 0 →
      (wait_rdma_event ctx cmd).2 = 0 ∧
      (wait_rdma_event ctx cmd).1.pkt = cmd.pkt ++ appended cmd (wait_rdma_event ctx cmd).1 ∧
      appended cmd (wait_rdma_event ctx cmd).1
        = [cmdq_entry.wfe mdp_event.RDMA0_DONE,
           cmdq_entry.write ctx.comp.subsys_id ctx.comp.reg_base mdp_reg.MDP_RDMA_EN
             0 0x00000001]) ∧
    (ctx.comp.alias_id = 0 →
      (wait_wrot_event ctx cmd).2 = 0 ∧
      (wait_wrot_event ctx cmd).1.pkt = cmd.pkt ++ appended cmd (wait_wrot_event ctx cmd).1 ∧
      (appended cmd (wait_wrot_event ctx cmd).1).head?
        = some (cmdq_entry.wfe mdp_event.WROT0_DONE) ∧
      (appended cmd (wait_wrot_event ctx cmd).1).getLast?
        = some (cmdq_entry.write ctx.comp.subsys_id ctx.comp.reg_base mdp_reg.VIDO_ROT_EN
            0 0x00000001) ∧
      appended cmd (wait_wrot_event ctx cmd).1
        = [cmdq_entry.wfe mdp_event.WROT0_DONE] ++
          (if cfg_has ctx.mdp_dev.mdp_cfg (fun c => c.wrot_filter_constraint) = true then
            [cmdq_entry.write ctx.comp.subsys_id ctx.comp.reg_base mdp_reg.VIDO_MAIN_BUF_SIZE
              0 0x00000077]
          else []) ++
          [cmdq_entry.write ctx.comp.subsys_id ctx.comp.reg_base mdp_reg.VIDO_ROT_EN
            0 0x00000001]) ∧
    ((wait_wdma_event ctx cmd).2 = 0 ∧
      (wait_wdma_event ctx cmd).1.pkt = cmd.pkt ++ appended cmd (wait_wdma_event ctx cmd).1 ∧
      appended cmd (wait_wdma_event ctx cmd).1
        = [cmdq_entry.wfe mdp_event.WDMA0_DONE,
           cmdq_entry.write ctx.comp.subsys_id ctx.comp.reg_base mdp_reg.WDMA_EN
             0 0x00000001]) := by
  refine ⟨fun h => ?_, fun h => ?_, ?_⟩
  · simp [wait_rdma_event, h, appended, MM_REG_WAIT, MM_REG_WRITE, MM_REG_WRITE_MASK]
  · by_cases hf : cfg_has ctx.mdp_dev.mdp_cfg (fun c => c.wrot_filter_constraint) = true <;>
      simp [wait_wrot_event, __get_plat_cfg, h, hf, appended, MM_REG_WAIT, MM_REG_WRITE,
        MM_REG_WRITE_MASK]
  · simp [wait_wdma_event, appended, MM_REG_WAIT, MM_REG_WRITE, MM_REG_WRITE_MASK]

/-- Witness of C11: the writer and rotator with alias 0 under the filter constraint. -/
theorem wait_comp_event_wait_then_disable_witness :
    appended {}
        (wait_wrot_event
          { mdp_dev := { mdp_cfg := some { wrot_filter_constraint := true } } } {}).1
      = [cmdq_entry.wfe mdp_event.WROT0_DONE,
         cmdq_entry.write 0 0 mdp_reg.VIDO_MAIN_BUF_SIZE 0 0x00000077,
         cmdq_entry.write 0 0 mdp_reg.VIDO_ROT_EN 0 0x00000001] ∧
    appended {} (wait_rdma_event {} {}).1
      = [cmdq_entry.wfe mdp_event.RDMA0_DONE,
         cmdq_entry.write 0 0 mdp_reg.MDP_RDMA_EN 0 0x00000001] :=
  ⟨((wait_comp_event_wait_then_disable
      { mdp_dev := { mdp_cfg := some { wrot_filter_constraint := true } } } {}).2.1
        rfl).2.2.2.2,
   ((wait_comp_event_wait_then_disable {} {}).1 rfl).2.2⟩

/-- Counterexample to C12 as stated: for a reader and for a writer and rotator with
alias 1 `wait_comp_event` returns 0, the very value it returns for alias 0; the return
value does not tell the unsupported alias from success. -/
theorem wait_comp_event_alias1_returns_success :
    (wait_rdma_event { comp := { alias_id := 1 } } {}).2 = 0 ∧
    (wait_rdma_event { comp := { alias_id := 1 } } {}).2
      = (wait_rdma_event { comp := { alias_id := 0 } } {}).2 ∧
    (wait_wrot_event { comp := { alias_id := 1 } } {}).2 = 0 ∧
    (wait_wrot_event { comp := { alias_id := 1 } } {}).2
      = (wait_wrot_event { comp := { alias_id := 0 } } {}).2 := by
  decide

/-- C12, amended: for a reader or a writer and rotator whose alias is not 0,
`wait_comp_event` appends no wait entry and still appends the disable write of the block
as its last entry; it returns 0, the same value as for alias 0, so the unsupported alias
is not reported through the return value. -/
theorem wait_comp_event_other_alias (ctx : mdp_comp_ctx) (cmd : mmsys_cmdq_cmd)
    (h : ctx.comp.alias_id ≠ 0) :
    ((wait_rdma_event ctx cmd).2 = 0 ∧
      (wait_rdma_event ctx cmd).1.pkt = cmd.pkt ++ appended cmd (wait_rdma_event ctx cmd).1 ∧
      appended cmd (wait_rdma_event ctx cmd).1
        = [cmdq_entry.write ctx.comp.subsys_id ctx.comp.reg_base mdp_reg.MDP_RDMA_EN
            0 0x00000001]) ∧
    ((wait_wrot_event ctx cmd).2 = 0 ∧
      (wait_wrot_event ctx cmd).1.pkt = cmd.pkt ++ appended cmd (wait_wrot_event ctx cmd).1 ∧
      (appended cmd (wait_wrot_event ctx cmd).1).filter cmdq_entry.is_wfe = [] ∧
      appended cmd (wait_wrot_event ctx cmd).1
        = (if cfg_has ctx.mdp_dev.mdp_cfg (fun c => c.wrot_filter_constraint) = true then
            [cmdq_entry.write ctx.comp.subsys_id ctx.comp.reg_base mdp_reg.VIDO_MAIN_BUF_SIZE
              0 0x00000077]
          else []) ++
          [cmdq_entry.write ctx.comp.subsys_id ctx.comp.reg_base mdp_reg.VIDO_ROT_EN
            0 0x00000001]) := by
  refine ⟨?_, ?_⟩
  · simp [wait_rdma_event, h, appended, MM_REG_WAIT, MM_REG_WRITE, MM_REG_WRITE_MASK]
  · by_cases hf : cfg_has ctx.mdp_dev.mdp_cfg (fun c => c.wrot_filter_constraint) = true <;>
      simp [wait_wrot_event, __get_plat_cfg, h, hf, appended, MM_REG_WAIT, MM_REG_WRITE,
        MM_REG_WRITE_MASK, cmdq_entry.is_wfe]

/-- Witness of C12: the reader with alias 1. -/
theorem wait_comp_event_other_alias_witness :
    appended {} (wait_rdma_event { comp := { alias_id := 1 } } {}).1
      = [cmdq_entry.write 0 0 mdp_reg.MDP_RDMA_EN 0 0x00000001] :=
  (wait_comp_event_other_alias { comp := { alias_id := 1 } } {} (by decide)).1.2.2

/-! ## Reset sequences of `init` -/

/-- The entries appended by `init_rdma`: the disable write of the paired resizer when the
three conditions hold, then the reset sequence of the reader. -/
theorem init_rdma_appended (K : mdp_comp_ids) (ctx : mdp_comp_ctx) (cmd : mmsys_cmdq_cmd) :
    init_rdma K ctx cmd
      = ({ pkt := cmd.pkt ++
            ((if cfg_has ctx.mdp_dev.mdp_cfg (fun c => c.rdma_support_10bit) = true ∧
                  ctx.comp.id = K.MDP_COMP_RDMA0 then
                match ctx.mdp_dev.comp.getD K.MDP_COMP_RSZ1 none with
                | some prz1 =>
                  [cmdq_entry.write ctx.comp.subsys_id prz1.reg_base mdp_reg.PRZ_ENABLE
                    0 0x00000001]
                | none => []
              else []) ++
             [cmdq_entry.write ctx.comp.subsys_id ctx.comp.reg_base mdp_reg.MDP_RDMA_RESET
                0x00000001 0x00000001,
              cmdq_entry.poll ctx.comp.subsys_id ctx.comp.reg_base mdp_reg.MDP_RDMA_MON_STA_1
                0x00000100 0x00000100,
              cmdq_entry.write ctx.comp.subsys_id ctx.comp.reg_base mdp_reg.MDP_RDMA_RESET
                0x00000000 0x00000001]) }, 0) := by
  unfold init_rdma __get_plat_cfg
  by_cases hc : cfg_has ctx.mdp_dev.mdp_cfg (fun c => c.rdma_support_10bit) = true <;>
    by_cases hi : ctx.comp.id = K.MDP_COMP_RDMA0 <;>
    cases hp : ctx.mdp_dev.comp.getD K.MDP_COMP_RSZ1 none <;>
    simp [hc, hi, hp, MM_REG_WRITE, MM_REG_WRITE_MASK, MM_REG_POLL]

/-- C13: `init_rdma` appends the disable write of the resizer (`PRZ_ENABLE`, value 0,
mask 0x00000001, addressed to the register base of RSZ1) if and only if the platform
configuration has `rdma_support_10bit` set, the block is `MDP_COMP_RDMA0` and an RSZ1
block is registered.  When it is appended it is the first command of `init`, ahead of the
reset-assert write of the reader, and in every case the remaining commands are exactly
the write of 1 to `MDP_RDMA_RESET` under mask 1, the poll of `MDP_RDMA_MON_STA_1` for
0x100 under mask 0x100 and the write of 0 to `MDP_RDMA_RESET` under mask 1. -/
theorem init_rdma_commands (K : mdp_comp_ids) (ctx : mdp_comp_ctx) (cmd : mmsys_cmdq_cmd) :
    (init_rdma K ctx cmd).2 = 0 ∧
    (init_rdma K ctx cmd).1.pkt = cmd.pkt ++ appended cmd (init_rdma K ctx cmd).1 ∧
    ((∃ e ∈ appended cmd (init_rdma K ctx cmd).1, e.writes_reg mdp_reg.PRZ_ENABLE = true) ↔
      (cfg_has ctx.mdp_dev.mdp_cfg (fun c => c.rdma_support_10bit) = true ∧
        ctx.comp.id = K.MDP_COMP_RDMA0 ∧
        ∃ prz1, ctx.mdp_dev.comp.getD K.MDP_COMP_RSZ1 none = some prz1)) ∧
    (∀ prz1, cfg_has ctx.mdp_dev.mdp_cfg (fun c => c.rdma_support_10bit) = true →
      ctx.comp.id = K.MDP_COMP_RDMA0 →
      ctx.mdp_dev.comp.getD K.MDP_COMP_RSZ1 none = some prz1 →
      appended cmd (init_rdma K ctx cmd).1
        = [cmdq_entry.write ctx.comp.subsys_id prz1.reg_base mdp_reg.PRZ_ENABLE 0 0x00000001,
           cmdq_entry.write ctx.comp.subsys_id ctx.comp.reg_base mdp_reg.MDP_RDMA_RESET
             0x00000001 0x00000001,
           cmdq_entry.poll ctx.comp.subsys_id ctx.comp.reg_base mdp_reg.MDP_RDMA_MON_STA_1
             0x00000100 0x00000100,
           cmdq_entry.write ctx.comp.subsys_id ctx.comp.reg_base mdp_reg.MDP_RDMA_RESET
             0x00000000 0x00000001]) ∧
    (¬(cfg_has ctx.mdp_dev.mdp_cfg (fun c => c.rdma_support_10bit) = true ∧
        ctx.comp.id = K.MDP_COMP_RDMA0 ∧
        ∃ prz1, ctx.mdp_dev.comp.getD K.MDP_COMP_RSZ1 none = some prz1) →
      appended cmd (init_rdma K ctx cmd).1
        = [cmdq_entry.write ctx.comp.subsys_id ctx.comp.reg_base mdp_reg.MDP_RDMA_RESET
             0x00000001 0x00000001,
           cmdq_entry.poll ctx.comp.subsys_id ctx.comp.reg_base mdp_reg.MDP_RDMA_MON_STA_1
             0x00000100 0x00000100,
           cmdq_entry.write ctx.comp.subsys_id ctx.comp.reg_base mdp_reg.MDP_RDMA_RESET
             0x00000000 0x00000001]) := by
  rw [init_rdma_appended]
  by_cases hc : cfg_has ctx.mdp_dev.mdp_cfg (fun c => c.rdma_support_10bit) = true <;>
    by_cases hi : ctx.comp.id = K.MDP_COMP_RDMA0 <;>
    cases hp : ctx.mdp_dev.comp.getD K.MDP_COMP_RSZ1 none <;>
    simp [hc, hi, appended, cmdq_entry.writes_reg]

/-- Witness of C13: the reader of the example enumeration with 10-bit support and a
registered RSZ1 at register base 0x3000. -/
theorem init_rdma_commands_witness :
    appended {}
        (init_rdma example_ids
          { comp := { id := 11, reg_base := 0x1000 },
            mdp_dev :=
              { mdp_cfg := some { rdma_support_10bit := true },
                comp := List.replicate 15 none ++ [some { id := 15, reg_base := 0x3000 }] } }
          {}).1
      = [cmdq_entry.write 0 0x3000 mdp_reg.PRZ_ENABLE 0 0x00000001,
         cmdq_entry.write 0 0x1000 mdp_reg.MDP_RDMA_RESET 0x00000001 0x00000001,
         cmdq_entry.poll 0 0x1000 mdp_reg.MDP_RDMA_MON_STA_1 0x00000100 0x00000100,
         cmdq_entry.write 0 0x1000 mdp_reg.MDP_RDMA_RESET 0x00000000 0x00000001] :=
  (init_rdma_commands example_ids
      { comp := { id := 11, reg_base := 0x1000 },
        mdp_dev :=
          { mdp_cfg := some { rdma_support_10bit := true },
            comp := List.replicate 15 none ++ [some { id := 15, reg_base := 0x3000 }] } }
      {}).2.2.2.1 { id := 15, reg_base := 0x3000 } rfl rfl rfl

/-- Counterexample to C14 as stated: the scaler performs a reset in `init_rsz`, yet the
entries appended are three writes to `PRZ_ENABLE`; there is no poll entry among them, so
no reset handshake with a poll. -/
theorem init_rsz_has_no_poll :
    appended {} (init_rsz {} {}).1
      = [cmdq_entry.write 0 0 mdp_reg.PRZ_ENABLE 0x00010000 0x00010000,
         cmdq_entry.write 0 0 mdp_reg.PRZ_ENABLE 0x00000000 0x00010000,
         cmdq_entry.write 0 0 mdp_reg.PRZ_ENABLE 0x00000001 0x00000001] ∧
    (appended {} (init_rsz {} {}).1).filter cmdq_entry.is_poll = [] ∧
    ¬ ∃ asserted poll release, poll.is_poll = true ∧
        reset_handshake (appended {} (init_rsz {} {}).1) asserted poll release := by
  have hl : appended {} (init_rsz {} {}).1
      = [cmdq_entry.write 0 0 mdp_reg.PRZ_ENABLE 0x00010000 0x00010000,
         cmdq_entry.write 0 0 mdp_reg.PRZ_ENABLE 0x00000000 0x00010000,
         cmdq_entry.write 0 0 mdp_reg.PRZ_ENABLE 0x00000001 0x00000001] := by decide
  have hf : (appended {} (init_rsz {} {}).1).filter cmdq_entry.is_poll = [] := by decide
  refine ⟨hl, hf, ?_⟩
  rintro ⟨a, p, r, hp, pre, mid, post, rest, hdec, -⟩
  have hmem : p ∈ (appended {} (init_rsz {} {}).1).filter cmdq_entry.is_poll := by
    rw [List.mem_filter]
    refine ⟨?_, hp⟩
    rw [hdec]
    simp
  rw [hf] at hmem
  exact List.not_mem_nil _ hmem

/-- C14, amended: for the reader, the writer and rotator and the DMA writer the entries
appended by `init` contain, in this order, the write that asserts the reset bit, the
poll for the reset acknowledge and the write that releases the same reset bit, and the
release write does not occur ahead of the poll.  The scaler has no poll: `init_rsz`
asserts and releases its reset bit (`PRZ_ENABLE` under mask 0x00010000) back to back and
then enables the block.  All four return success. -/
theorem init_reset_sequences (K : mdp_comp_ids) (ctx : mdp_comp_ctx) (cmd : mmsys_cmdq_cmd) :
    ((init_rdma K ctx cmd).2 = 0 ∧
      reset_handshake (appended cmd (init_rdma K ctx cmd).1)
        (cmdq_entry.write ctx.comp.subsys_id ctx.comp.reg_base mdp_reg.MDP_RDMA_RESET
          0x00000001 0x00000001)
        (cmdq_entry.poll ctx.comp.subsys_id ctx.comp.reg_base mdp_reg.MDP_RDMA_MON_STA_1
          0x00000100 0x00000100)
        (cmdq_entry.write ctx.comp.subsys_id ctx.comp.reg_base mdp_reg.MDP_RDMA_RESET
          0x00000000 0x00000001)) ∧
    ((init_wrot ctx cmd).2 = 0 ∧
      reset_handshake (appended cmd (init_wrot ctx cmd).1)
        (cmdq_entry.write ctx.comp.subsys_id ctx.comp.reg_base mdp_reg.VIDO_SOFT_RST
          0x01 0x00000001)
        (cmdq_entry.poll ctx.comp.subsys_id ctx.comp.reg_base mdp_reg.VIDO_SOFT_RST_STAT
          0x01 0x00000001)
        (cmdq_entry.write ctx.comp.subsys_id ctx.comp.reg_base mdp_reg.VIDO_SOFT_RST
          0x00 0x00000001)) ∧
    ((init_wdma ctx cmd).2 = 0 ∧
      reset_handshake (appended cmd (init_wdma ctx cmd).1)
        (cmdq_entry.write ctx.comp.subsys_id ctx.comp.reg_base mdp_reg.WDMA_RST
          0x1 0x00000001)
        (cmdq_entry.poll ctx.comp.subsys_id ctx.comp.reg_base mdp_reg.WDMA_FLOW_CTRL_DBG
          0x01 0x00000001)
        (cmdq_entry.write ctx.comp.subsys_id ctx.comp.reg_base mdp_reg.WDMA_RST
          0x0 0x00000001)) ∧
    ((init_rsz ctx cmd).2 = 0 ∧
      appended cmd (init_rsz ctx cmd).1
        = [cmdq_entry.write ctx.comp.subsys_id ctx.comp.reg_base mdp_reg.PRZ_ENABLE
             0x00010000 0x00010000,
           cmdq_entry.write ctx.comp.subsys_id ctx.comp.reg_base mdp_reg.PRZ_ENABLE
             0x00000000 0x00010000,
           cmdq_entry.write ctx.comp.subsys_id ctx.comp.reg_base mdp_reg.PRZ_ENABLE
             0x00000001 0x00000001] ∧
      (appended cmd (init_rsz ctx cmd).1).filter cmdq_entry.is_poll = []) := by
  refine ⟨⟨?_, ?_⟩, ⟨?_, ?_⟩, ⟨?_, ?_⟩, ?_⟩
  · rw [init_rdma_appended]
  · rw [init_rdma_appended, appended_append]
    refine ⟨(if cfg_has ctx.mdp_dev.mdp_cfg (fun c => c.rdma_support_10bit) = true ∧
                  ctx.comp.id = K.MDP_COMP_RDMA0 then
                match ctx.mdp_dev.comp.getD K.MDP_COMP_RSZ1 none with
                | some prz1 =>
                  [cmdq_entry.write ctx.comp.subsys_id prz1.reg_base mdp_reg.PRZ_ENABLE
                    0 0x00000001]
                | none => []
              else []), [], [], [], by simp, ?_⟩
    by_cases hc : cfg_has ctx.mdp_dev.mdp_cfg (fun c => c.rdma_support_10bit) = true <;>
      by_cases hi : ctx.comp.id = K.MDP_COMP_RDMA0 <;>
      cases hp : ctx.mdp_dev.comp.getD K.MDP_COMP_RSZ1 none <;>
      simp [hc, hi]
  · simp [init_wrot]
  · refine ⟨[], [], [], [cmdq_entry.poll ctx.comp.subsys_id ctx.comp.reg_base
      mdp_reg.VIDO_SOFT_RST_STAT 0x00 0x00000001], ?_, ?_⟩
    · simp [init_wrot, appended, MM_REG_WRITE, MM_REG_WRITE_MASK, MM_REG_POLL]
    · simp
  · simp [init_wdma]
  · refine ⟨[], [], [], [], ?_, ?_⟩
    · simp [init_wdma, appended, MM_REG_WRITE, MM_REG_WRITE_MASK, MM_REG_POLL]
    · simp
  · simp [init_rsz, appended, MM_REG_WRITE, MM_REG_WRITE_MASK, cmdq_entry.is_poll]

/-! ## Frame configuration of the reader -/

/-- The entries appended by `config_rdma_frame`. -/
theorem config_rdma_frame_appended (C : mdp_color_macros) (ctx : mdp_comp_ctx)
    (cmd : mmsys_cmdq_cmd) (compose : v4l2_rect) :
    config_rdma_frame C ctx cmd compose
      = ({ pkt := cmd.pkt ++
            ((if cfg_has ctx.mdp_dev.mdp_cfg (fun c => c.rdma_support_10bit) = true then
                [cmdq_entry.write ctx.comp.subsys_id ctx.comp.reg_base
                  mdp_reg.MDP_RDMA_RESV_DUMMY_0
                  (if C.MDP_COLOR_IS_10BIT_PACKED ctx.input.buffer.format.colorformat = true
                    then 0x00000007 else 0x00000000) 0x00000007]
              else []) ++
             [cmdq_entry.write ctx.comp.subsys_id ctx.comp.reg_base mdp_reg.MDP_RDMA_GMCIF_CON
                0x00010071 0x00030071,
              cmdq_entry.write ctx.comp.subsys_id ctx.comp.reg_base mdp_reg.MDP_RDMA_SRC_CON
                ctx.param.rdma.src_ctrl 0x03C8FE0F] ++
             (if cfg_has ctx.mdp_dev.mdp_cfg (fun c => c.rdma_support_10bit) = true ∧
                  C.MDP_COLOR_IS_UFP ctx.input.buffer.format.colorformat = true then
                [cmdq_entry.write ctx.comp.subsys_id ctx.comp.reg_base
                   mdp_reg.MDP_RDMA_UFO_DEC_LENGTH_BASE_Y ctx.param.rdma.ufo_dec_y 0xFFFFFFFF,
                 cmdq_entry.write ctx.comp.subsys_id ctx.comp.reg_base
                   mdp_reg.MDP_RDMA_UFO_DEC_LENGTH_BASE_C ctx.param.rdma.ufo_dec_c 0xFFFFFFFF] ++
                (if C.MDP_COLOR_IS_10BIT_PACKED ctx.input.buffer.format.colorformat = true then
                  [cmdq_entry.write ctx.comp.subsys_id ctx.comp.reg_base
                    mdp_reg.MDP_RDMA_MF_BKGD_SIZE_IN_PXL ctx.param.rdma.mf_bkgd_in_pxl
                    0x001FFFFF]
                else [])
              else []) ++
             [cmdq_entry.write ctx.comp.subsys_id ctx.comp.reg_base mdp_reg.MDP_RDMA_CON
                ctx.param.rdma.control 0x00001110,
              cmdq_entry.write ctx.comp.subsys_id ctx.comp.reg_base mdp_reg.MDP_RDMA_SRC_BASE_0
                (ctx.param.rdma.iova 0) 0xFFFFFFFF,
              cmdq_entry.write ctx.comp.subsys_id ctx.comp.reg_base mdp_reg.MDP_RDMA_SRC_BASE_1
                (ctx.param.rdma.iova 1) 0xFFFFFFFF,
              cmdq_entry.write ctx.comp.subsys_id ctx.comp.reg_base mdp_reg.MDP_RDMA_SRC_BASE_2
                (ctx.param.rdma.iova 2) 0xFFFFFFFF,
              cmdq_entry.write ctx.comp.subsys_id ctx.comp.reg_base mdp_reg.MDP_RDMA_SRC_END_0
                (ctx.param.rdma.iova_end 0) 0xFFFFFFFF,
              cmdq_entry.write ctx.comp.subsys_id ctx.comp.reg_base mdp_reg.MDP_RDMA_SRC_END_1
                (ctx.param.rdma.iova_end 1) 0xFFFFFFFF,
              cmdq_entry.write ctx.comp.subsys_id ctx.comp.reg_base mdp_reg.MDP_RDMA_SRC_END_2
                (ctx.param.rdma.iova_end 2) 0xFFFFFFFF,
              cmdq_entry.write ctx.comp.subsys_id ctx.comp.reg_base
                mdp_reg.MDP_RDMA_MF_BKGD_SIZE_IN_BYTE ctx.param.rdma.mf_bkgd 0x001FFFFF,
              cmdq_entry.write ctx.comp.subsys_id ctx.comp.reg_base
                mdp_reg.MDP_RDMA_SF_BKGD_SIZE_IN_BYTE ctx.param.rdma.sf_bkgd 0x001FFFFF,
              cmdq_entry.write ctx.comp.subsys_id ctx.comp.reg_base mdp_reg.MDP_RDMA_TRANSFORM_0
                ctx.param.rdma.transform 0x0F110000]) }, 0) := by
  obtain ⟨comp, ⟨cfg, comps⟩, param, input⟩ := ctx
  cases cfg with
  | none =>
    simp [config_rdma_frame, __get_plat_cfg, cfg_has, MM_REG_WRITE, MM_REG_WRITE_MASK]
  | some cfg =>
    cases h10 : cfg.rdma_support_10bit <;>
      cases hb : C.MDP_COLOR_IS_10BIT_PACKED input.buffer.format.colorformat <;>
      cases hu : C.MDP_COLOR_IS_UFP input.buffer.format.colorformat <;>
      simp [config_rdma_frame, __get_plat_cfg, cfg_has, MM_REG_WRITE, MM_REG_WRITE_MASK,
        h10, hb, hu]

/-- C15: in `config_rdma_frame` the two UFO base-length writes
(`MDP_RDMA_UFO_DEC_LENGTH_BASE_Y`, then `MDP_RDMA_UFO_DEC_LENGTH_BASE_C`, mask
0xFFFFFFFF) are appended if and only if the platform configuration has
`rdma_support_10bit` set and the input colour format is UFO-compressed; when appended
they come ahead of the frame-pitch writes (`MDP_RDMA_MF_BKGD_SIZE_IN_BYTE`,
`MDP_RDMA_SF_BKGD_SIZE_IN_BYTE`); and the number of commands appended is
12 + [10-bit support] + 2 * [10-bit support and UFO]
+ [10-bit support and UFO and 10-bit packed format]. -/
theorem config_rdma_frame_ufo (C : mdp_color_macros) (ctx : mdp_comp_ctx)
    (cmd : mmsys_cmdq_cmd) (compose : v4l2_rect) :
    (config_rdma_frame C ctx cmd compose).2 = 0 ∧
    (config_rdma_frame C ctx cmd compose).1.pkt
      = cmd.pkt ++ appended cmd (config_rdma_frame C ctx cmd compose).1 ∧
    (appended cmd (config_rdma_frame C ctx cmd compose).1).filter
        (fun e => e.writes_reg mdp_reg.MDP_RDMA_UFO_DEC_LENGTH_BASE_Y ||
          e.writes_reg mdp_reg.MDP_RDMA_UFO_DEC_LENGTH_BASE_C)
      = (if cfg_has ctx.mdp_dev.mdp_cfg (fun c => c.rdma_support_10bit) = true ∧
            C.MDP_COLOR_IS_UFP ctx.input.buffer.format.colorformat = true then
          [cmdq_entry.write ctx.comp.subsys_id ctx.comp.reg_base
             mdp_reg.MDP_RDMA_UFO_DEC_LENGTH_BASE_Y ctx.param.rdma.ufo_dec_y 0xFFFFFFFF,
           cmdq_entry.write ctx.comp.subsys_id ctx.comp.reg_base
             mdp_reg.MDP_RDMA_UFO_DEC_LENGTH_BASE_C ctx.param.rdma.ufo_dec_c 0xFFFFFFFF]
        else []) ∧
    (cfg_has ctx.mdp_dev.mdp_cfg (fun c => c.rdma_support_10bit) = true ∧
        C.MDP_COLOR_IS_UFP ctx.input.buffer.format.colorformat = true →
      ∃ pre mid post,
        appended cmd (config_rdma_frame C ctx cmd compose).1
          = pre ++
            [cmdq_entry.write ctx.comp.subsys_id ctx.comp.reg_base
               mdp_reg.MDP_RDMA_UFO_DEC_LENGTH_BASE_Y ctx.param.rdma.ufo_dec_y 0xFFFFFFFF,
             cmdq_entry.write ctx.comp.subsys_id ctx.comp.reg_base
               mdp_reg.MDP_RDMA_UFO_DEC_LENGTH_BASE_C ctx.param.rdma.ufo_dec_c 0xFFFFFFFF] ++
            mid ++
            [cmdq_entry.write ctx.comp.subsys_id ctx.comp.reg_base
               mdp_reg.MDP_RDMA_MF_BKGD_SIZE_IN_BYTE ctx.param.rdma.mf_bkgd 0x001FFFFF,
             cmdq_entry.write ctx.comp.subsys_id ctx.comp.reg_base
               mdp_reg.MDP_RDMA_SF_BKGD_SIZE_IN_BYTE ctx.param.rdma.sf_bkgd 0x001FFFFF] ++
            post ∧
        ∀ e ∈ pre, e.writes_reg mdp_reg.MDP_RDMA_MF_BKGD_SIZE_IN_BYTE = false ∧
          e.writes_reg mdp_reg.MDP_RDMA_SF_BKGD_SIZE_IN_BYTE = false) ∧
    (appended cmd (config_rdma_frame C ctx cmd compose).1).length
      = 12 +
        (if cfg_has ctx.mdp_dev.mdp_cfg (fun c => c.rdma_support_10bit) = true then 1 else 0) +
        2 * (if cfg_has ctx.mdp_dev.mdp_cfg (fun c => c.rdma_support_10bit) = true ∧
              C.MDP_COLOR_IS_UFP ctx.input.buffer.format.colorformat = true then 1 else 0) +
        (if cfg_has ctx.mdp_dev.mdp_cfg (fun c => c.rdma_support_10bit) = true ∧
            C.MDP_COLOR_IS_UFP ctx.input.buffer.format.colorformat = true ∧
            C.MDP_COLOR_IS_10BIT_PACKED ctx.input.buffer.format.colorformat = true
          then 1 else 0) := by
  rw [config_rdma_frame_appended, appended_append]
  refine ⟨rfl, rfl, ?_, ?_, ?_⟩
  · cases h10 : cfg_has ctx.mdp_dev.mdp_cfg (fun c => c.rdma_support_10bit) <;>
      cases hb : C.MDP_COLOR_IS_10BIT_PACKED ctx.input.buffer.format.colorformat <;>
      cases hu : C.MDP_COLOR_IS_UFP ctx.input.buffer.format.colorformat <;>
      simp [cmdq_entry.writes_reg, List.filter_cons]
  · rintro ⟨h10, hu⟩
    refine ⟨[cmdq_entry.write ctx.comp.subsys_id ctx.comp.reg_base
                  mdp_reg.MDP_RDMA_RESV_DUMMY_0
                  (if C.MDP_COLOR_IS_10BIT_PACKED ctx.input.buffer.format.colorformat = true
                    then 0x00000007 else 0x00000000) 0x00000007,
             cmdq_entry.write ctx.comp.subsys_id ctx.comp.reg_base mdp_reg.MDP_RDMA_GMCIF_CON
                0x00010071 0x00030071,
             cmdq_entry.write ctx.comp.subsys_id ctx.comp.reg_base mdp_reg.MDP_RDMA_SRC_CON
                ctx.param.rdma.src_ctrl 0x03C8FE0F],
            (if C.MDP_COLOR_IS_10BIT_PACKED ctx.input.buffer.format.colorformat = true then
                  [cmdq_entry.write ctx.comp.subsys_id ctx.comp.reg_base
                    mdp_reg.MDP_RDMA_MF_BKGD_SIZE_IN_PXL ctx.param.rdma.mf_bkgd_in_pxl
                    0x001FFFFF]
                else []) ++
             [cmdq_entry.write ctx.comp.subsys_id ctx.comp.reg_base mdp_reg.MDP_RDMA_CON
                ctx.param.rdma.control 0x00001110,
              cmdq_entry.write ctx.comp.subsys_id ctx.comp.reg_base mdp_reg.MDP_RDMA_SRC_BASE_0
                (ctx.param.rdma.iova 0) 0xFFFFFFFF,
              cmdq_entry.write ctx.comp.subsys_id ctx.comp.reg_base mdp_reg.MDP_RDMA_SRC_BASE_1
                (ctx.param.rdma.iova 1) 0xFFFFFFFF,
              cmdq_entry.write ctx.comp.subsys_id ctx.comp.reg_base mdp_reg.MDP_RDMA_SRC_BASE_2
                (ctx.param.rdma.iova 2) 0xFFFFFFFF,
              cmdq_entry.write ctx.comp.subsys_id ctx.comp.reg_base mdp_reg.MDP_RDMA_SRC_END_0
                (ctx.param.rdma.iova_end 0) 0xFFFFFFFF,
              cmdq_entry.write ctx.comp.subsys_id ctx.comp.reg_base mdp_reg.MDP_RDMA_SRC_END_1
                (ctx.param.rdma.iova_end 1) 0xFFFFFFFF,
              cmdq_entry.write ctx.comp.subsys_id ctx.comp.reg_base mdp_reg.MDP_RDMA_SRC_END_2
                (ctx.param.rdma.iova_end 2) 0xFFFFFFFF],
            [cmdq_entry.write ctx.comp.subsys_id ctx.comp.reg_base mdp_reg.MDP_RDMA_TRANSFORM_0
                ctx.param.rdma.transform 0x0F110000], ?_, ?_⟩
    · simp [h10, hu]
    · intro e he
      simp only [List.mem_cons, List.mem_singleton, List.not_mem_nil, or_false] at he
      rcases he with he | he | he <;> simp [he, cmdq_entry.writes_reg]
  · cases h10 : cfg_has ctx.mdp_dev.mdp_cfg (fun c => c.rdma_support_10bit) <;>
      cases hb : C.MDP_COLOR_IS_10BIT_PACKED ctx.input.buffer.format.colorformat <;>
      cases hu : C.MDP_COLOR_IS_UFP ctx.input.buffer.format.colorformat <;>
      simp

/-- Witness of C15: a UFO-compressed, 10-bit packed input on a platform with 10-bit
support; the UFO writes come ahead of the pitch writes and sixteen commands are
appended. -/
theorem config_rdma_frame_ufo_witness :
    (∃ pre mid post,
      appended {}
          (config_rdma_frame example_color
            { mdp_dev := { mdp_cfg := some { rdma_support_10bit := true } },
              input := { buffer := { format := { colorformat := 0x28000000 } } } } {} {}).1
        = pre ++
          [cmdq_entry.write 0 0 mdp_reg.MDP_RDMA_UFO_DEC_LENGTH_BASE_Y 0 0xFFFFFFFF,
           cmdq_entry.write 0 0 mdp_reg.MDP_RDMA_UFO_DEC_LENGTH_BASE_C 0 0xFFFFFFFF] ++
          mid ++
          [cmdq_entry.write 0 0 mdp_reg.MDP_RDMA_MF_BKGD_SIZE_IN_BYTE 0 0x001FFFFF,
           cmdq_entry.write 0 0 mdp_reg.MDP_RDMA_SF_BKGD_SIZE_IN_BYTE 0 0x001FFFFF] ++
          post ∧
      ∀ e ∈ pre, e.writes_reg mdp_reg.MDP_RDMA_MF_BKGD_SIZE_IN_BYTE = false ∧
        e.writes_reg mdp_reg.MDP_RDMA_SF_BKGD_SIZE_IN_BYTE = false) ∧
    (appended {}
        (config_rdma_frame example_color
          { mdp_dev := { mdp_cfg := some { rdma_support_10bit := true } },
            input := { buffer := { format := { colorformat := 0x28000000 } } } } {} {}).1).length
      = 16 :=
  ⟨(config_rdma_frame_ufo example_color
      { mdp_dev := { mdp_cfg := some { rdma_support_10bit := true } },
        input := { buffer := { format := { colorformat := 0x28000000 } } } } {} {}).2.2.2.1
      ⟨by decide, by decide⟩,
   by decide⟩

/-! ## Capability-gated writes -/

/-- Without a capability every flag test `mdp_cfg && mdp_cfg->flag` of the reader, the
scaler and the writer fails. -/
theorem cfg_has_of_no_capability (ctx : mdp_comp_ctx) (h : no_capability ctx) (b : Bool) :
    cfg_has ctx.mdp_dev.mdp_cfg (fun c => c.rdma_support_10bit) = false ∧
    cfg_has ctx.mdp_dev.mdp_cfg (fun c => c.rdma_support_10bit && b) = false ∧
    cfg_has ctx.mdp_dev.mdp_cfg (fun c => c.rdma_upsample_repeat_only) = false ∧
    cfg_has ctx.mdp_dev.mdp_cfg (fun c => c.rsz_disable_dcm_small_sample) = false ∧
    cfg_has ctx.mdp_dev.mdp_cfg (fun c => c.wrot_filter_constraint) = false := by
  rcases h with h | h <;> simp [h, cfg_has]

/-- Without a capability no operation of the reader appends a gated write. -/
theorem no_gated_write_rdma (K : mdp_comp_ids) (C : mdp_color_macros)
    (ctx : mdp_comp_ctx) (cmd : mmsys_cmdq_cmd) (compose : v4l2_rect) (index : Nat)
    (h : no_capability ctx) :
    appends_no_gated_write cmd (init_rdma K ctx cmd).1 ∧
    appends_no_gated_write cmd (config_rdma_frame C ctx cmd compose).1 ∧
    appends_no_gated_write cmd (config_rdma_subfrm C ctx cmd index).1 ∧
    appends_no_gated_write cmd (wait_rdma_event ctx cmd).1 := by
  have hr := (cfg_has_of_no_capability ctx h true).1
  have hup := (cfg_has_of_no_capability ctx h true).2.2.1
  have hd := (cfg_has_of_no_capability ctx h true).2.2.2.1
  have hw := (cfg_has_of_no_capability ctx h true).2.2.2.2
  have hw2 : (match ctx.mdp_dev.mdp_cfg with
      | none => false
      | some cfg => cfg.wrot_filter_constraint) = false := hw
  refine ⟨?_, ?_, ?_, ?_⟩
  · rw [init_rdma_appended]
    exact ⟨_, rfl, by simp [hr, cmdq_entry.capability_gated]⟩
  · rw [config_rdma_frame_appended]
    exact ⟨_, rfl, by simp [hr, cmdq_entry.capability_gated]⟩
  · rcases h with h | h <;>
      simp [config_rdma_subfrm, appends_no_gated_write, __get_plat_cfg, cfg_has, h,
        MM_REG_WRITE, MM_REG_WRITE_MASK, cmdq_entry.capability_gated]
  · by_cases ha : ctx.comp.alias_id = 0 <;>
      simp [wait_rdma_event, appends_no_gated_write, ha, MM_REG_WRITE, MM_REG_WRITE_MASK,
        MM_REG_WAIT, cmdq_entry.capability_gated]

/-- Without a capability no operation of the scaler appends a gated write. -/
theorem no_gated_write_rsz (_K : mdp_comp_ids) (_C : mdp_color_macros)
    (ctx : mdp_comp_ctx) (cmd : mmsys_cmdq_cmd) (compose : v4l2_rect) (index : Nat)
    (h : no_capability ctx) :
    appends_no_gated_write cmd (init_rsz ctx cmd).1 ∧
    appends_no_gated_write cmd (config_rsz_frame ctx cmd compose).1 ∧
    appends_no_gated_write cmd (config_rsz_subfrm ctx cmd index).1 ∧
    appends_no_gated_write cmd (advance_rsz_subfrm ctx cmd index).1 := by
  have hr := (cfg_has_of_no_capability ctx h true).1
  have hup := (cfg_has_of_no_capability ctx h true).2.2.1
  have hd := (cfg_has_of_no_capability ctx h true).2.2.2.1
  have hw := (cfg_has_of_no_capability ctx h true).2.2.2.2
  have hw2 : (match ctx.mdp_dev.mdp_cfg with
      | none => false
      | some cfg => cfg.wrot_filter_constraint) = false := hw
  refine ⟨?_, ?_, ?_, ?_⟩
  · simp [init_rsz, appends_no_gated_write, MM_REG_WRITE, MM_REG_WRITE_MASK,
      cmdq_entry.capability_gated]
  · cases hb : ctx.param.frame.bypass <;>
      simp [config_rsz_frame, appends_no_gated_write, hb, MM_REG_WRITE, MM_REG_WRITE_MASK,
        cmdq_entry.capability_gated]
  · simp [config_rsz_subfrm, appends_no_gated_write, __get_plat_cfg, hd, MM_REG_WRITE,
      MM_REG_WRITE_MASK, cmdq_entry.capability_gated]
  · simp [advance_rsz_subfrm, appends_no_gated_write, __get_plat_cfg, hd]

/-- Without a capability no operation of the writer and rotator appends a gated write. -/
theorem no_gated_write_wrot (_K : mdp_comp_ids) (_C : mdp_color_macros)
    (ctx : mdp_comp_ctx) (cmd : mmsys_cmdq_cmd) (compose : v4l2_rect) (index : Nat)
    (h : no_capability ctx) :
    appends_no_gated_write cmd (init_wrot ctx cmd).1 ∧
    appends_no_gated_write cmd (config_wrot_frame ctx cmd compose).1 ∧
    appends_no_gated_write cmd (config_wrot_subfrm ctx cmd index).1 ∧
    appends_no_gated_write cmd (wait_wrot_event ctx cmd).1 := by
  have hr := (cfg_has_of_no_capability ctx h true).1
  have hup := (cfg_has_of_no_capability ctx h true).2.2.1
  have hd := (cfg_has_of_no_capability ctx h true).2.2.2.1
  have hw := (cfg_has_of_no_capability ctx h true).2.2.2.2
  have hw2 : (match ctx.mdp_dev.mdp_cfg with
      | none => false
      | some cfg => cfg.wrot_filter_constraint) = false := hw
  refine ⟨?_, ?_, ?_, ?_⟩
  · simp [init_wrot, appends_no_gated_write, MM_REG_WRITE, MM_REG_WRITE_MASK, MM_REG_POLL,
      cmdq_entry.capability_gated]
  · by_cases hf : ctx.param.wrot.fifo_test = 0 <;>
      simp [config_wrot_frame, appends_no_gated_write, __get_plat_cfg, hw2, hf, MM_REG_WRITE,
        MM_REG_WRITE_MASK, cmdq_entry.capability_gated]
  · simp [config_wrot_subfrm, appends_no_gated_write, MM_REG_WRITE, MM_REG_WRITE_MASK,
      cmdq_entry.capability_gated]
  · by_cases ha : ctx.comp.alias_id = 0 <;>
      simp [wait_wrot_event, appends_no_gated_write, __get_plat_cfg, hw, ha, MM_REG_WRITE,
        MM_REG_WRITE_MASK, MM_REG_WAIT, cmdq_entry.capability_gated]

/-- Without a capability no operation of the DMA writer and the color corrector appends a
gated write. -/
theorem no_gated_write_wdma_ccorr (_K : mdp_comp_ids) (_C : mdp_color_macros)
    (ctx : mdp_comp_ctx) (cmd : mmsys_cmdq_cmd) (compose : v4l2_rect) (index : Nat)
    (h : no_capability ctx) :
    appends_no_gated_write cmd (init_wdma ctx cmd).1 ∧
    appends_no_gated_write cmd (config_wdma_frame ctx cmd compose).1 ∧
    appends_no_gated_write cmd (config_wdma_subfrm ctx cmd index).1 ∧
    appends_no_gated_write cmd (wait_wdma_event ctx cmd).1 ∧
    appends_no_gated_write cmd (init_ccorr ctx cmd).1 ∧
    appends_no_gated_write cmd (config_ccorr_frame ctx cmd compose).1 ∧
    appends_no_gated_write cmd (config_ccorr_subfrm ctx cmd index).1 := by
  have hr := (cfg_has_of_no_capability ctx h true).1
  have hup := (cfg_has_of_no_capability ctx h true).2.2.1
  have hd := (cfg_has_of_no_capability ctx h true).2.2.2.1
  have hw := (cfg_has_of_no_capability ctx h true).2.2.2.2
  have hw2 : (match ctx.mdp_dev.mdp_cfg with
      | none => false
      | some cfg => cfg.wrot_filter_constraint) = false := hw
  refine ⟨?_, ?_, ?_, ?_, ?_, ?_, ?_⟩
  · simp [init_wdma, appends_no_gated_write, MM_REG_WRITE, MM_REG_WRITE_MASK, MM_REG_POLL,
      cmdq_entry.capability_gated]
  · simp [config_wdma_frame, appends_no_gated_write, MM_REG_WRITE, MM_REG_WRITE_MASK,
      cmdq_entry.capability_gated]
  · simp [config_wdma_subfrm, appends_no_gated_write, MM_REG_WRITE, MM_REG_WRITE_MASK,
      cmdq_entry.capability_gated]
  · simp [wait_wdma_event, appends_no_gated_write, MM_REG_WRITE, MM_REG_WRITE_MASK,
      MM_REG_WAIT, cmdq_entry.capability_gated]
  · simp [init_ccorr, appends_no_gated_write, MM_REG_WRITE, MM_REG_WRITE_MASK,
      cmdq_entry.capability_gated]
  · simp [config_ccorr_frame, appends_no_gated_write]
  · simp [config_ccorr_subfrm, appends_no_gated_write, MM_REG_WRITE, MM_REG_WRITE_MASK,
      cmdq_entry.capability_gated]

/-- Without a capability no operation of the ISP hand-off appends a gated write. -/
theorem no_gated_write_isp (K : mdp_comp_ids) (_C : mdp_color_macros)
    (ctx : mdp_comp_ctx) (cmd : mmsys_cmdq_cmd) (compose : v4l2_rect) (index : Nat)
    (h : no_capability ctx) :
    appends_no_gated_write cmd (config_isp_frame ctx cmd compose).1 ∧
    appends_no_gated_write cmd (config_isp_subfrm ctx cmd index).1 ∧
    appends_no_gated_write cmd (wait_isp_event K ctx cmd).1 := by
  have hr := (cfg_has_of_no_capability ctx h true).1
  have hup := (cfg_has_of_no_capability ctx h true).2.2.1
  have hd := (cfg_has_of_no_capability ctx h true).2.2.2.1
  have hw := (cfg_has_of_no_capability ctx h true).2.2.2.2
  have hw2 : (match ctx.mdp_dev.mdp_cfg with
      | none => false
      | some cfg => cfg.wrot_filter_constraint) = false := hw
  refine ⟨?_, ?_, ?_⟩
  · by_cases hq : ctx.param.isp.cq_idx < 12
    · rw [config_isp_frame_accept ctx cmd compose hq]
      exact ⟨_, List.append_assoc _ _ _, by simp [smx_writes, cmdq_entry.capability_gated]⟩
    · rw [config_isp_frame_reject ctx cmd compose (by omega)]
      exact ⟨_, rfl, by simp [smx_writes, cmdq_entry.capability_gated]⟩
  · simp [config_isp_subfrm, appends_no_gated_write, MM_REG_WRITE_MASK,
      cmdq_entry.capability_gated]
  · have hdl : ∀ e ∈ dl_sel_writes K ctx, e.capability_gated = false := by
      intro e he
      unfold dl_sel_writes at he
      rw [List.mem_append] at he
      rcases he with he | he <;> split_ifs at he <;> simp at he <;>
        simp [he, cmdq_entry.capability_gated]
    by_cases hq : ctx.param.isp.cq_idx < 12
    · obtain ⟨ev, -, hwt⟩ := wait_isp_event_accept K ctx cmd hq
      rw [hwt]
      refine ⟨_, List.append_assoc _ _ _, ?_⟩
      intro e he
      rw [List.mem_append] at he
      rcases he with he | he
      · exact hdl e he
      · simp at he
        rcases he with he | he <;> simp [he, cmdq_entry.capability_gated]
    · rw [wait_isp_event_reject K ctx cmd (by omega)]
      exact ⟨_, rfl, hdl⟩

/-- C16: when the platform configuration is absent or all of its capability flags are
false, no operation of the reader, the scaler, the writer and rotator, the DMA writer,
the color corrector or the ISP hand-off appends a write to a capability-gated register
field, for every parameter block and subframe: no write to `MDP_RDMA_RESV_DUMMY_0`,
`MDP_RDMA_UFO_DEC_LENGTH_BASE_Y/C`, `MDP_RDMA_MF_BKGD_SIZE_IN_PXL` or
`MDP_RDMA_SRC_OFFSET_0_P`, no write to `PRZ_CONTROL_1` under mask `1 << 27`, and no write
to `VIDO_MAIN_BUF_SIZE` under mask 0x00000077. -/
theorem no_gated_write_without_capability (K : mdp_comp_ids) (C : mdp_color_macros)
    (ctx : mdp_comp_ctx) (cmd : mmsys_cmdq_cmd) (compose : v4l2_rect) (index : Nat)
    (h : no_capability ctx) :
    appends_no_gated_write cmd (init_rdma K ctx cmd).1 ∧
    appends_no_gated_write cmd (config_rdma_frame C ctx cmd compose).1 ∧
    appends_no_gated_write cmd (config_rdma_subfrm C ctx cmd index).1 ∧
    appends_no_gated_write cmd (wait_rdma_event ctx cmd).1 ∧
    appends_no_gated_write cmd (init_rsz ctx cmd).1 ∧
    appends_no_gated_write cmd (config_rsz_frame ctx cmd compose).1 ∧
    appends_no_gated_write cmd (config_rsz_subfrm ctx cmd index).1 ∧
    appends_no_gated_write cmd (advance_rsz_subfrm ctx cmd index).1 ∧
    appends_no_gated_write cmd (init_wrot ctx cmd).1 ∧
    appends_no_gated_write cmd (config_wrot_frame ctx cmd compose).1 ∧
    appends_no_gated_write cmd (config_wrot_subfrm ctx cmd index).1 ∧
    appends_no_gated_write cmd (wait_wrot_event ctx cmd).1 ∧
    appends_no_gated_write cmd (init_wdma ctx cmd).1 ∧
    appends_no_gated_write cmd (config_wdma_frame ctx cmd compose).1 ∧
    appends_no_gated_write cmd (config_wdma_subfrm ctx cmd index).1 ∧
    appends_no_gated_write cmd (wait_wdma_event ctx cmd).1 ∧
    appends_no_gated_write cmd (init_ccorr ctx cmd).1 ∧
    appends_no_gated_write cmd (config_ccorr_frame ctx cmd compose).1 ∧
    appends_no_gated_write cmd (config_ccorr_subfrm ctx cmd index).1 ∧
    appends_no_gated_write cmd (config_isp_frame ctx cmd compose).1 ∧
    appends_no_gated_write cmd (config_isp_subfrm ctx cmd index).1 ∧
    appends_no_gated_write cmd (wait_isp_event K ctx cmd).1 := by
  obtain ⟨a1, a2, a3, a4⟩ := no_gated_write_rdma K C ctx cmd compose index h
  obtain ⟨b1, b2, b3, b4⟩ := no_gated_write_rsz K C ctx cmd compose index h
  obtain ⟨c1, c2, c3, c4⟩ := no_gated_write_wrot K C ctx cmd compose index h
  obtain ⟨d1, d2, d3, d4, d5, d6, d7⟩ := no_gated_write_wdma_ccorr K C ctx cmd compose index h
  obtain ⟨e1, e2, e3⟩ := no_gated_write_isp K C ctx cmd compose index h
  exact ⟨a1, a2, a3, a4, b1, b2, b3, b4, c1, c2, c3, c4, d1, d2, d3, d4, d5, d6, d7,
    e1, e2, e3⟩

/-- Witness of C16: the reader without a platform configuration and a 10-bit packed,
UFO-compressed input. -/
theorem no_gated_write_without_capability_witness :
    appends_no_gated_write {}
      (config_rdma_frame example_color
        { input := { buffer := { format := { colorformat := 0x28000000 } } } } {} {}).1 :=
  (no_gated_write_without_capability example_ids example_color
    { input := { buffer := { format := { colorformat := 0x28000000 } } } } {} {} 0
    (Or.inl rfl)).2.1

/-! ## Quirk writes of the scaler and the reader -/

/-- Bits of a 32-bit register after a masked write. -/
theorem masked_write_testBit (old value mask j : Nat) :
    (masked_write old value mask).testBit j
      = ((old.testBit j && (decide (j < 32) ^^ mask.testBit j)) ||
          (value.testBit j && mask.testBit j)) := by
  unfold masked_write
  have h32 : (0xFFFFFFFF : Nat) = 2 ^ 32 - 1 := by norm_num
  rw [Nat.testBit_or, Nat.testBit_and, Nat.testBit_and, Nat.testBit_xor, h32,
    Nat.testBit_two_pow_sub_one]

/-- The register after the quirk write of bit 27 followed by the compensating write. -/
theorem exec_set_then_clear_bit27 (regs : reg_file) (sub base : Nat) (reg : mdp_reg) :
    exec regs [cmdq_entry.write sub base reg (1 <<< 27) (1 <<< 27),
               cmdq_entry.write sub base reg 0 (1 <<< 27)] base reg
      = masked_write (masked_write (regs base reg) (1 <<< 27) (1 <<< 27)) 0 (1 <<< 27) := by
  simp [exec, exec_entry]

/-- The condition under which the scaler applies its small-sample quirk holds exactly
when the quirk write is among the entries appended by `config_rsz_subfrm`. -/
theorem config_rsz_subfrm_quirk_iff (ctx : mdp_comp_ctx) (cmd : mmsys_cmdq_cmd) (index : Nat) :
    cmdq_entry.write ctx.comp.subsys_id ctx.comp.reg_base mdp_reg.PRZ_CONTROL_1
        (1 <<< 27) (1 <<< 27) ∈ appended cmd (config_rsz_subfrm ctx cmd index).1 ↔
      (cfg_has ctx.mdp_dev.mdp_cfg (fun c => c.rsz_disable_dcm_small_sample) = true ∧
        (ctx.param.subfrms index).«in».right - (ctx.param.subfrms index).«in».left + 1
          ≤ 16) := by
  by_cases hc : cfg_has ctx.mdp_dev.mdp_cfg (fun c => c.rsz_disable_dcm_small_sample) = true <;>
    by_cases hw :
      (ctx.param.subfrms index).«in».right - (ctx.param.subfrms index).«in».left + 1 ≤ 16 <;>
    simp [config_rsz_subfrm, appended, __get_plat_cfg, hc, hw, MM_REG_WRITE, MM_REG_WRITE_MASK]

/-- C17: for every scaler context and subframe index, `advance_rsz_subfrm` appends the
single compensating write (`PRZ_CONTROL_1`, value 0, mask `1 << 27`) if and only if
`config_rsz_subfrm` for the same context and index appended the quirk write
(`PRZ_CONTROL_1`, value `1 << 27`, mask `1 << 27`), which happens exactly when
`rsz_disable_dcm_small_sample` is set and the input width `in.right - in.left + 1` is at
most 16; otherwise `advance_rsz_subfrm` appends nothing.  Under masked-write semantics
the quirk write followed by the compensating write leaves bit 27 clear and every other
bit of the register unchanged. -/
theorem rsz_quirk_compensated (ctx : mdp_comp_ctx) (cmd cmd2 : mmsys_cmdq_cmd) (index : Nat)
    (regs : reg_file) (hreg : regs ctx.comp.reg_base mdp_reg.PRZ_CONTROL_1 < 2 ^ 32) :
    (cmdq_entry.write ctx.comp.subsys_id ctx.comp.reg_base mdp_reg.PRZ_CONTROL_1
        (1 <<< 27) (1 <<< 27) ∈ appended cmd (config_rsz_subfrm ctx cmd index).1 ↔
      (cfg_has ctx.mdp_dev.mdp_cfg (fun c => c.rsz_disable_dcm_small_sample) = true ∧
        (ctx.param.subfrms index).«in».right - (ctx.param.subfrms index).«in».left + 1
          ≤ 16)) ∧
    (advance_rsz_subfrm ctx cmd2 index).2 = 0 ∧
    (advance_rsz_subfrm ctx cmd2 index).1.pkt
      = cmd2.pkt ++ appended cmd2 (advance_rsz_subfrm ctx cmd2 index).1 ∧
    (cmdq_entry.write ctx.comp.subsys_id ctx.comp.reg_base mdp_reg.PRZ_CONTROL_1
        (1 <<< 27) (1 <<< 27) ∈ appended cmd (config_rsz_subfrm ctx cmd index).1 →
      appended cmd2 (advance_rsz_subfrm ctx cmd2 index).1
        = [cmdq_entry.write ctx.comp.subsys_id ctx.comp.reg_base mdp_reg.PRZ_CONTROL_1
            0 (1 <<< 27)]) ∧
    (cmdq_entry.write ctx.comp.subsys_id ctx.comp.reg_base mdp_reg.PRZ_CONTROL_1
        (1 <<< 27) (1 <<< 27) ∉ appended cmd (config_rsz_subfrm ctx cmd index).1 →
      appended cmd2 (advance_rsz_subfrm ctx cmd2 index).1 = []) ∧
    (exec regs
        [cmdq_entry.write ctx.comp.subsys_id ctx.comp.reg_base mdp_reg.PRZ_CONTROL_1
          (1 <<< 27) (1 <<< 27),
         cmdq_entry.write ctx.comp.subsys_id ctx.comp.reg_base mdp_reg.PRZ_CONTROL_1
          0 (1 <<< 27)]
        ctx.comp.reg_base mdp_reg.PRZ_CONTROL_1).testBit 27 = false ∧
    (∀ j, j ≠ 27 →
      (exec regs
        [cmdq_entry.write ctx.comp.subsys_id ctx.comp.reg_base mdp_reg.PRZ_CONTROL_1
          (1 <<< 27) (1 <<< 27),
         cmdq_entry.write ctx.comp.subsys_id ctx.comp.reg_base mdp_reg.PRZ_CONTROL_1
          0 (1 <<< 27)]
        ctx.comp.reg_base mdp_reg.PRZ_CONTROL_1).testBit j
      = (regs ctx.comp.reg_base mdp_reg.PRZ_CONTROL_1).testBit j) := by
  have hiff := config_rsz_subfrm_quirk_iff ctx cmd index
  refine ⟨hiff, ?_, ?_, ?_, ?_, ?_, ?_⟩
  · simp [advance_rsz_subfrm]
  · by_cases hc :
        cfg_has ctx.mdp_dev.mdp_cfg (fun c => c.rsz_disable_dcm_small_sample) = true <;>
      by_cases hw :
        (ctx.param.subfrms index).«in».right - (ctx.param.subfrms index).«in».left + 1
          ≤ 16 <;>
      simp [advance_rsz_subfrm, appended, __get_plat_cfg, hc, hw, MM_REG_WRITE,
        MM_REG_WRITE_MASK]
  · intro hq
    obtain ⟨hc, hw⟩ := hiff.1 hq
    simp [advance_rsz_subfrm, appended, __get_plat_cfg, hc, hw, MM_REG_WRITE,
      MM_REG_WRITE_MASK]
  · intro hq
    have hn := fun hcw => hq (hiff.2 hcw)
    by_cases hc :
        cfg_has ctx.mdp_dev.mdp_cfg (fun c => c.rsz_disable_dcm_small_sample) = true
    · have hw : ¬ (ctx.param.subfrms index).«in».right
          - (ctx.param.subfrms index).«in».left + 1 ≤ 16 := fun hw => hn ⟨hc, hw⟩
      simp [advance_rsz_subfrm, appended, __get_plat_cfg, hc, hw]
    · simp [advance_rsz_subfrm, appended, __get_plat_cfg, hc]
  · rw [exec_set_then_clear_bit27, masked_write_testBit, masked_write_testBit,
      Nat.one_shiftLeft, testBit_two_pow]
    simp
  · intro j hj
    rw [exec_set_then_clear_bit27, masked_write_testBit, masked_write_testBit,
      Nat.one_shiftLeft, testBit_two_pow]
    by_cases h32 : j < 32
    · simp [hj, h32]
    · have hlt : regs ctx.comp.reg_base mdp_reg.PRZ_CONTROL_1 < 2 ^ j :=
        lt_of_lt_of_le hreg (Nat.pow_le_pow_right (by norm_num) (by omega))
      simp [hj, h32, Nat.testBit_lt_two_pow hlt]

/-- Witness of C17: a subframe 16 pixels wide on a platform with the small-sample quirk,
and a register that holds all ones. -/
theorem rsz_quirk_compensated_witness :
    appended {}
        (advance_rsz_subfrm
          { mdp_dev := { mdp_cfg := some { rsz_disable_dcm_small_sample := true } },
            param := { subfrms := fun _ => { «in» := { left := 0, right := 15 } } } } {} 0).1
      = [cmdq_entry.write 0 0 mdp_reg.PRZ_CONTROL_1 0 (1 <<< 27)] :=
  (rsz_quirk_compensated
      { mdp_dev := { mdp_cfg := some { rsz_disable_dcm_small_sample := true } },
        param := { subfrms := fun _ => { «in» := { left := 0, right := 15 } } } }
      {} {} 0 (fun _ _ => 0xFFFFFFFF) (by decide)).2.2.2.1 (by decide)

/-- C18: `config_rdma_subfrm` appends the upsample-repeat-only write
(`MDP_RDMA_RESV_DUMMY_0`, value 0x00000004, mask 0x00000004) if and only if
`rdma_upsample_repeat_only` is set and the input width of the subframe
`in.right - in.left + 1` is strictly greater than 320; when appended it is the last
command, and the first command is always the enable write `MDP_RDMA_EN`, value 1,
mask 1. -/
theorem config_rdma_subfrm_upsample (C : mdp_color_macros) (ctx : mdp_comp_ctx)
    (cmd : mmsys_cmdq_cmd) (index : Nat) :
    (config_rdma_subfrm C ctx cmd index).2 = 0 ∧
    (config_rdma_subfrm C ctx cmd index).1.pkt
      = cmd.pkt ++ appended cmd (config_rdma_subfrm C ctx cmd index).1 ∧
    (appended cmd (config_rdma_subfrm C ctx cmd index).1).head?
      = some (cmdq_entry.write ctx.comp.subsys_id ctx.comp.reg_base mdp_reg.MDP_RDMA_EN
          0x00000001 0x00000001) ∧
    (cmdq_entry.write ctx.comp.subsys_id ctx.comp.reg_base mdp_reg.MDP_RDMA_RESV_DUMMY_0
        0x00000004 0x00000004 ∈ appended cmd (config_rdma_subfrm C ctx cmd index).1 ↔
      (cfg_has ctx.mdp_dev.mdp_cfg (fun c => c.rdma_upsample_repeat_only) = true ∧
        (ctx.param.subfrms index).«in».right - (ctx.param.subfrms index).«in».left + 1
          > 320)) ∧
    ((∃ e ∈ appended cmd (config_rdma_subfrm C ctx cmd index).1,
        e.writes_reg mdp_reg.MDP_RDMA_RESV_DUMMY_0 = true) ↔
      (cfg_has ctx.mdp_dev.mdp_cfg (fun c => c.rdma_upsample_repeat_only) = true ∧
        (ctx.param.subfrms index).«in».right - (ctx.param.subfrms index).«in».left + 1
          > 320)) ∧
    (cfg_has ctx.mdp_dev.mdp_cfg (fun c => c.rdma_upsample_repeat_only) = true ∧
        (ctx.param.subfrms index).«in».right - (ctx.param.subfrms index).«in».left + 1
          > 320 →
      (appended cmd (config_rdma_subfrm C ctx cmd index).1).getLast?
        = some (cmdq_entry.write ctx.comp.subsys_id ctx.comp.reg_base
            mdp_reg.MDP_RDMA_RESV_DUMMY_0 0x00000004 0x00000004)) := by
  by_cases hc : cfg_has ctx.mdp_dev.mdp_cfg (fun c => c.rdma_upsample_repeat_only) = true <;>
    by_cases hw :
      (ctx.param.subfrms index).«in».right - (ctx.param.subfrms index).«in».left + 1 > 320 <;>
    by_cases hp : cfg_has ctx.mdp_dev.mdp_cfg (fun c => c.rdma_support_10bit &&
      C.MDP_COLOR_IS_10BIT_PACKED ctx.input.buffer.format.colorformat &&
      C.MDP_COLOR_IS_UFP ctx.input.buffer.format.colorformat) = true <;>
    simp [config_rdma_subfrm, appended, __get_plat_cfg, hc, hw, hp, MM_REG_WRITE,
      MM_REG_WRITE_MASK, cmdq_entry.writes_reg]

/-- Witness of C18: with `rdma_upsample_repeat_only` set a subframe 321 pixels wide gets
the upsample write as its last command. -/
theorem config_rdma_subfrm_upsample_witness :
    (appended {}
        (config_rdma_subfrm example_color
          { mdp_dev := { mdp_cfg := some { rdma_upsample_repeat_only := true } },
            param := { subfrms := fun _ => { «in» := { left := 0, right := 320 } } } }
          {} 0).1).getLast?
      = some (cmdq_entry.write 0 0 mdp_reg.MDP_RDMA_RESV_DUMMY_0 0x00000004 0x00000004) :=
  (config_rdma_subfrm_upsample example_color
      { mdp_dev := { mdp_cfg := some { rdma_upsample_repeat_only := true } },
        param := { subfrms := fun _ => { «in» := { left := 0, right := 320 } } } }
      {} 0).2.2.2.2.2 ⟨by decide, by decide⟩

/-- C20: for every parameter block `config_wdma_frame` returns success and appends
exactly eight writes; the first is the constant 0x10101050 under mask 0xFFFFFFFF to
`WDMA_BUF_CON2`, ahead of every frame configuration write, and the last is the write to
`WDMA_ALPHA` with value 0x800000FF and mask 0x800000FF. -/
theorem config_wdma_frame_commands (ctx : mdp_comp_ctx) (cmd : mmsys_cmdq_cmd)
    (compose : v4l2_rect) :
    (config_wdma_frame ctx cmd compose).2 = 0 ∧
    (config_wdma_frame ctx cmd compose).1.pkt
      = cmd.pkt ++ appended cmd (config_wdma_frame ctx cmd compose).1 ∧
    appended cmd (config_wdma_frame ctx cmd compose).1
      = [cmdq_entry.write ctx.comp.subsys_id ctx.comp.reg_base mdp_reg.WDMA_BUF_CON2
           0x10101050 0xFFFFFFFF,
         cmdq_entry.write ctx.comp.subsys_id ctx.comp.reg_base mdp_reg.WDMA_CFG
           ctx.param.wdma.wdma_cfg 0x0F01B8F0,
         cmdq_entry.write ctx.comp.subsys_id ctx.comp.reg_base mdp_reg.WDMA_DST_ADDR
           (ctx.param.wdma.iova 0) 0xFFFFFFFF,
         cmdq_entry.write ctx.comp.subsys_id ctx.comp.reg_base mdp_reg.WDMA_DST_U_ADDR
           (ctx.param.wdma.iova 1) 0xFFFFFFFF,
         cmdq_entry.write ctx.comp.subsys_id ctx.comp.reg_base mdp_reg.WDMA_DST_V_ADDR
           (ctx.param.wdma.iova 2) 0xFFFFFFFF,
         cmdq_entry.write ctx.comp.subsys_id ctx.comp.reg_base mdp_reg.WDMA_DST_W_IN_BYTE
           ctx.param.wdma.w_in_byte 0x0000FFFF,
         cmdq_entry.write ctx.comp.subsys_id ctx.comp.reg_base mdp_reg.WDMA_DST_UV_PITCH
           ctx.param.wdma.uv_stride 0x0000FFFF,
         cmdq_entry.write ctx.comp.subsys_id ctx.comp.reg_base mdp_reg.WDMA_ALPHA
           0x800000FF 0x800000FF] ∧
    (appended cmd (config_wdma_frame ctx cmd compose).1).length = 8 ∧
    (appended cmd (config_wdma_frame ctx cmd compose).1).head?
      = some (cmdq_entry.write ctx.comp.subsys_id ctx.comp.reg_base mdp_reg.WDMA_BUF_CON2
          0x10101050 0xFFFFFFFF) ∧
    (appended cmd (config_wdma_frame ctx cmd compose).1).getLast?
      = some (cmdq_entry.write ctx.comp.subsys_id ctx.comp.reg_base mdp_reg.WDMA_ALPHA
          0x800000FF 0x800000FF) := by
  simp [config_wdma_frame, appended, MM_REG_WRITE, MM_REG_WRITE_MASK]

/-! ## Size register of the color corrector -/

/-- Bits of a word packed from two 16-bit halves. -/
theorem testBit_pack (w h j : Nat) (hh : h < 2 ^ 16) :
    (2 ^ 16 * w + h).testBit j = if j < 16 then h.testBit j else w.testBit (j - 16) :=
  Nat.testBit_mul_pow_two_add w hh j

/-- Two 13-bit fields packed into the halves of a word pass the mask 0x1FFF1FFF
unchanged. -/
theorem pack_and_size_mask (w h : Nat) (hw : w < 2 ^ 13) (hh : h < 2 ^ 13) :
    (2 ^ 16 * w + h) &&& 0x1FFF1FFF = 2 ^ 16 * w + h := by
  have hm : (0x1FFF1FFF : Nat) = 2 ^ 16 * (2 ^ 13 - 1) + (2 ^ 13 - 1) := by norm_num
  have hh16 : h < 2 ^ 16 := lt_of_lt_of_le hh (by norm_num)
  apply Nat.eq_of_testBit_eq
  intro j
  rw [Nat.testBit_and, hm, testBit_pack w h j hh16, testBit_pack _ _ j (by norm_num),
    Nat.testBit_two_pow_sub_one, Nat.testBit_two_pow_sub_one]
  by_cases hj : j < 16
  · by_cases hj13 : j < 13
    · simp [hj, hj13]
    · have : h < 2 ^ j := lt_of_lt_of_le hh (Nat.pow_le_pow_right (by norm_num) (by omega))
      simp [hj, hj13, Nat.testBit_lt_two_pow this]
  · by_cases hj13 : j - 16 < 13
    · simp [hj, hj13]
    · have : w < 2 ^ (j - 16) :=
        lt_of_lt_of_le hw (Nat.pow_le_pow_right (by norm_num) (by omega))
      simp [hj, hj13, Nat.testBit_lt_two_pow this]

/-- Conversion to `u32` keeps a value that fits. -/
theorem u32_of_int_natCast (n : Nat) (h : n < 2 ^ 32) : u32_of_int (n : Int) = n := by
  unfold u32_of_int
  omega

/-- C19: `config_ccorr_subfrm` appends exactly one command, a write to `MDP_CCORR_SIZE`
under mask 0x1FFF1FFF with value `(w << 16) + h` in `u32` arithmetic, where
`w = in.right - in.left + 1` and `h = in.bottom - in.top + 1` of the input rectangle of
the subframe.  For every rectangle with 1 <= w <= 8191 and 1 <= h <= 8191 the value is
`(w << 16) + h` without wrap-around, and the masked value carries `w` in bits 28..16 and
`h` in bits 12..0, with no carry between the two fields and nothing in the other bits. -/
theorem config_ccorr_subfrm_size (ctx : mdp_comp_ctx) (cmd : mmsys_cmdq_cmd) (index : Nat) :
    (config_ccorr_subfrm ctx cmd index).2 = 0 ∧
    (config_ccorr_subfrm ctx cmd index).1.pkt
      = cmd.pkt ++ appended cmd (config_ccorr_subfrm ctx cmd index).1 ∧
    appended cmd (config_ccorr_subfrm ctx cmd index).1
      = [cmdq_entry.write ctx.comp.subsys_id ctx.comp.reg_base mdp_reg.MDP_CCORR_SIZE
          (((u32_of_int ((ctx.param.subfrms index).«in».right
                - (ctx.param.subfrms index).«in».left + 1) <<< 16)
              + u32_of_int ((ctx.param.subfrms index).«in».bottom
                - (ctx.param.subfrms index).«in».top + 1)) % 2 ^ 32)
          0x1FFF1FFF] ∧
    (∀ w h : Nat,
      (ctx.param.subfrms index).«in».right - (ctx.param.subfrms index).«in».left + 1
        = (w : Int) →
      (ctx.param.subfrms index).«in».bottom - (ctx.param.subfrms index).«in».top + 1
        = (h : Int) →
      1 ≤ w → w ≤ 8191 → 1 ≤ h → h ≤ 8191 →
      appended cmd (config_ccorr_subfrm ctx cmd index).1
        = [cmdq_entry.write ctx.comp.subsys_id ctx.comp.reg_base mdp_reg.MDP_CCORR_SIZE
            ((w <<< 16) + h) 0x1FFF1FFF] ∧
      ((w <<< 16) + h) &&& 0x1FFF1FFF = (w <<< 16) ||| h ∧
      ((((w <<< 16) + h) &&& 0x1FFF1FFF) >>> 16) &&& 0x1FFF = w ∧
      (((w <<< 16) + h) &&& 0x1FFF1FFF) &&& 0x1FFF = h ∧
      (((w <<< 16) + h) &&& 0x1FFF1FFF) &&& 0xE000E000 = 0) := by
  refine ⟨by simp [config_ccorr_subfrm], ?_, ?_, ?_⟩
  · simp [config_ccorr_subfrm, appended, MM_REG_WRITE, MM_REG_WRITE_MASK]
  · simp [config_ccorr_subfrm, appended, MM_REG_WRITE, MM_REG_WRITE_MASK]
  intro w h hw hh hw1 hw2 hh1 hh2
  have hw13 : w < 2 ^ 13 := by norm_num; omega
  have hh13 : h < 2 ^ 13 := by norm_num; omega
  have hh16 : h < 2 ^ 16 := by norm_num; omega
  have hval : (w <<< 16) + h = 2 ^ 16 * w + h := by rw [Nat.shiftLeft_eq, Nat.mul_comm]
  have hmask := pack_and_size_mask w h hw13 hh13
  have h1fff : (0x1FFF : Nat) = 2 ^ 13 - 1 := by norm_num
  refine ⟨?_, ?_, ?_, ?_, ?_⟩
  · simp [config_ccorr_subfrm, appended, MM_REG_WRITE, MM_REG_WRITE_MASK, hw, hh,
      u32_of_int_natCast w (by norm_num; omega), u32_of_int_natCast h (by norm_num; omega)]
    rw [hval]
    norm_num
    omega
  · rw [hval, hmask]
    apply Nat.eq_of_testBit_eq
    intro j
    rw [testBit_pack w h j hh16, Nat.testBit_or, Nat.testBit_shiftLeft]
    by_cases hj : j < 16
    · have : ¬ j ≥ 16 := by omega
      simp [hj, this]
    · have : h < 2 ^ j := lt_of_lt_of_le hh16 (Nat.pow_le_pow_right (by norm_num) (by omega))
      have hge : j ≥ 16 := by omega
      simp [hj, hge, Nat.testBit_lt_two_pow this]
  · rw [hval, hmask, h1fff, Nat.and_pow_two_sub_one_eq_mod, Nat.shiftRight_eq_div_pow]
    norm_num
    omega
  · rw [hval, hmask, h1fff, Nat.and_pow_two_sub_one_eq_mod]
    norm_num
    omega
  · rw [hval, hmask]
    apply Nat.eq_of_testBit_eq
    intro j
    rw [Nat.testBit_and, testBit_pack w h j hh16, Nat.zero_testBit]
    by_cases hj : j < 16
    · by_cases hj13 : j < 13
      · have : (0xE000E000 : Nat).testBit j = false := by interval_cases j <;> rfl
        simp [hj, this]
      · have : h < 2 ^ j := lt_of_lt_of_le hh13 (Nat.pow_le_pow_right (by norm_num) (by omega))
        simp [hj, Nat.testBit_lt_two_pow this]
    · by_cases hj13 : j < 29
      · have : (0xE000E000 : Nat).testBit j = false := by interval_cases j <;> rfl
        simp [hj, this]
      · have : w < 2 ^ (j - 16) :=
          lt_of_lt_of_le hw13 (Nat.pow_le_pow_right (by norm_num) (by omega))
        simp [hj, Nat.testBit_lt_two_pow this]

/-- Witness of C19: a subframe of 640 by 480 pixels. -/
theorem config_ccorr_subfrm_size_witness :
    appended {}
        (config_ccorr_subfrm
          { param := { subfrms := fun _ =>
              { «in» := { left := 0, right := 639, top := 0, bottom := 479 } } } } {} 0).1
      = [cmdq_entry.write 0 0 mdp_reg.MDP_CCORR_SIZE ((640 <<< 16) + 480) 0x1FFF1FFF] ∧
    ((640 <<< 16) + 480) &&& 0x1FFF1FFF = (640 <<< 16) ||| 480 ∧
    ((((640 <<< 16) + 480) &&& 0x1FFF1FFF) >>> 16) &&& 0x1FFF = 640 ∧
    (((640 <<< 16) + 480) &&& 0x1FFF1FFF) &&& 0x1FFF = 480 ∧
    (((640 <<< 16) + 480) &&& 0x1FFF1FFF) &&& 0xE000E000 = 0 :=
  (config_ccorr_subfrm_size
      { param := { subfrms := fun _ =>
          { «in» := { left := 0, right := 639, top := 0, bottom := 479 } } } } {} 0).2.2.2
    640 480 (by decide) (by decide) (by decide) (by decide) (by decide) (by decide)


/-! ## Frame configuration of the writer and rotator, in full -/

/-- C21: `config_wrot_frame` appends, in this order, the three plane base addresses, the
control word, the three plane strides, the matrix-control word, the alpha write and the
end-of-line-select write (`VIDO_RSV_1`, value 0x80000000, mask 0x80000000)
unconditionally; it appends a `VIDO_FIFO_TEST` write (mask 0x00000FFF) if and only if
`fifo_test` is non-zero and a `VIDO_MAIN_BUF_SIZE` filter write (mask 0x00000077) if and
only if `wrot_filter_constraint` is set, so the number of commands is
10 + [fifo_test != 0] + [wrot_filter_constraint]. -/
theorem config_wrot_frame_commands (ctx : mdp_comp_ctx) (cmd : mmsys_cmdq_cmd)
    (compose : v4l2_rect) :
    (config_wrot_frame ctx cmd compose).2 = 0 ∧
    (config_wrot_frame ctx cmd compose).1.pkt
      = cmd.pkt ++ appended cmd (config_wrot_frame ctx cmd compose).1 ∧
    appended cmd (config_wrot_frame ctx cmd compose).1
      = [cmdq_entry.write ctx.comp.subsys_id ctx.comp.reg_base mdp_reg.VIDO_BASE_ADDR
           (ctx.param.wrot.iova 0) 0xFFFFFFFF,
         cmdq_entry.write ctx.comp.subsys_id ctx.comp.reg_base mdp_reg.VIDO_BASE_ADDR_C
           (ctx.param.wrot.iova 1) 0xFFFFFFFF,
         cmdq_entry.write ctx.comp.subsys_id ctx.comp.reg_base mdp_reg.VIDO_BASE_ADDR_V
           (ctx.param.wrot.iova 2) 0xFFFFFFFF,
         cmdq_entry.write ctx.comp.subsys_id ctx.comp.reg_base mdp_reg.VIDO_CTRL
           ctx.param.wrot.control 0xF131510F,
         cmdq_entry.write ctx.comp.subsys_id ctx.comp.reg_base mdp_reg.VIDO_STRIDE
           (ctx.param.wrot.stride 0) 0x0000FFFF,
         cmdq_entry.write ctx.comp.subsys_id ctx.comp.reg_base mdp_reg.VIDO_STRIDE_C
           (ctx.param.wrot.stride 1) 0x0000FFFF,
         cmdq_entry.write ctx.comp.subsys_id ctx.comp.reg_base mdp_reg.VIDO_STRIDE_V
           (ctx.param.wrot.stride 2) 0x0000FFFF,
         cmdq_entry.write ctx.comp.subsys_id ctx.comp.reg_base mdp_reg.VIDO_MAT_CTRL
           ctx.param.wrot.mat_ctrl 0x000000F3,
         cmdq_entry.write ctx.comp.subsys_id ctx.comp.reg_base mdp_reg.VIDO_DITHER
           0xFF000000 0xFF000000,
         cmdq_entry.write ctx.comp.subsys_id ctx.comp.reg_base mdp_reg.VIDO_RSV_1
           0x80000000 0x80000000] ++
        (if ctx.param.wrot.fifo_test ≠ 0 then
          [cmdq_entry.write ctx.comp.subsys_id ctx.comp.reg_base mdp_reg.VIDO_FIFO_TEST
            ctx.param.wrot.fifo_test 0x00000FFF]
        else []) ++
        (if cfg_has ctx.mdp_dev.mdp_cfg (fun c => c.wrot_filter_constraint) = true then
          [cmdq_entry.write ctx.comp.subsys_id ctx.comp.reg_base mdp_reg.VIDO_MAIN_BUF_SIZE
            ctx.param.wrot.filter 0x00000077]
        else []) ∧
    ((∃ e ∈ appended cmd (config_wrot_frame ctx cmd compose).1,
        e.writes_reg mdp_reg.VIDO_FIFO_TEST = true) ↔ ctx.param.wrot.fifo_test ≠ 0) ∧
    ((∃ e ∈ appended cmd (config_wrot_frame ctx cmd compose).1,
        e.writes_reg_mask mdp_reg.VIDO_MAIN_BUF_SIZE 0x00000077 = true) ↔
      cfg_has ctx.mdp_dev.mdp_cfg (fun c => c.wrot_filter_constraint) = true) ∧
    (appended cmd (config_wrot_frame ctx cmd compose).1).length
      = 10 + (if ctx.param.wrot.fifo_test ≠ 0 then 1 else 0) +
        (if cfg_has ctx.mdp_dev.mdp_cfg (fun c => c.wrot_filter_constraint) = true
          then 1 else 0) := by
  have hm : (match ctx.mdp_dev.mdp_cfg with
      | none => false
      | some cfg => cfg.wrot_filter_constraint)
      = cfg_has ctx.mdp_dev.mdp_cfg (fun c => c.wrot_filter_constraint) := rfl
  by_cases hf : ctx.param.wrot.fifo_test = 0 <;>
    cases hc : cfg_has ctx.mdp_dev.mdp_cfg (fun c => c.wrot_filter_constraint) <;>
    simp [config_wrot_frame, appended, __get_plat_cfg, hm, hf, hc, MM_REG_WRITE,
      MM_REG_WRITE_MASK, cmdq_entry.writes_reg, cmdq_entry.writes_reg_mask]

/-! ## Subframe configuration of the scaler -/

/-- The entries appended by `config_rsz_subfrm`. -/
theorem config_rsz_subfrm_appended (ctx : mdp_comp_ctx) (cmd : mmsys_cmdq_cmd) (index : Nat) :
    config_rsz_subfrm ctx cmd index
      = ({ pkt := cmd.pkt ++
            ([cmdq_entry.write ctx.comp.subsys_id ctx.comp.reg_base mdp_reg.PRZ_CONTROL_2
                (ctx.param.rsz.subfrms index).control2 0x00003800,
              cmdq_entry.write ctx.comp.subsys_id ctx.comp.reg_base mdp_reg.PRZ_INPUT_IMAGE
                (ctx.param.rsz.subfrms index).src 0xFFFFFFFF] ++
             (if cfg_has ctx.mdp_dev.mdp_cfg (fun c => c.rsz_disable_dcm_small_sample) = true ∧
                  (ctx.param.subfrms index).«in».right - (ctx.param.subfrms index).«in».left + 1
                    ≤ 16 then
                [cmdq_entry.write ctx.comp.subsys_id ctx.comp.reg_base mdp_reg.PRZ_CONTROL_1
                  (1 <<< 27) (1 <<< 27)]
              else []) ++
             [cmdq_entry.write ctx.comp.subsys_id ctx.comp.reg_base
                mdp_reg.PRZ_LUMA_HORIZONTAL_INTEGER_OFFSET
                (ctx.param.subfrms index).luma.left 0x0000FFFF,
              cmdq_entry.write ctx.comp.subsys_id ctx.comp.reg_base
                mdp_reg.PRZ_LUMA_HORIZONTAL_SUBPIXEL_OFFSET
                (ctx.param.subfrms index).luma.left_subpix 0x001FFFFF,
              cmdq_entry.write ctx.comp.subsys_id ctx.comp.reg_base
                mdp_reg.PRZ_LUMA_VERTICAL_INTEGER_OFFSET
                (ctx.param.subfrms index).luma.top 0x0000FFFF,
              cmdq_entry.write ctx.comp.subsys_id ctx.comp.reg_base
                mdp_reg.PRZ_LUMA_VERTICAL_SUBPIXEL_OFFSET
                (ctx.param.subfrms index).luma.top_subpix 0x001FFFFF,
              cmdq_entry.write ctx.comp.subsys_id ctx.comp.reg_base
                mdp_reg.PRZ_CHROMA_HORIZONTAL_INTEGER_OFFSET
                (ctx.param.subfrms index).chroma.left 0x0000FFFF,
              cmdq_entry.write ctx.comp.subsys_id ctx.comp.reg_base
                mdp_reg.PRZ_CHROMA_HORIZONTAL_SUBPIXEL_OFFSET
                (ctx.param.subfrms index).chroma.left_subpix 0x001FFFFF,
              cmdq_entry.write ctx.comp.subsys_id ctx.comp.reg_base mdp_reg.PRZ_OUTPUT_IMAGE
                (ctx.param.rsz.subfrms index).clip 0xFFFFFFFF]) }, 0) := by
  by_cases hc : cfg_has ctx.mdp_dev.mdp_cfg (fun c => c.rsz_disable_dcm_small_sample) = true <;>
    by_cases hw :
      (ctx.param.subfrms index).«in».right - (ctx.param.subfrms index).«in».left + 1
        ≤ 16 <;>
    simp [config_rsz_subfrm, __get_plat_cfg, hc, hw, MM_REG_WRITE, MM_REG_WRITE_MASK]

/-- Counterexample to C22 as stated: `config_rsz_subfrm` appends nine commands, of which
six are offset writes, not eight; no offset pair covers the chroma vertical direction,
and the packet does not depend on `chroma.top` and `chroma.top_subpix`. -/
theorem config_rsz_subfrm_three_offset_pairs :
    appended {} (config_rsz_subfrm {} {} 0).1
      = [cmdq_entry.write 0 0 mdp_reg.PRZ_CONTROL_2 0 0x00003800,
         cmdq_entry.write 0 0 mdp_reg.PRZ_INPUT_IMAGE 0 0xFFFFFFFF,
         cmdq_entry.write 0 0 mdp_reg.PRZ_LUMA_HORIZONTAL_INTEGER_OFFSET 0 0x0000FFFF,
         cmdq_entry.write 0 0 mdp_reg.PRZ_LUMA_HORIZONTAL_SUBPIXEL_OFFSET 0 0x001FFFFF,
         cmdq_entry.write 0 0 mdp_reg.PRZ_LUMA_VERTICAL_INTEGER_OFFSET 0 0x0000FFFF,
         cmdq_entry.write 0 0 mdp_reg.PRZ_LUMA_VERTICAL_SUBPIXEL_OFFSET 0 0x001FFFFF,
         cmdq_entry.write 0 0 mdp_reg.PRZ_CHROMA_HORIZONTAL_INTEGER_OFFSET 0 0x0000FFFF,
         cmdq_entry.write 0 0 mdp_reg.PRZ_CHROMA_HORIZONTAL_SUBPIXEL_OFFSET 0 0x001FFFFF,
         cmdq_entry.write 0 0 mdp_reg.PRZ_OUTPUT_IMAGE 0 0xFFFFFFFF] ∧
    ((appended {} (config_rsz_subfrm {} {} 0).1).filter
        (fun e => !(e.writes_reg mdp_reg.PRZ_CONTROL_2 || e.writes_reg mdp_reg.PRZ_INPUT_IMAGE
          || e.writes_reg mdp_reg.PRZ_OUTPUT_IMAGE))).length = 6 ∧
    config_rsz_subfrm
        { param := { subfrms := fun _ => { chroma := { top := 5, top_subpix := 7 } } } } {} 0
      = config_rsz_subfrm {} {} 0 := by
  decide

/-- C22, amended: `config_rsz_subfrm` writes control-2 (`PRZ_CONTROL_2`, mask
0x00003800), the input geometry (`PRZ_INPUT_IMAGE`), three offset pairs, each an
integer-offset and a subpixel-offset write, for luma horizontal, luma vertical and
chroma horizontal (six offset writes, none for chroma vertical), and finally the output
geometry (`PRZ_OUTPUT_IMAGE`) as its last command; the small-sample quirk write, when it
applies, sits between the input geometry and the offsets. -/
theorem config_rsz_subfrm_commands (ctx : mdp_comp_ctx) (cmd : mmsys_cmdq_cmd) (index : Nat) :
    (config_rsz_subfrm ctx cmd index).2 = 0 ∧
    (config_rsz_subfrm ctx cmd index).1.pkt
      = cmd.pkt ++ appended cmd (config_rsz_subfrm ctx cmd index).1 ∧
    appended cmd (config_rsz_subfrm ctx cmd index).1
      = [cmdq_entry.write ctx.comp.subsys_id ctx.comp.reg_base mdp_reg.PRZ_CONTROL_2
           (ctx.param.rsz.subfrms index).control2 0x00003800,
         cmdq_entry.write ctx.comp.subsys_id ctx.comp.reg_base mdp_reg.PRZ_INPUT_IMAGE
           (ctx.param.rsz.subfrms index).src 0xFFFFFFFF] ++
        (if cfg_has ctx.mdp_dev.mdp_cfg (fun c => c.rsz_disable_dcm_small_sample) = true ∧
            (ctx.param.subfrms index).«in».right - (ctx.param.subfrms index).«in».left + 1
              ≤ 16 then
          [cmdq_entry.write ctx.comp.subsys_id ctx.comp.reg_base mdp_reg.PRZ_CONTROL_1
            (1 <<< 27) (1 <<< 27)]
        else []) ++
        [cmdq_entry.write ctx.comp.subsys_id ctx.comp.reg_base
           mdp_reg.PRZ_LUMA_HORIZONTAL_INTEGER_OFFSET
           (ctx.param.subfrms index).luma.left 0x0000FFFF,
         cmdq_entry.write ctx.comp.subsys_id ctx.comp.reg_base
           mdp_reg.PRZ_LUMA_HORIZONTAL_SUBPIXEL_OFFSET
           (ctx.param.subfrms index).luma.left_subpix 0x001FFFFF,
         cmdq_entry.write ctx.comp.subsys_id ctx.comp.reg_base
           mdp_reg.PRZ_LUMA_VERTICAL_INTEGER_OFFSET
           (ctx.param.subfrms index).luma.top 0x0000FFFF,
         cmdq_entry.write ctx.comp.subsys_id ctx.comp.reg_base
           mdp_reg.PRZ_LUMA_VERTICAL_SUBPIXEL_OFFSET
           (ctx.param.subfrms index).luma.top_subpix 0x001FFFFF,
         cmdq_entry.write ctx.comp.subsys_id ctx.comp.reg_base
           mdp_reg.PRZ_CHROMA_HORIZONTAL_INTEGER_OFFSET
           (ctx.param.subfrms index).chroma.left 0x0000FFFF,
         cmdq_entry.write ctx.comp.subsys_id ctx.comp.reg_base
           mdp_reg.PRZ_CHROMA_HORIZONTAL_SUBPIXEL_OFFSET
           (ctx.param.subfrms index).chroma.left_subpix 0x001FFFFF,
         cmdq_entry.write ctx.comp.subsys_id ctx.comp.reg_base mdp_reg.PRZ_OUTPUT_IMAGE
           (ctx.param.rsz.subfrms index).clip 0xFFFFFFFF] ∧
    (appended cmd (config_rsz_subfrm ctx cmd index).1).getLast?
      = some (cmdq_entry.write ctx.comp.subsys_id ctx.comp.reg_base mdp_reg.PRZ_OUTPUT_IMAGE
          (ctx.param.rsz.subfrms index).clip 0xFFFFFFFF) := by
  rw [config_rsz_subfrm_appended, appended_append]
  refine ⟨rfl, rfl, by simp, ?_⟩
  split_ifs <;> simp

/-! ## Completion-queue base of the ISP hand-off -/

/-- C27: for every accepted completion-queue thread `k` in 0..11, `config_isp_frame`
appends exactly nine writes under the full mask 0xFFFFFFFF: the eight SMX base-address
writes (each of `smxi_iova[0..3]` to its input and to its output base register) followed
by one write of `cq_iova` to the register offset `0x2208 + 12 * k`; distinct indices
select distinct registers. -/
theorem config_isp_frame_commands (ctx : mdp_comp_ctx) (cmd : mmsys_cmdq_cmd)
    (compose : v4l2_rect) (k : Nat) (hk : k < 12) (hq : ctx.param.isp.cq_idx = k) :
    (config_isp_frame ctx cmd compose).2 = 0 ∧
    (config_isp_frame ctx cmd compose).1.pkt
      = cmd.pkt ++ appended cmd (config_isp_frame ctx cmd compose).1 ∧
    appended cmd (config_isp_frame ctx cmd compose).1
      = smx_writes ctx ++
        [cmdq_entry.write ctx.comp.subsys_id ctx.comp.reg_base (mdp_reg.ofs (0x2208 + 12 * k))
          ctx.param.isp.cq_iova 0xFFFFFFFF] ∧
    (appended cmd (config_isp_frame ctx cmd compose).1).length = 9 ∧
    (∀ e ∈ appended cmd (config_isp_frame ctx cmd compose).1,
      ∃ sub base reg value, e = cmdq_entry.write sub base reg value 0xFFFFFFFF) ∧
    (∀ k2, k2 < 12 → k2 ≠ k →
      mdp_reg.ofs (0x2208 + 12 * k2) ≠ mdp_reg.ofs (0x2208 + 12 * k)) := by
  rw [config_isp_frame_accept ctx cmd compose (by omega), hq]
  refine ⟨rfl, ?_, ?_, ?_, ?_, ?_⟩
  · simp [appended]
  · simp [appended]
  · simp [appended, smx_writes]
  · intro e he
    simp [appended, smx_writes] at he
    rcases he with he | he | he | he | he | he | he | he | he <;> exact ⟨_, _, _, _, he⟩
  · intro k2 _ hne h
    simp only [mdp_reg.ofs.injEq] at h
    omega

/-- Witness of C27: thread 3 writes the completion-queue base to offset 0x222C. -/
theorem config_isp_frame_commands_witness :
    appended {} (config_isp_frame { param := { isp := { cq_idx := 3, cq_iova := 7 } } } {} {}).1
      = smx_writes { param := { isp := { cq_idx := 3, cq_iova := 7 } } } ++
        [cmdq_entry.write 0 0 (mdp_reg.ofs 0x222C) 7 0xFFFFFFFF] :=
  (config_isp_frame_commands { param := { isp := { cq_idx := 3, cq_iova := 7 } } } {} {} 3
    (by decide) rfl).2.2.1

/-! ## Reservation of the paired resizer -/

/-- Counterexample to C26 as stated: on a platform with `rdma_support_10bit` but without
`rdma_rsz1_sram_sharing`, `init_rdma` of the reader appends the disable write addressed
to the register base of RSZ1, while the mask of `get_comp_flag` is the own bit of the
reader only and does not include the RSZ1 bit. -/
theorem init_rdma_writes_unreserved_rsz1 :
    cmdq_entry.write 0 0x3000 mdp_reg.PRZ_ENABLE 0 0x00000001
      ∈ appended {}
          (init_rdma example_ids
            { comp := { id := 11, reg_base := 0x1000 },
              mdp_dev :=
                { mdp_cfg := some { rdma_support_10bit := true },
                  comp := List.replicate 15 none ++ [some { id := 15, reg_base := 0x3000 }] } }
            {}).1 ∧
    get_comp_flag example_ids
        { comp := { id := 11, reg_base := 0x1000 },
          mdp_dev :=
            { mdp_cfg := some { rdma_support_10bit := true },
              comp := List.replicate 15 none ++ [some { id := 15, reg_base := 0x3000 }] } }
      = 2048 ∧
    (get_comp_flag example_ids
        { comp := { id := 11, reg_base := 0x1000 },
          mdp_dev :=
            { mdp_cfg := some { rdma_support_10bit := true },
              comp := List.replicate 15 none ++ [some { id := 15, reg_base := 0x3000 }] } }
      ).testBit example_ids.MDP_COMP_RSZ1 = false := by
  decide

/-- C26, amended: whenever `init_rdma` appends the write that disables the paired
resizer RSZ1 and the platform configuration also has `rdma_rsz1_sram_sharing` set, the
mask returned by `get_comp_flag` for the same context includes the RSZ1 bit.  The write
is gated by `rdma_support_10bit` and the mask by `rdma_rsz1_sram_sharing`: without SRAM
sharing the mask holds the own bit of the reader only. -/
theorem rsz1_reserved_when_sharing (K : mdp_comp_ids) (ctx : mdp_comp_ctx)
    (cmd : mmsys_cmdq_cmd) (hK : K.flags_fit)
    (hinit : ∃ e ∈ appended cmd (init_rdma K ctx cmd).1,
      e.writes_reg mdp_reg.PRZ_ENABLE = true) :
    ctx.comp.id = K.MDP_COMP_RDMA0 ∧
    cfg_has ctx.mdp_dev.mdp_cfg (fun c => c.rdma_support_10bit) = true ∧
    (cfg_has ctx.mdp_dev.mdp_cfg (fun c => c.rdma_rsz1_sram_sharing) = true →
      (get_comp_flag K ctx).testBit K.MDP_COMP_RSZ1 = true) ∧
    (cfg_has ctx.mdp_dev.mdp_cfg (fun c => c.rdma_rsz1_sram_sharing) = false →
      get_comp_flag K ctx = ((1 <<< K.MDP_COMP_RDMA0 : Nat) : Int)) := by
  obtain ⟨hr, hz, hm⟩ := hK
  have hcond : cfg_has ctx.mdp_dev.mdp_cfg (fun c => c.rdma_support_10bit) = true ∧
      ctx.comp.id = K.MDP_COMP_RDMA0 := by
    rw [init_rdma_appended, appended_append] at hinit
    by_cases hc : cfg_has ctx.mdp_dev.mdp_cfg (fun c => c.rdma_support_10bit) = true
    · by_cases hi : ctx.comp.id = K.MDP_COMP_RDMA0
      · exact ⟨hc, hi⟩
      · simp [hc, hi, cmdq_entry.writes_reg] at hinit
    · simp [hc, cmdq_entry.writes_reg] at hinit
  refine ⟨hcond.2, hcond.1, ?_, ?_⟩
  · intro hs
    have hex : (∃ cfg, ctx.mdp_dev.mdp_cfg = some cfg ∧ cfg.rdma_rsz1_sram_sharing = true) ∧
        ctx.comp.id = K.MDP_COMP_RDMA0 := by
      refine ⟨?_, hcond.2⟩
      cases hcfg : ctx.mdp_dev.mdp_cfg with
      | none => simp [hcfg, cfg_has] at hs
      | some cfg => exact ⟨cfg, rfl, by simpa [hcfg, cfg_has] using hs⟩
    rw [get_comp_flag_cases, if_pos hex, shared_flag_eq _ _ (by omega) (by omega)]
    show Nat.testBit _ _ = _
    rw [Nat.testBit_or, Nat.one_shiftLeft, Nat.one_shiftLeft, testBit_two_pow, testBit_two_pow]
    simp
  · intro hs
    have hex : ¬((∃ cfg, ctx.mdp_dev.mdp_cfg = some cfg ∧ cfg.rdma_rsz1_sram_sharing = true) ∧
        ctx.comp.id = K.MDP_COMP_RDMA0) := by
      rintro ⟨⟨cfg, hcfg, hsh⟩, -⟩
      simp [hcfg, cfg_has, hsh] at hs
    rw [get_comp_flag_cases, if_neg hex, hcond.2, own_flag_eq _ (by omega)]

/-- Witness of C26: the reader of the example enumeration with 10-bit support, SRAM
sharing and a registered RSZ1. -/
theorem rsz1_reserved_when_sharing_witness :
    (get_comp_flag example_ids
        { comp := { id := 11, reg_base := 0x1000 },
          mdp_dev :=
            { mdp_cfg := some { rdma_support_10bit := true, rdma_rsz1_sram_sharing := true },
              comp := List.replicate 15 none ++ [some { id := 15, reg_base := 0x3000 }] } }
      ).testBit example_ids.MDP_COMP_RSZ1 = true :=
  (rsz1_reserved_when_sharing example_ids
      { comp := { id := 11, reg_base := 0x1000 },
        mdp_dev :=
          { mdp_cfg := some { rdma_support_10bit := true, rdma_rsz1_sram_sharing := true },
            comp := List.replicate 15 none ++ [some { id := 15, reg_base := 0x3000 }] } }
      {} (by decide)
      ⟨cmdq_entry.write 0 0x3000 mdp_reg.PRZ_ENABLE 0 0x00000001, by decide, by decide⟩).2.2.1
    (by decide)

/-! ## Enable and disable writes under masked-write semantics -/

/-- Executing two lists of entries one after the other. -/
theorem exec_append (regs : reg_file) (l1 l2 : List cmdq_entry) :
    exec regs (l1 ++ l2) = exec (exec regs l1) l2 := by
  simp [exec, List.foldl_append]

/-- Setting and then clearing bit 0 of a 32-bit register by masked writes leaves bit 0
clear and the other bits as they were. -/
theorem masked_write_enable_disable (old : Nat) (h : old < 2 ^ 32) :
    (masked_write (masked_write old 1 1) 0 1).testBit 0 = false ∧
    ∀ j, j ≠ 0 → (masked_write (masked_write old 1 1) 0 1).testBit j = old.testBit j := by
  have hb : ∀ j, Nat.testBit 1 j = decide (j = 0) := fun j => by
    have := testBit_two_pow 0 j
    rwa [pow_zero] at this
  constructor
  · rw [masked_write_testBit, masked_write_testBit, hb]
    simp
  · intro j hj
    rw [masked_write_testBit, masked_write_testBit, hb]
    by_cases h32 : j < 32
    · simp [hj, h32]
    · have hlt : old < 2 ^ j :=
        lt_of_lt_of_le h (Nat.pow_le_pow_right (by norm_num) (by omega))
      simp [hj, h32, Nat.testBit_lt_two_pow hlt]

/-- The enable register of the reader after the commands of `config_rdma_subfrm`. -/
theorem exec_config_rdma_subfrm_en (C : mdp_color_macros) (ctx : mdp_comp_ctx)
    (cmd : mmsys_cmdq_cmd) (index : Nat) (regs : reg_file) :
    exec regs (appended cmd (config_rdma_subfrm C ctx cmd index).1)
        ctx.comp.reg_base mdp_reg.MDP_RDMA_EN
      = masked_write (regs ctx.comp.reg_base mdp_reg.MDP_RDMA_EN) 1 1 := by
  by_cases hc : cfg_has ctx.mdp_dev.mdp_cfg (fun c => c.rdma_upsample_repeat_only) = true <;>
    by_cases hw :
      (ctx.param.subfrms index).«in».right - (ctx.param.subfrms index).«in».left + 1 > 320 <;>
    by_cases hp : cfg_has ctx.mdp_dev.mdp_cfg (fun c => c.rdma_support_10bit &&
      C.MDP_COLOR_IS_10BIT_PACKED ctx.input.buffer.format.colorformat &&
      C.MDP_COLOR_IS_UFP ctx.input.buffer.format.colorformat) = true <;>
    simp [config_rdma_subfrm, appended, __get_plat_cfg, hc, hw, hp, MM_REG_WRITE,
      MM_REG_WRITE_MASK, exec, exec_entry]

/-- The enable register of the reader after the commands of `wait_rdma_event`. -/
theorem exec_wait_rdma_event_en (ctx : mdp_comp_ctx) (cmd : mmsys_cmdq_cmd) (regs : reg_file) :
    exec regs (appended cmd (wait_rdma_event ctx cmd).1) ctx.comp.reg_base mdp_reg.MDP_RDMA_EN
      = masked_write (regs ctx.comp.reg_base mdp_reg.MDP_RDMA_EN) 0 1 := by
  by_cases ha : ctx.comp.alias_id = 0 <;>
    simp [wait_rdma_event, appended, ha, MM_REG_WRITE, MM_REG_WRITE_MASK, MM_REG_WAIT, exec,
      exec_entry]

/-- The enable register of the writer and rotator after the commands of
`config_wrot_subfrm`. -/
theorem exec_config_wrot_subfrm_en (ctx : mdp_comp_ctx) (cmd : mmsys_cmdq_cmd) (index : Nat)
    (regs : reg_file) :
    exec regs (appended cmd (config_wrot_subfrm ctx cmd index).1)
        ctx.comp.reg_base mdp_reg.VIDO_ROT_EN
      = masked_write (regs ctx.comp.reg_base mdp_reg.VIDO_ROT_EN) 1 1 := by
  simp [config_wrot_subfrm, appended, MM_REG_WRITE, MM_REG_WRITE_MASK, exec, exec_entry]

/-- The enable register of the writer and rotator after the commands of
`wait_wrot_event`. -/
theorem exec_wait_wrot_event_en (ctx : mdp_comp_ctx) (cmd : mmsys_cmdq_cmd) (regs : reg_file) :
    exec regs (appended cmd (wait_wrot_event ctx cmd).1) ctx.comp.reg_base mdp_reg.VIDO_ROT_EN
      = masked_write (regs ctx.comp.reg_base mdp_reg.VIDO_ROT_EN) 0 1 := by
  by_cases ha : ctx.comp.alias_id = 0 <;>
    by_cases hf : cfg_has ctx.mdp_dev.mdp_cfg (fun c => c.wrot_filter_constraint) = true <;>
    simp [wait_wrot_event, appended, __get_plat_cfg, ha, hf, MM_REG_WRITE, MM_REG_WRITE_MASK,
      MM_REG_WAIT, exec, exec_entry]

/-- The enable register of the DMA writer after the commands of `config_wdma_subfrm`. -/
theorem exec_config_wdma_subfrm_en (ctx : mdp_comp_ctx) (cmd : mmsys_cmdq_cmd) (index : Nat)
    (regs : reg_file) :
    exec regs (appended cmd (config_wdma_subfrm ctx cmd index).1)
        ctx.comp.reg_base mdp_reg.WDMA_EN
      = masked_write (regs ctx.comp.reg_base mdp_reg.WDMA_EN) 1 1 := by
  simp [config_wdma_subfrm, appended, MM_REG_WRITE, MM_REG_WRITE_MASK, exec, exec_entry]

/-- The enable register of the DMA writer after the commands of `wait_wdma_event`. -/
theorem exec_wait_wdma_event_en (ctx : mdp_comp_ctx) (cmd : mmsys_cmdq_cmd) (regs : reg_file) :
    exec regs (appended cmd (wait_wdma_event ctx cmd).1) ctx.comp.reg_base mdp_reg.WDMA_EN
      = masked_write (regs ctx.comp.reg_base mdp_reg.WDMA_EN) 0 1 := by
  simp [wait_wdma_event, appended, MM_REG_WRITE, MM_REG_WRITE_MASK, MM_REG_WAIT, exec,
    exec_entry]

/-- C28: for the reader, the writer and rotator and the DMA writer, the enable write
appended by `config_subfrm` and the disable write appended by `wait_comp_event` address
the same register under the same mask 0x00000001, with values 1 and 0.  Under
masked-write semantics the commands of `config_subfrm` followed by the commands of
`wait_comp_event` leave the enable bit of the block clear, whatever the register held
before, and leave the other bits of the enable register unchanged. -/
theorem enable_then_disable (C : mdp_color_macros) (ctx : mdp_comp_ctx)
    (cmd cmd2 : mmsys_cmdq_cmd) (index : Nat) (regs : reg_file)
    (hreg : ∀ r, regs ctx.comp.reg_base r < 2 ^ 32) :
    (cmdq_entry.write ctx.comp.subsys_id ctx.comp.reg_base mdp_reg.MDP_RDMA_EN 1 0x00000001
        ∈ appended cmd (config_rdma_subfrm C ctx cmd index).1 ∧
      cmdq_entry.write ctx.comp.subsys_id ctx.comp.reg_base mdp_reg.MDP_RDMA_EN 0 0x00000001
        ∈ appended cmd2 (wait_rdma_event ctx cmd2).1 ∧
      (exec regs (appended cmd (config_rdma_subfrm C ctx cmd index).1 ++
          appended cmd2 (wait_rdma_event ctx cmd2).1)
        ctx.comp.reg_base mdp_reg.MDP_RDMA_EN).testBit 0 = false ∧
      ∀ j, j ≠ 0 →
        (exec regs (appended cmd (config_rdma_subfrm C ctx cmd index).1 ++
            appended cmd2 (wait_rdma_event ctx cmd2).1)
          ctx.comp.reg_base mdp_reg.MDP_RDMA_EN).testBit j
        = (regs ctx.comp.reg_base mdp_reg.MDP_RDMA_EN).testBit j) ∧
    (cmdq_entry.write ctx.comp.subsys_id ctx.comp.reg_base mdp_reg.VIDO_ROT_EN 1 0x00000001
        ∈ appended cmd (config_wrot_subfrm ctx cmd index).1 ∧
      cmdq_entry.write ctx.comp.subsys_id ctx.comp.reg_base mdp_reg.VIDO_ROT_EN 0 0x00000001
        ∈ appended cmd2 (wait_wrot_event ctx cmd2).1 ∧
      (exec regs (appended cmd (config_wrot_subfrm ctx cmd index).1 ++
          appended cmd2 (wait_wrot_event ctx cmd2).1)
        ctx.comp.reg_base mdp_reg.VIDO_ROT_EN).testBit 0 = false ∧
      ∀ j, j ≠ 0 →
        (exec regs (appended cmd (config_wrot_subfrm ctx cmd index).1 ++
            appended cmd2 (wait_wrot_event ctx cmd2).1)
          ctx.comp.reg_base mdp_reg.VIDO_ROT_EN).testBit j
        = (regs ctx.comp.reg_base mdp_reg.VIDO_ROT_EN).testBit j) ∧
    (cmdq_entry.write ctx.comp.subsys_id ctx.comp.reg_base mdp_reg.WDMA_EN 1 0x00000001
        ∈ appended cmd (config_wdma_subfrm ctx cmd index).1 ∧
      cmdq_entry.write ctx.comp.subsys_id ctx.comp.reg_base mdp_reg.WDMA_EN 0 0x00000001
        ∈ appended cmd2 (wait_wdma_event ctx cmd2).1 ∧
      (exec regs (appended cmd (config_wdma_subfrm ctx cmd index).1 ++
          appended cmd2 (wait_wdma_event ctx cmd2).1)
        ctx.comp.reg_base mdp_reg.WDMA_EN).testBit 0 = false ∧
      ∀ j, j ≠ 0 →
        (exec regs (appended cmd (config_wdma_subfrm ctx cmd index).1 ++
            appended cmd2 (wait_wdma_event ctx cmd2).1)
          ctx.comp.reg_base mdp_reg.WDMA_EN).testBit j
        = (regs ctx.comp.reg_base mdp_reg.WDMA_EN).testBit j) := by
  refine ⟨⟨?_, ?_, ?_⟩, ⟨?_, ?_, ?_⟩, ⟨?_, ?_, ?_⟩⟩
  · by_cases hc : cfg_has ctx.mdp_dev.mdp_cfg (fun c => c.rdma_upsample_repeat_only) = true <;>
      by_cases hw :
        (ctx.param.subfrms index).«in».right - (ctx.param.subfrms index).«in».left + 1
          > 320 <;>
      by_cases hp : cfg_has ctx.mdp_dev.mdp_cfg (fun c => c.rdma_support_10bit &&
        C.MDP_COLOR_IS_10BIT_PACKED ctx.input.buffer.format.colorformat &&
        C.MDP_COLOR_IS_UFP ctx.input.buffer.format.colorformat) = true <;>
      simp [config_rdma_subfrm, appended, __get_plat_cfg, hc, hw, hp, MM_REG_WRITE,
        MM_REG_WRITE_MASK]
  · by_cases ha : ctx.comp.alias_id = 0 <;>
      simp [wait_rdma_event, appended, ha, MM_REG_WRITE, MM_REG_WRITE_MASK, MM_REG_WAIT]
  · rw [exec_append, exec_wait_rdma_event_en, exec_config_rdma_subfrm_en]
    exact masked_write_enable_disable _ (hreg _)
  · simp [config_wrot_subfrm, appended, MM_REG_WRITE, MM_REG_WRITE_MASK]
  · by_cases ha : ctx.comp.alias_id = 0 <;>
      by_cases hf : cfg_has ctx.mdp_dev.mdp_cfg (fun c => c.wrot_filter_constraint) = true <;>
      simp [wait_wrot_event, appended, __get_plat_cfg, ha, hf, MM_REG_WRITE,
        MM_REG_WRITE_MASK, MM_REG_WAIT]
  · rw [exec_append, exec_wait_wrot_event_en, exec_config_wrot_subfrm_en]
    exact masked_write_enable_disable _ (hreg _)
  · simp [config_wdma_subfrm, appended, MM_REG_WRITE, MM_REG_WRITE_MASK]
  · simp [wait_wdma_event, appended, MM_REG_WRITE, MM_REG_WRITE_MASK, MM_REG_WAIT]
  · rw [exec_append, exec_wait_wdma_event_en, exec_config_wdma_subfrm_en]
    exact masked_write_enable_disable _ (hreg _)

/-- Witness of C28: the reader at register base 0x1000 with every register holding all
ones. -/
theorem enable_then_disable_witness :
    (exec (fun _ _ => 0xFFFFFFFF)
        (appended {} (config_rdma_subfrm example_color { comp := { reg_base := 0x1000 } }
            {} 0).1 ++
          appended {} (wait_rdma_event { comp := { reg_base := 0x1000 } } {}).1)
        0x1000 mdp_reg.MDP_RDMA_EN).testBit 0 = false :=
  (enable_then_disable example_color { comp := { reg_base := 0x1000 } } {} {} 0
    (fun _ _ => 0xFFFFFFFF) (fun _ => by norm_num)).1.2.2.1

/-! ## Lookup of a component identifier -/

/-- The loop returns the first matching position, counted from its start index. -/
theorem mdp_comp_get_id_loop_found (ty al : Nat) (l : List mdp_comp_match) (s k : Nat)
    (hm : l[k]? = some { type := ty, alias_id := al })
    (hfirst : ∀ j, j < k → l[j]? ≠ some { type := ty, alias_id := al }) :
    mdp_comp_get_id_loop ty al l s = ((s + k : Nat) : Int) := by
  induction l generalizing s k with
  | nil => simp at hm
  | cons m rest ih =>
    cases k with
    | zero =>
      simp at hm
      simp [mdp_comp_get_id_loop, hm]
    | succ k =>
      have h0 := hfirst 0 (by omega)
      have hne : ¬(m.type = ty ∧ m.alias_id = al) := by
        rintro ⟨h1, h2⟩
        apply h0
        cases m
        simp_all
      simp only [mdp_comp_get_id_loop, hne, if_false]
      rw [ih (s + 1) k (by simpa using hm)
        (fun j hj => by simpa using hfirst (j + 1) (by omega))]
      congr 1
      omega

/-- The loop returns `-ENODEV` when no entry matches. -/
theorem mdp_comp_get_id_loop_none (ty al : Nat) (l : List mdp_comp_match) (s : Nat)
    (hnone : ∀ j : Nat, l[j]? ≠ some ({ type := ty, alias_id := al } : mdp_comp_match)) :
    mdp_comp_get_id_loop ty al l s = -ENODEV := by
  induction l generalizing s with
  | nil => rfl
  | cons m rest ih =>
    have h0 := hnone 0
    have hne : ¬(m.type = ty ∧ m.alias_id = al) := by
      rintro ⟨h1, h2⟩
      apply h0
      cases m
      simp_all
    simp only [mdp_comp_get_id_loop, hne, if_false]
    exact ih (s + 1) (fun j => by simpa using hnone (j + 1))

/-- Storing designated entries keeps the length of the array. -/
theorem length_foldl_set (l : List (Nat × mdp_comp_match)) (tbl : List mdp_comp_match) :
    (l.foldl (fun t p => t.set p.1 p.2) tbl).length = tbl.length := by
  induction l generalizing tbl with
  | nil => rfl
  | cons p rest ih => simp [List.foldl_cons, ih]

/-- An index without a designated initializer keeps its entry. -/
theorem getElem?_foldl_set_of_not_mem (l : List (Nat × mdp_comp_match))
    (tbl : List mdp_comp_match) (i : Nat) (h : i ∉ l.map (fun p => p.1)) :
    (l.foldl (fun t p => t.set p.1 p.2) tbl)[i]? = tbl[i]? := by
  induction l generalizing tbl with
  | nil => rfl
  | cons p rest ih =>
    simp only [List.map_cons, List.mem_cons, not_or] at h
    rw [List.foldl_cons, ih _ h.2, List.getElem?_set]
    simp [Ne.symm h.1]

/-- An entry of the array is an entry of the zeroed array or a designated entry. -/
theorem getElem?_foldl_set_cases (l : List (Nat × mdp_comp_match))
    (tbl : List mdp_comp_match) (j : Nat) (m : mdp_comp_match)
    (h : (l.foldl (fun t p => t.set p.1 p.2) tbl)[j]? = some m) :
    tbl[j]? = some m ∨ ∃ p ∈ l, p.1 = j ∧ p.2 = m := by
  induction l generalizing tbl with
  | nil => exact Or.inl h
  | cons p rest ih =>
    rw [List.foldl_cons] at h
    rcases ih _ h with h1 | ⟨q, hq, hq1, hq2⟩
    · rw [List.getElem?_set] at h1
      by_cases hp : p.1 = j
      · rw [if_pos hp] at h1
        by_cases hlen : p.1 < tbl.length
        · rw [if_pos hlen] at h1
          exact Or.inr ⟨p, List.mem_cons_self _ _, hp, by simpa using h1⟩
        · rw [if_neg hlen] at h1
          simp at h1
      · rw [if_neg hp] at h1
        exact Or.inl h1
    · exact Or.inr ⟨q, List.mem_cons_of_mem _ hq, hq1, hq2⟩

/-- A designated entry is found at its index when the indices are pairwise distinct. -/
theorem getElem?_foldl_set_of_mem (l : List (Nat × mdp_comp_match))
    (tbl : List mdp_comp_match) (p : Nat × mdp_comp_match)
    (hnd : (l.map (fun p => p.1)).Nodup) (hp : p ∈ l) (hlen : p.1 < tbl.length) :
    (l.foldl (fun t p => t.set p.1 p.2) tbl)[p.1]? = some p.2 := by
  induction l generalizing tbl with
  | nil => simp at hp
  | cons q rest ih =>
    rw [List.map_cons, List.nodup_cons] at hnd
    rw [List.foldl_cons]
    rcases List.mem_cons.1 hp with hpq | hpr
    · subst hpq
      rw [getElem?_foldl_set_of_not_mem _ _ _ hnd.1, List.getElem?_set]
      simp [hlen]
    · exact ih _ hnd.2 hpr (by simpa using hlen)

/-- C30: `mdp_comp_get_id(type, alias_id)` returns the least index `i` in
`[0, MDP_MAX_COMP_COUNT)` whose entry of `mdp_comp_matches` equals `(type, alias_id)`, and
`-ENODEV` when there is none.  With pairwise distinct listed (type, alias) pairs, the
lookup of the own `(type, alias_id)` of every listed block identifier returns that
identifier. -/
theorem mdp_comp_get_id_spec (K : mdp_comp_ids) (T : mdp_comp_types) (ty al : Nat) :
    (mdp_comp_matches K T).length = K.MDP_MAX_COMP_COUNT ∧
    (∀ i, i < K.MDP_MAX_COMP_COUNT →
      (mdp_comp_matches K T)[i]? = some { type := ty, alias_id := al } →
      (∀ j, j < i → (mdp_comp_matches K T)[j]? ≠ some { type := ty, alias_id := al }) →
      mdp_comp_get_id K T ty al = (i : Int)) ∧
    ((∀ i, i < K.MDP_MAX_COMP_COUNT →
        (mdp_comp_matches K T)[i]? ≠ some { type := ty, alias_id := al }) →
      mdp_comp_get_id K T ty al = -ENODEV) ∧
    (matches_wf K T → ∀ p ∈ mdp_comp_matches_init K T,
      mdp_comp_get_id K T p.2.type p.2.alias_id = (p.1 : Int)) := by
  have hlen : (mdp_comp_matches K T).length = K.MDP_MAX_COMP_COUNT := by
    unfold mdp_comp_matches
    rw [length_foldl_set, List.length_replicate]
  refine ⟨hlen, ?_, ?_, ?_⟩
  · intro i _ hm hfirst
    have h := mdp_comp_get_id_loop_found ty al (mdp_comp_matches K T) 0 i hm hfirst
    rw [Nat.zero_add] at h
    exact h
  · intro hnone
    apply mdp_comp_get_id_loop_none
    intro j
    by_cases hj : j < K.MDP_MAX_COMP_COUNT
    · exact hnone j hj
    · rw [List.getElem?_eq_none (by omega)]
      simp
  · rintro ⟨hids, hpairs, hlt, hnz⟩ p hp
    have hat : (mdp_comp_matches K T)[p.1]? = some p.2 := by
      unfold mdp_comp_matches
      exact getElem?_foldl_set_of_mem _ _ p hids hp
        (by rw [List.length_replicate]; exact hlt p hp)
    have h := mdp_comp_get_id_loop_found p.2.type p.2.alias_id (mdp_comp_matches K T) 0 p.1
      hat ?_
    · rw [Nat.zero_add] at h
      exact h
    · intro j hj hm
      unfold mdp_comp_matches at hm
      rcases getElem?_foldl_set_cases _ _ j _ hm with h0 | ⟨q, hq, hq1, hq2⟩
      · have hz : p.2 = { type := 0, alias_id := 0 } := by
          by_cases hjl : j < K.MDP_MAX_COMP_COUNT
          · rw [List.getElem?_replicate, if_pos hjl] at h0
            exact (Option.some.inj h0).symm
          · rw [List.getElem?_replicate, if_neg hjl] at h0
            simp at h0
        exact hnz p hp hz
      · have hqp : q = p := List.inj_on_of_nodup_map hpairs hq hp hq2
        rw [hqp] at hq1
        omega

/-- Witness of C30: in the example enumerations the lookup of the second resizer, type
`MDP_COMP_TYPE_RSZ` with alias 1, returns `MDP_COMP_RSZ1`. -/
theorem mdp_comp_get_id_spec_witness :
    matches_wf example_ids example_types ∧
    mdp_comp_get_id example_ids example_types example_types.MDP_COMP_TYPE_RSZ 1
      = (example_ids.MDP_COMP_RSZ1 : Int) :=
  ⟨by decide,
   (mdp_comp_get_id_spec example_ids example_types 0 0).2.2.2 (by decide)
     (example_ids.MDP_COMP_RSZ1, { type := example_types.MDP_COMP_TYPE_RSZ, alias_id := 1 })
     (by decide)⟩

/-! ## Binding of a block context -/

/-- The loop of `mdp_comp_ctx_init` over the outputs: slot `j` below the bound is bound
to the output index of the parameter block, the other slots and fields stay. -/
theorem ctx_init_outputs_loop (param : img_compparam) (n : Nat) (c : mdp_comp_ctx_ptrs) :
    ((List.range n).foldl
        (fun c i =>
          { c with outputs := fun j => if j = i then some (param.outputs i) else c.outputs j })
        c)
      = { c with outputs := fun j => if j < n then some (param.outputs j) else c.outputs j } := by
  induction n with
  | zero => simp
  | succ n ih =>
    rw [List.range_succ, List.foldl_append, ih]
    simp only [List.foldl_cons, List.foldl_nil]
    congr 1
    funext j
    by_cases h1 : j = n
    · simp [h1]
    · by_cases h2 : j < n
      · have : j < n + 1 := by omega
        simp [h1, h2, this]
      · have : ¬ j < n + 1 := by omega
        simp [h1, h2, this]

/-- The result of `mdp_comp_ctx_init` for a valid identifier with a registered block. -/
theorem mdp_comp_ctx_init_ok (K : mdp_comp_ids) (mdp : mdp_dev) (ctx : mdp_comp_ctx_ptrs)
    (param : img_compparam) (frame : img_ipi_frameparam) (c : mdp_comp)
    (hl : ¬ param.type < 0) (hu : ¬ param.type ≥ (K.MDP_MAX_COMP_COUNT : Int))
    (hc : mdp.comp.getD param.type.toNat none = some c) :
    mdp_comp_ctx_init K mdp ctx param frame
      = ({ comp := some c, param := some param, input := some param.input,
           outputs := fun j =>
             if j < param.num_outputs then some (param.outputs j) else ctx.outputs j }, 0) := by
  unfold mdp_comp_ctx_init
  rw [if_neg (by rintro (h | h); exact hl h; exact hu h)]
  simp only [hc, ctx_init_outputs_loop]

/-- The return value of `mdp_comp_ctx_init` for an identifier out of range or without a
registered block. -/
theorem mdp_comp_ctx_init_fail (K : mdp_comp_ids) (mdp : mdp_dev) (ctx : mdp_comp_ctx_ptrs)
    (param : img_compparam) (frame : img_ipi_frameparam)
    (h : param.type < 0 ∨ param.type ≥ (K.MDP_MAX_COMP_COUNT : Int) ∨
      mdp.comp.getD param.type.toNat none = none) :
    (mdp_comp_ctx_init K mdp ctx param frame).2 = -EINVAL := by
  unfold mdp_comp_ctx_init
  by_cases ht : param.type < 0 ∨ param.type ≥ (K.MDP_MAX_COMP_COUNT : Int)
  · rw [if_pos ht]
  · rw [if_neg ht]
    have hc : mdp.comp.getD param.type.toNat none = none := by
      rcases h with h | h | h
      · exact absurd (Or.inl h) ht
      · exact absurd (Or.inr h) ht
      · exact h
    simp only [hc]

/-- C23: `mdp_comp_ctx_init` returns `-EINVAL` if and only if `param->type` is outside
`[0, MDP_MAX_COMP_COUNT)` or no block is registered at that identifier; otherwise it
returns success with `ctx->comp` bound to the registered block of identifier
`param->type`, `ctx->param` bound to `param`, `ctx->input` bound to
`frame->inputs[param->input]` and `ctx->outputs[i]` bound to
`frame->outputs[param->outputs[i]]` for every `i < param->num_outputs`. -/
theorem mdp_comp_ctx_init_spec (K : mdp_comp_ids) (mdp : mdp_dev) (ctx : mdp_comp_ctx_ptrs)
    (param : img_compparam) (frame : img_ipi_frameparam) :
    ((mdp_comp_ctx_init K mdp ctx param frame).2 = -EINVAL ↔
      (param.type < 0 ∨ param.type ≥ (K.MDP_MAX_COMP_COUNT : Int) ∨
        mdp.comp.getD param.type.toNat none = none)) ∧
    (¬(param.type < 0 ∨ param.type ≥ (K.MDP_MAX_COMP_COUNT : Int) ∨
        mdp.comp.getD param.type.toNat none = none) →
      (mdp_comp_ctx_init K mdp ctx param frame).2 = 0 ∧
      (∃ c, mdp.comp.getD param.type.toNat none = some c ∧
        (mdp_comp_ctx_init K mdp ctx param frame).1.comp = some c) ∧
      (mdp_comp_ctx_init K mdp ctx param frame).1.param = some param ∧
      (mdp_comp_ctx_init K mdp ctx param frame).1.input = some param.input ∧
      (∀ i, i < param.num_outputs →
        (mdp_comp_ctx_init K mdp ctx param frame).1.outputs i = some (param.outputs i)) ∧
      (∀ i, param.num_outputs ≤ i →
        (mdp_comp_ctx_init K mdp ctx param frame).1.outputs i = ctx.outputs i)) := by
  by_cases hbad : param.type < 0 ∨ param.type ≥ (K.MDP_MAX_COMP_COUNT : Int) ∨
      mdp.comp.getD param.type.toNat none = none
  · exact ⟨⟨fun _ => hbad, fun _ => mdp_comp_ctx_init_fail K mdp ctx param frame hbad⟩,
      fun h => absurd hbad h⟩
  · have hl : ¬ param.type < 0 := fun h => hbad (Or.inl h)
    have hu : ¬ param.type ≥ (K.MDP_MAX_COMP_COUNT : Int) := fun h => hbad (Or.inr (Or.inl h))
    have hn : mdp.comp.getD param.type.toNat none ≠ none := fun h => hbad (Or.inr (Or.inr h))
    obtain ⟨c, hc⟩ := Option.ne_none_iff_exists'.1 hn
    rw [mdp_comp_ctx_init_ok K mdp ctx param frame c hl hu hc]
    refine ⟨⟨fun h => ?_, fun h => absurd h hbad⟩, fun _ => ⟨rfl, ⟨c, hc, rfl⟩, rfl, rfl, ?_, ?_⟩⟩
    · simp [EINVAL] at h
    · intro i hi
      simp [hi]
    · intro i hi
      have : ¬ i < param.num_outputs := by omega
      simp [this]

/-- Witness of C23: the reader of the example enumeration, registered at index 11, with
two outputs. -/
theorem mdp_comp_ctx_init_spec_witness :
    (mdp_comp_ctx_init example_ids { comp := List.replicate 11 none ++ [some { id := 11 }] } {}
        { type := 11, input := 0, num_outputs := 2, outputs := fun i => 1 - i }
        { inputs := [{}], outputs := [{}, {}] }).2 = 0 ∧
    (mdp_comp_ctx_init example_ids { comp := List.replicate 11 none ++ [some { id := 11 }] } {}
        { type := 11, input := 0, num_outputs := 2, outputs := fun i => 1 - i }
        { inputs := [{}], outputs := [{}, {}] }).1.input = some 0 :=
  ⟨((mdp_comp_ctx_init_spec example_ids
        { comp := List.replicate 11 none ++ [some { id := 11 }] } {}
        { type := 11, input := 0, num_outputs := 2, outputs := fun i => 1 - i }
        { inputs := [{}], outputs := [{}, {}] }).2 (by decide)).1,
   ((mdp_comp_ctx_init_spec example_ids
        { comp := List.replicate 11 none ++ [some { id := 11 }] } {}
        { type := 11, input := 0, num_outputs := 2, outputs := fun i => 1 - i }
        { inputs := [{}], outputs := [{}, {}] }).2 (by decide)).2.2.2.1⟩

/-- C24, the code at a failing input: a frame with three inputs and four outputs, and a
parameter block of the registered reader with input index 200, 200 outputs and output
index 300.  `mdp_comp_ctx_init` returns 0, not `-EINVAL`; it binds `ctx->input` to
position 200 of the three inputs, stores into the slot `ctx->outputs[199]` and binds it to
position 300 of the four outputs. -/
theorem mdp_comp_ctx_init_unchecked_indices :
    (mdp_comp_ctx_init example_ids { comp := List.replicate 11 none ++ [some { id := 11 }] } {}
        { type := 11, input := 200, num_outputs := 200, outputs := fun _ => 300 }
        { inputs := [{}, {}, {}], outputs := [{}, {}, {}, {}] }).2 = 0 ∧
    (mdp_comp_ctx_init example_ids { comp := List.replicate 11 none ++ [some { id := 11 }] } {}
        { type := 11, input := 200, num_outputs := 200, outputs := fun _ => 300 }
        { inputs := [{}, {}, {}], outputs := [{}, {}, {}, {}] }).1.input = some 200 ∧
    (mdp_comp_ctx_init example_ids { comp := List.replicate 11 none ++ [some { id := 11 }] } {}
        { type := 11, input := 200, num_outputs := 200, outputs := fun _ => 300 }
        { inputs := [{}, {}, {}], outputs := [{}, {}, {}, {}] }).1.outputs 199 = some 300 ∧
    ([{}, {}, {}] : List img_input)[200]? = none ∧
    ([{}, {}, {}, {}] : List img_output)[300]? = none := by
  rw [mdp_comp_ctx_init_ok example_ids
    { comp := List.replicate 11 none ++ [some { id := 11 }] } {}
    { type := 11, input := 200, num_outputs := 200, outputs := fun _ => 300 }
    { inputs := [{}, {}, {}], outputs := [{}, {}, {}, {}] } { id := 11 }
    (by decide) (by decide) (by decide)]
  exact ⟨rfl, rfl, rfl, rfl, rfl⟩

/-! ## Pipeline driver -/

/-- The init phase holds no `config_subfrm` call. -/
theorem filterMap_init_all (b : Nat) (blocks : List Nat) :
    (pipeline_init_all blocks).filterMap (op_call.config_subfrm_index b) = [] := by
  induction blocks with
  | nil => rfl
  | cons x rest ih => simp [pipeline_init_all, op_call.config_subfrm_index, ih]

/-- Among the `config_subfrm` calls of one subframe a block of the job occurs once. -/
theorem filterMap_config_subfrm (b i : Nat) (blocks : List Nat) (hnd : blocks.Nodup) :
    (blocks.map (fun x => op_call.config_subfrm x i)).filterMap
        (op_call.config_subfrm_index b)
      = if b ∈ blocks then [i] else [] := by
  induction blocks with
  | nil => rfl
  | cons x rest ih =>
    rw [List.nodup_cons] at hnd
    by_cases hx : x = b
    · subst hx
      simp [op_call.config_subfrm_index, ih hnd.2, hnd.1]
    · have hx2 : ¬ b = x := fun h => hx h.symm
      simp [op_call.config_subfrm_index, ih hnd.2, hx, hx2]

/-- The waits of a subframe hold no `config_subfrm` call. -/
theorem filterMap_wait (b i : Nat) (l : List Nat) :
    (l.map (fun x => op_call.wait_comp_event x i)).filterMap
        (op_call.config_subfrm_index b) = [] := by
  induction l with
  | nil => rfl
  | cons x rest ih => simp [op_call.config_subfrm_index]

/-- The advances of a subframe hold no `config_subfrm` call. -/
theorem filterMap_advance (b i : Nat) (l : List Nat) :
    (l.map (fun x => op_call.advance_subfrm x i)).filterMap
        (op_call.config_subfrm_index b) = [] := by
  induction l with
  | nil => rfl
  | cons x rest ih => simp [op_call.config_subfrm_index]

/-- The post-processing phase holds no `config_subfrm` call. -/
theorem filterMap_post_process (b : Nat) (l : List Nat) :
    (l.map op_call.post_process).filterMap (op_call.config_subfrm_index b) = [] := by
  induction l with
  | nil => rfl
  | cons x rest ih => simp [op_call.config_subfrm_index]

/-- The `config_subfrm` calls of a block within one subframe. -/
theorem filterMap_subframe (b n i : Nat) (blocks : List Nat) (has_wait : Nat → Bool)
    (hnd : blocks.Nodup) (hb : b ∈ blocks) :
    (pipeline_subframe blocks has_wait n i).filterMap (op_call.config_subfrm_index b)
      = [i] := by
  unfold pipeline_subframe
  rw [List.filterMap_append, List.filterMap_append, filterMap_config_subfrm b i blocks hnd,
    filterMap_wait, if_pos hb]
  split_ifs
  · rw [filterMap_advance]; rfl
  · rfl

/-- C25: given a job with 3 subframes, the Pipeline Driver performs exactly 3
`config_subfrm` calls per block, in strictly increasing subframe index order, and each
`config_subfrm` call for subframe `i + 1` is preceded by the `wait_comp_event` of
subframe `i` of every block that defines `wait_comp_event`. -/
theorem pipeline_three_subframes (blocks : List Nat) (has_wait : Nat → Bool) (b : Nat)
    (hnd : blocks.Nodup) (hb : b ∈ blocks) :
    (pipeline_calls blocks has_wait 3).filterMap (op_call.config_subfrm_index b)
      = [0, 1, 2] ∧
    (∀ i w, i + 1 < 3 → w ∈ blocks → has_wait w = true →
      ∃ pre post,
        pipeline_calls blocks has_wait 3
          = pre ++ [op_call.config_subfrm b (i + 1)] ++ post ∧
        op_call.wait_comp_event w i ∈ pre) := by
  constructor
  · simp only [pipeline_calls, pipeline_subframes, List.filterMap_append, filterMap_init_all,
      filterMap_post_process, filterMap_subframe b 3 _ blocks has_wait hnd hb,
      List.nil_append, List.append_nil, List.singleton_append]
    rfl
  · intro i w hi hw hhw
    have hwf : w ∈ blocks.filter has_wait := List.mem_filter.2 ⟨hw, hhw⟩
    have hcfg : op_call.config_subfrm b (i + 1)
        ∈ blocks.map (fun x => op_call.config_subfrm x (i + 1)) :=
      List.mem_map.2 ⟨b, hb, rfl⟩
    obtain ⟨l1, l2, hsplit⟩ := List.append_of_mem hcfg
    have hwait : ∀ k, op_call.wait_comp_event w k ∈ pipeline_subframe blocks has_wait 3 k := by
      intro k
      unfold pipeline_subframe
      exact List.mem_append_left _
        (List.mem_append_right _ (List.mem_map.2 ⟨w, hwf, rfl⟩))
    have hi2 : i = 0 ∨ i = 1 := by omega
    rcases hi2 with hi0 | hi1
    · subst hi0
      refine ⟨pipeline_init_all blocks ++ pipeline_subframe blocks has_wait 3 0 ++ l1,
        l2 ++ (blocks.filter has_wait).map (fun x => op_call.wait_comp_event x 1) ++
          (if 1 + 1 < 3 then blocks.map (fun x => op_call.advance_subfrm x 1) else []) ++
          pipeline_subframe blocks has_wait 3 2 ++ blocks.map op_call.post_process, ?_, ?_⟩
      · simp only [pipeline_calls, pipeline_subframes, List.nil_append]
        rw [show pipeline_subframe blocks has_wait 3 1
            = blocks.map (fun x => op_call.config_subfrm x (0 + 1)) ++
              (blocks.filter has_wait).map (fun x => op_call.wait_comp_event x 1) ++
              (if 1 + 1 < 3 then blocks.map (fun x => op_call.advance_subfrm x 1) else [])
            from rfl, hsplit]
        simp only [List.append_assoc, List.cons_append, List.nil_append]
      · exact List.mem_append_left _ (List.mem_append_right _ (hwait 0))
    · subst hi1
      refine ⟨pipeline_init_all blocks ++ pipeline_subframe blocks has_wait 3 0 ++
          pipeline_subframe blocks has_wait 3 1 ++ l1,
        l2 ++ (blocks.filter has_wait).map (fun x => op_call.wait_comp_event x 2) ++
          (if 2 + 1 < 3 then blocks.map (fun x => op_call.advance_subfrm x 2) else []) ++
          blocks.map op_call.post_process, ?_, ?_⟩
      · simp only [pipeline_calls, pipeline_subframes, List.nil_append]
        rw [show pipeline_subframe blocks has_wait 3 2
            = blocks.map (fun x => op_call.config_subfrm x (1 + 1)) ++
              (blocks.filter has_wait).map (fun x => op_call.wait_comp_event x 2) ++
              (if 2 + 1 < 3 then blocks.map (fun x => op_call.advance_subfrm x 2) else [])
            from rfl, hsplit]
        simp only [List.append_assoc, List.cons_append, List.nil_append]
      · exact List.mem_append_left _ (List.mem_append_right _ (hwait 1))

/-- Witness of C25: a reader, a scaler and a writer, of which the reader and the writer
define `wait_comp_event`. -/
theorem pipeline_three_subframes_witness :
    (pipeline_calls [11, 14, 20] (fun b => decide (b ≠ 14)) 3).filterMap
        (op_call.config_subfrm_index 14) = [0, 1, 2] ∧
    ∃ pre post,
      pipeline_calls [11, 14, 20] (fun b => decide (b ≠ 14)) 3
        = pre ++ [op_call.config_subfrm 14 (0 + 1)] ++ post ∧
      op_call.wait_comp_event 20 0 ∈ pre :=
  ⟨(pipeline_three_subframes [11, 14, 20] (fun b => decide (b ≠ 14)) 14 (by decide)
      (by decide)).1,
   (pipeline_three_subframes [11, 14, 20] (fun b => decide (b ≠ 14)) 14 (by decide)
      (by decide)).2 0 20 (by decide) (by decide) (by decide)⟩

/-! ## Stray bits of the constant entries -/

/-- The constant entries of the reader have no stray bits. -/
theorem no_stray_bits_rdma (K : mdp_comp_ids) (C : mdp_color_macros) (ctx : mdp_comp_ctx)
    (cmd : mmsys_cmdq_cmd) (compose : v4l2_rect) (index : Nat) :
    constants_have_no_stray_bits (rdma_values ctx index) cmd (init_rdma K ctx cmd).1 ∧
    constants_have_no_stray_bits (rdma_values ctx index) cmd
      (config_rdma_frame C ctx cmd compose).1 ∧
    constants_have_no_stray_bits (rdma_values ctx index) cmd
      (config_rdma_subfrm C ctx cmd index).1 ∧
    constants_have_no_stray_bits (rdma_values ctx index) cmd (wait_rdma_event ctx cmd).1 := by
  refine ⟨?_, ?_, ?_, ?_⟩
  · rw [init_rdma_appended]
    refine ⟨_, rfl, ?_⟩
    by_cases hc : cfg_has ctx.mdp_dev.mdp_cfg (fun c => c.rdma_support_10bit) = true <;>
      by_cases hi : ctx.comp.id = K.MDP_COMP_RDMA0 <;>
      cases hp : ctx.mdp_dev.comp.getD K.MDP_COMP_RSZ1 none <;>
      simp +decide [hc, hi, cmdq_entry.no_stray_bits]
  · rw [config_rdma_frame_appended]
    refine ⟨_, rfl, ?_⟩
    cases h10 : cfg_has ctx.mdp_dev.mdp_cfg (fun c => c.rdma_support_10bit) <;>
      cases hb : C.MDP_COLOR_IS_10BIT_PACKED ctx.input.buffer.format.colorformat <;>
      cases hu : C.MDP_COLOR_IS_UFP ctx.input.buffer.format.colorformat <;>
      simp +decide [cmdq_entry.no_stray_bits, cmdq_entry.carries, rdma_values]
  · by_cases hc : cfg_has ctx.mdp_dev.mdp_cfg (fun c => c.rdma_upsample_repeat_only) = true <;>
      by_cases hw :
        (ctx.param.subfrms index).«in».right - (ctx.param.subfrms index).«in».left + 1
          > 320 <;>
      by_cases hp : cfg_has ctx.mdp_dev.mdp_cfg (fun c => c.rdma_support_10bit &&
        C.MDP_COLOR_IS_10BIT_PACKED ctx.input.buffer.format.colorformat &&
        C.MDP_COLOR_IS_UFP ctx.input.buffer.format.colorformat) = true <;>
      simp +decide [constants_have_no_stray_bits, config_rdma_subfrm, __get_plat_cfg, hc, hw,
        hp, MM_REG_WRITE, MM_REG_WRITE_MASK, cmdq_entry.no_stray_bits, cmdq_entry.carries,
        rdma_values]
  · by_cases ha : ctx.comp.alias_id = 0 <;>
      simp +decide [constants_have_no_stray_bits, wait_rdma_event, ha, MM_REG_WRITE,
        MM_REG_WRITE_MASK, MM_REG_WAIT, cmdq_entry.no_stray_bits]

/-- The constant entries of the scaler have no stray bits. -/
theorem no_stray_bits_rsz (ctx : mdp_comp_ctx) (cmd : mmsys_cmdq_cmd) (compose : v4l2_rect)
    (index : Nat) :
    constants_have_no_stray_bits (rsz_values ctx index) cmd (init_rsz ctx cmd).1 ∧
    constants_have_no_stray_bits (rsz_values ctx index) cmd
      (config_rsz_frame ctx cmd compose).1 ∧
    constants_have_no_stray_bits (rsz_values ctx index) cmd
      (config_rsz_subfrm ctx cmd index).1 ∧
    constants_have_no_stray_bits (rsz_values ctx index) cmd
      (advance_rsz_subfrm ctx cmd index).1 := by
  refine ⟨?_, ?_, ?_, ?_⟩
  · simp +decide [constants_have_no_stray_bits, init_rsz, MM_REG_WRITE, MM_REG_WRITE_MASK,
      cmdq_entry.no_stray_bits]
  · cases hb : ctx.param.frame.bypass <;>
      simp +decide [constants_have_no_stray_bits, config_rsz_frame, hb, MM_REG_WRITE,
        MM_REG_WRITE_MASK, cmdq_entry.no_stray_bits, cmdq_entry.carries, rsz_values]
  · rw [config_rsz_subfrm_appended]
    refine ⟨_, rfl, ?_⟩
    split_ifs <;>
      simp +decide [cmdq_entry.no_stray_bits, cmdq_entry.carries, rsz_values]
  · by_cases hc :
        cfg_has ctx.mdp_dev.mdp_cfg (fun c => c.rsz_disable_dcm_small_sample) = true <;>
      by_cases hw :
        (ctx.param.subfrms index).«in».right - (ctx.param.subfrms index).«in».left + 1
          ≤ 16 <;>
      simp +decide [constants_have_no_stray_bits, advance_rsz_subfrm, __get_plat_cfg, hc, hw,
        MM_REG_WRITE, MM_REG_WRITE_MASK, cmdq_entry.no_stray_bits]

/-- The constant entries of the writer and rotator have no stray bits. -/
theorem no_stray_bits_wrot (ctx : mdp_comp_ctx) (cmd : mmsys_cmdq_cmd) (compose : v4l2_rect)
    (index : Nat) :
    constants_have_no_stray_bits (wrot_values ctx index) cmd (init_wrot ctx cmd).1 ∧
    constants_have_no_stray_bits (wrot_values ctx index) cmd
      (config_wrot_frame ctx cmd compose).1 ∧
    constants_have_no_stray_bits (wrot_values ctx index) cmd
      (config_wrot_subfrm ctx cmd index).1 ∧
    constants_have_no_stray_bits (wrot_values ctx index) cmd (wait_wrot_event ctx cmd).1 := by
  have hm : (match ctx.mdp_dev.mdp_cfg with
      | none => false
      | some cfg => cfg.wrot_filter_constraint)
      = cfg_has ctx.mdp_dev.mdp_cfg (fun c => c.wrot_filter_constraint) := rfl
  refine ⟨?_, ?_, ?_, ?_⟩
  · simp +decide [constants_have_no_stray_bits, init_wrot, MM_REG_WRITE, MM_REG_WRITE_MASK,
      MM_REG_POLL, cmdq_entry.no_stray_bits]
  · by_cases hf : ctx.param.wrot.fifo_test = 0 <;>
      cases hc : cfg_has ctx.mdp_dev.mdp_cfg (fun c => c.wrot_filter_constraint) <;>
      simp +decide [constants_have_no_stray_bits, config_wrot_frame, __get_plat_cfg, hm, hf,
        hc, MM_REG_WRITE, MM_REG_WRITE_MASK, cmdq_entry.no_stray_bits, cmdq_entry.carries,
        wrot_values]
  · simp +decide [constants_have_no_stray_bits, config_wrot_subfrm, MM_REG_WRITE,
      MM_REG_WRITE_MASK, cmdq_entry.no_stray_bits, cmdq_entry.carries, wrot_values]
  · by_cases ha : ctx.comp.alias_id = 0 <;>
      by_cases hf : cfg_has ctx.mdp_dev.mdp_cfg (fun c => c.wrot_filter_constraint) = true <;>
      simp +decide [constants_have_no_stray_bits, wait_wrot_event, __get_plat_cfg, ha, hf,
        MM_REG_WRITE, MM_REG_WRITE_MASK, MM_REG_WAIT, cmdq_entry.no_stray_bits]

/-- The constant entries of the DMA writer and of the color corrector have no stray
bits. -/
theorem no_stray_bits_wdma_ccorr (ctx : mdp_comp_ctx) (cmd : mmsys_cmdq_cmd)
    (compose : v4l2_rect) (index : Nat) :
    constants_have_no_stray_bits (wdma_values ctx index) cmd (init_wdma ctx cmd).1 ∧
    constants_have_no_stray_bits (wdma_values ctx index) cmd
      (config_wdma_frame ctx cmd compose).1 ∧
    constants_have_no_stray_bits (wdma_values ctx index) cmd
      (config_wdma_subfrm ctx cmd index).1 ∧
    constants_have_no_stray_bits (wdma_values ctx index) cmd (wait_wdma_event ctx cmd).1 ∧
    constants_have_no_stray_bits [] cmd (init_ccorr ctx cmd).1 ∧
    constants_have_no_stray_bits [] cmd (config_ccorr_frame ctx cmd compose).1 := by
  refine ⟨?_, ?_, ?_, ?_, ?_, ?_⟩
  · simp +decide [constants_have_no_stray_bits, init_wdma, MM_REG_WRITE, MM_REG_WRITE_MASK,
      MM_REG_POLL, cmdq_entry.no_stray_bits]
  · simp +decide [constants_have_no_stray_bits, config_wdma_frame, MM_REG_WRITE,
      MM_REG_WRITE_MASK, cmdq_entry.no_stray_bits, cmdq_entry.carries, wdma_values]
  · simp +decide [constants_have_no_stray_bits, config_wdma_subfrm, MM_REG_WRITE,
      MM_REG_WRITE_MASK, cmdq_entry.no_stray_bits, cmdq_entry.carries, wdma_values]
  · simp +decide [constants_have_no_stray_bits, wait_wdma_event, MM_REG_WRITE,
      MM_REG_WRITE_MASK, MM_REG_WAIT, cmdq_entry.no_stray_bits]
  · simp +decide [constants_have_no_stray_bits, init_ccorr, MM_REG_WRITE, MM_REG_WRITE_MASK,
      cmdq_entry.no_stray_bits]
  · simp [constants_have_no_stray_bits, config_ccorr_frame]

/-- The direct-link select writes have no stray bits. -/
theorem dl_sel_writes_no_stray (K : mdp_comp_ids) (ctx : mdp_comp_ctx) :
    ∀ e ∈ dl_sel_writes K ctx, e.no_stray_bits = true := by
  intro e he
  unfold dl_sel_writes at he
  rw [List.mem_append] at he
  rcases he with he | he <;> split_ifs at he <;> simp at he <;>
    simp +decide [he, cmdq_entry.no_stray_bits]

/-- The enable pattern of a completion-queue thread lies inside its mask. -/
theorem isp_enable_no_stray (sub base k : Nat) (hk : k < 12) :
    (cmdq_entry.write sub base (mdp_reg.ofs 0x2000) (1 <<< k) (1 <<< k)).no_stray_bits
      = true := by
  interval_cases k <;> simp +decide [cmdq_entry.no_stray_bits]

/-- The constant entries of the ISP hand-off have no stray bits. -/
theorem no_stray_bits_isp (K : mdp_comp_ids) (ctx : mdp_comp_ctx) (cmd : mmsys_cmdq_cmd)
    (compose : v4l2_rect) (index : Nat) :
    constants_have_no_stray_bits (isp_values ctx index) cmd
      (config_isp_frame ctx cmd compose).1 ∧
    constants_have_no_stray_bits (isp_values ctx index) cmd
      (config_isp_subfrm ctx cmd index).1 ∧
    constants_have_no_stray_bits (isp_values ctx index) cmd (wait_isp_event K ctx cmd).1 := by
  refine ⟨?_, ?_, ?_⟩
  · by_cases hq : ctx.param.isp.cq_idx < 12
    · rw [config_isp_frame_accept ctx cmd compose hq]
      refine ⟨_, List.append_assoc _ _ _, ?_⟩
      simp [smx_writes, cmdq_entry.carries, isp_values]
    · rw [config_isp_frame_reject ctx cmd compose (by omega)]
      refine ⟨_, rfl, ?_⟩
      simp [smx_writes, cmdq_entry.carries, isp_values]
  · simp [constants_have_no_stray_bits, config_isp_subfrm, MM_REG_WRITE_MASK,
      cmdq_entry.carries, isp_values]
  · by_cases hq : ctx.param.isp.cq_idx < 12
    · obtain ⟨ev, -, hw⟩ := wait_isp_event_accept K ctx cmd hq
      rw [hw]
      refine ⟨_, List.append_assoc _ _ _, ?_⟩
      intro e he
      rw [List.mem_append] at he
      rcases he with he | he
      · exact Or.inl (dl_sel_writes_no_stray K ctx e he)
      · simp only [List.mem_cons, List.mem_singleton, List.not_mem_nil, or_false] at he
        rcases he with he | he
        · rw [he]
          exact Or.inl (isp_enable_no_stray _ _ _ hq)
        · rw [he]
          exact Or.inl rfl
    · rw [wait_isp_event_reject K ctx cmd (by omega)]
      exact ⟨_, rfl, fun e he => Or.inl (dl_sel_writes_no_stray K ctx e he)⟩

/-- C29: every write or poll entry that a block operation emits with a compile-time
constant value has no stray bits, value AND NOT mask = 0: each entry appended by an
operation of the reader, the scaler, the writer and rotator, the DMA writer, the color
corrector or the ISP hand-off either carries a value of the job or has no bit outside of
its mask (reset, enable and disable, relay, alpha, end-of-line, the GMCIF control
0x00010071 under mask 0x00030071, the 10-bit and upsample dummy bits, the DCM bit 27, the
ISP enable bits and the direct-link selects). -/
theorem constant_entries_no_stray_bits (K : mdp_comp_ids) (C : mdp_color_macros)
    (ctx : mdp_comp_ctx) (cmd : mmsys_cmdq_cmd) (compose : v4l2_rect) (index : Nat) :
    constants_have_no_stray_bits (rdma_values ctx index) cmd (init_rdma K ctx cmd).1 ∧
    constants_have_no_stray_bits (rdma_values ctx index) cmd
      (config_rdma_frame C ctx cmd compose).1 ∧
    constants_have_no_stray_bits (rdma_values ctx index) cmd
      (config_rdma_subfrm C ctx cmd index).1 ∧
    constants_have_no_stray_bits (rdma_values ctx index) cmd (wait_rdma_event ctx cmd).1 ∧
    constants_have_no_stray_bits (rsz_values ctx index) cmd (init_rsz ctx cmd).1 ∧
    constants_have_no_stray_bits (rsz_values ctx index) cmd
      (config_rsz_frame ctx cmd compose).1 ∧
    constants_have_no_stray_bits (rsz_values ctx index) cmd
      (config_rsz_subfrm ctx cmd index).1 ∧
    constants_have_no_stray_bits (rsz_values ctx index) cmd
      (advance_rsz_subfrm ctx cmd index).1 ∧
    constants_have_no_stray_bits (wrot_values ctx index) cmd (init_wrot ctx cmd).1 ∧
    constants_have_no_stray_bits (wrot_values ctx index) cmd
      (config_wrot_frame ctx cmd compose).1 ∧
    constants_have_no_stray_bits (wrot_values ctx index) cmd
      (config_wrot_subfrm ctx cmd index).1 ∧
    constants_have_no_stray_bits (wrot_values ctx index) cmd (wait_wrot_event ctx cmd).1 ∧
    constants_have_no_stray_bits (wdma_values ctx index) cmd (init_wdma ctx cmd).1 ∧
    constants_have_no_stray_bits (wdma_values ctx index) cmd
      (config_wdma_frame ctx cmd compose).1 ∧
    constants_have_no_stray_bits (wdma_values ctx index) cmd
      (config_wdma_subfrm ctx cmd index).1 ∧
    constants_have_no_stray_bits (wdma_values ctx index) cmd (wait_wdma_event ctx cmd).1 ∧
    constants_have_no_stray_bits [] cmd (init_ccorr ctx cmd).1 ∧
    constants_have_no_stray_bits [] cmd (config_ccorr_frame ctx cmd compose).1 ∧
    constants_have_no_stray_bits (isp_values ctx index) cmd
      (config_isp_frame ctx cmd compose).1 ∧
    constants_have_no_stray_bits (isp_values ctx index) cmd
      (config_isp_subfrm ctx cmd index).1 ∧
    constants_have_no_stray_bits (isp_values ctx index) cmd (wait_isp_event K ctx cmd).1 := by
  obtain ⟨a1, a2, a3, a4⟩ := no_stray_bits_rdma K C ctx cmd compose index
  obtain ⟨b1, b2, b3, b4⟩ := no_stray_bits_rsz ctx cmd compose index
  obtain ⟨c1, c2, c3, c4⟩ := no_stray_bits_wrot ctx cmd compose index
  obtain ⟨d1, d2, d3, d4, d5, d6⟩ := no_stray_bits_wdma_ccorr ctx cmd compose index
  obtain ⟨e1, e2, e3⟩ := no_stray_bits_isp K ctx cmd compose index
  exact ⟨a1, a2, a3, a4, b1, b2, b3, b4, c1, c2, c3, c4, d1, d2, d3, d4, d5, d6, e1, e2, e3⟩

/-! ## Filter bits and main-buffer bits of `VIDO_MAIN_BUF_SIZE` -/

/-- No bit belongs to both the filter mask and the main-buffer mask. -/
theorem wrot_masks_no_common_bit (j : Nat) :
    (Nat.testBit 0x00000077 j && Nat.testBit 0x1FFF7F00 j) = false := by
  by_cases h : j < 7
  · interval_cases j <;> decide
  · have hlt : (0x00000077 : Nat) < 2 ^ j :=
      lt_of_lt_of_le (by norm_num) (Nat.pow_le_pow_right (by norm_num) (not_lt.mp h))
    simp [Nat.testBit_lt_two_pow hlt]

/-- The bits of the filter mask lie below bit 7. -/
theorem wrot_filter_bit_lt (j : Nat) (h : Nat.testBit 0x00000077 j = true) : j < 7 := by
  by_contra hj
  have hlt : (0x00000077 : Nat) < 2 ^ j :=
    lt_of_lt_of_le (by norm_num) (Nat.pow_le_pow_right (by norm_num) (not_lt.mp hj))
  rw [Nat.testBit_lt_two_pow hlt] at h
  exact Bool.noConfusion h

/-- A masked write under the main-buffer mask leaves the filter bits as they were. -/
theorem masked_write_main_buf_keeps_filter (old value : Nat) :
    masked_write old value 0x1FFF7F00 &&& 0x00000077 = old &&& 0x00000077 := by
  apply Nat.eq_of_testBit_eq
  intro j
  rw [Nat.testBit_and, Nat.testBit_and, masked_write_testBit]
  cases hb : Nat.testBit 0x00000077 j
  · simp
  · have hj := wrot_filter_bit_lt j hb
    have h32 : j < 32 := by omega
    have hm : Nat.testBit 0x1FFF7F00 j = false := by
      have := wrot_masks_no_common_bit j
      rw [hb] at this
      simpa using this
    simp [h32, hm]

/-- A masked write under the filter mask sets the filter bits to those of the value. -/
theorem masked_write_filter_sets (old value : Nat) :
    masked_write old value 0x00000077 &&& 0x00000077 = value &&& 0x00000077 := by
  apply Nat.eq_of_testBit_eq
  intro j
  rw [Nat.testBit_and, Nat.testBit_and, masked_write_testBit]
  cases hb : Nat.testBit 0x00000077 j
  · simp
  · have hj := wrot_filter_bit_lt j hb
    have h32 : j < 32 := by omega
    simp [h32, hb]

/-- The register `VIDO_MAIN_BUF_SIZE` after the commands of `config_wrot_subfrm`. -/
theorem exec_config_wrot_subfrm_main_buf (ctx : mdp_comp_ctx) (cmd : mmsys_cmdq_cmd)
    (index : Nat) (regs : reg_file) :
    exec regs (appended cmd (config_wrot_subfrm ctx cmd index).1)
        ctx.comp.reg_base mdp_reg.VIDO_MAIN_BUF_SIZE
      = masked_write (regs ctx.comp.reg_base mdp_reg.VIDO_MAIN_BUF_SIZE)
          (ctx.param.wrot.subfrms index).main_buf 0x1FFF7F00 := by
  simp [config_wrot_subfrm, appended, MM_REG_WRITE, MM_REG_WRITE_MASK, exec, exec_entry]

/-- The register `VIDO_MAIN_BUF_SIZE` after the commands of `wait_wrot_event` on a
platform with the filter constraint. -/
theorem exec_wait_wrot_event_main_buf (ctx : mdp_comp_ctx) (cmd : mmsys_cmdq_cmd)
    (regs : reg_file)
    (hf : cfg_has ctx.mdp_dev.mdp_cfg (fun c => c.wrot_filter_constraint) = true) :
    exec regs (appended cmd (wait_wrot_event ctx cmd).1)
        ctx.comp.reg_base mdp_reg.VIDO_MAIN_BUF_SIZE
      = masked_write (regs ctx.comp.reg_base mdp_reg.VIDO_MAIN_BUF_SIZE) 0 0x00000077 := by
  by_cases ha : ctx.comp.alias_id = 0 <;>
    simp [wait_wrot_event, appended, __get_plat_cfg, ha, hf, MM_REG_WRITE, MM_REG_WRITE_MASK,
      MM_REG_WAIT, exec, exec_entry]

/-- The register `VIDO_MAIN_BUF_SIZE` after the commands of `config_wrot_frame` on a
platform with the filter constraint. -/
theorem exec_config_wrot_frame_main_buf (ctx : mdp_comp_ctx) (cmd : mmsys_cmdq_cmd)
    (compose : v4l2_rect) (regs : reg_file)
    (hf : cfg_has ctx.mdp_dev.mdp_cfg (fun c => c.wrot_filter_constraint) = true) :
    exec regs (appended cmd (config_wrot_frame ctx cmd compose).1)
        ctx.comp.reg_base mdp_reg.VIDO_MAIN_BUF_SIZE
      = masked_write (regs ctx.comp.reg_base mdp_reg.VIDO_MAIN_BUF_SIZE)
          ctx.param.wrot.filter 0x00000077 := by
  have hf2 : (match ctx.mdp_dev.mdp_cfg with
      | none => false
      | some cfg => cfg.wrot_filter_constraint) = true := hf
  by_cases ht : ctx.param.wrot.fifo_test = 0 <;>
    simp [config_wrot_frame, appended, __get_plat_cfg, ht, hf2, MM_REG_WRITE,
      MM_REG_WRITE_MASK, exec, exec_entry]

/-- The packet after `config_wrot_subfrm` is the packet before it followed by the
appended entries. -/
theorem config_wrot_subfrm_pkt (ctx : mdp_comp_ctx) (cmd : mmsys_cmdq_cmd) (index : Nat) :
    (config_wrot_subfrm ctx cmd index).1.pkt
      = cmd.pkt ++ appended cmd (config_wrot_subfrm ctx cmd index).1 := by
  simp [config_wrot_subfrm, appended, MM_REG_WRITE, MM_REG_WRITE_MASK]

/-- The packet after `wait_wrot_event` is the packet before it followed by the appended
entries. -/
theorem wait_wrot_event_pkt (ctx : mdp_comp_ctx) (cmd : mmsys_cmdq_cmd) :
    (wait_wrot_event ctx cmd).1.pkt = cmd.pkt ++ appended cmd (wait_wrot_event ctx cmd).1 := by
  by_cases ha : ctx.comp.alias_id = 0 <;>
    by_cases hf : cfg_has ctx.mdp_dev.mdp_cfg (fun c => c.wrot_filter_constraint) = true <;>
    simp [wait_wrot_event, appended, __get_plat_cfg, ha, hf, MM_REG_WRITE, MM_REG_WRITE_MASK,
      MM_REG_WAIT]

/-- The commands of `wait_wrot_event` keep cleared filter bits cleared, on every
platform. -/
theorem exec_wait_wrot_event_keeps_clear (ctx : mdp_comp_ctx) (cmd : mmsys_cmdq_cmd)
    (regs : reg_file)
    (h : regs ctx.comp.reg_base mdp_reg.VIDO_MAIN_BUF_SIZE &&& 0x00000077 = 0) :
    exec regs (appended cmd (wait_wrot_event ctx cmd).1)
        ctx.comp.reg_base mdp_reg.VIDO_MAIN_BUF_SIZE &&& 0x00000077 = 0 := by
  by_cases hf : cfg_has ctx.mdp_dev.mdp_cfg (fun c => c.wrot_filter_constraint) = true
  · rw [exec_wait_wrot_event_main_buf ctx cmd regs hf, masked_write_filter_sets]
    simp
  · have he : exec regs (appended cmd (wait_wrot_event ctx cmd).1)
        ctx.comp.reg_base mdp_reg.VIDO_MAIN_BUF_SIZE
          = regs ctx.comp.reg_base mdp_reg.VIDO_MAIN_BUF_SIZE := by
      by_cases ha : ctx.comp.alias_id = 0 <;>
        simp [wait_wrot_event, appended, __get_plat_cfg, ha, hf, MM_REG_WRITE,
          MM_REG_WRITE_MASK, MM_REG_WAIT, exec, exec_entry]
    rw [he]
    exact h

/-- One later call of the writer and rotator appends entries that keep cleared filter
bits cleared. -/
theorem apply_wrot_call_keeps_clear (ctx : mdp_comp_ctx) (cmd : mmsys_cmdq_cmd)
    (c : wrot_call) :
    ∃ l, (apply_wrot_call ctx cmd c).pkt = cmd.pkt ++ l ∧
      ∀ regs : reg_file,
        regs ctx.comp.reg_base mdp_reg.VIDO_MAIN_BUF_SIZE &&& 0x00000077 = 0 →
        exec regs l ctx.comp.reg_base mdp_reg.VIDO_MAIN_BUF_SIZE &&& 0x00000077 = 0 := by
  cases c with
  | subfrm index =>
    refine ⟨appended cmd (config_wrot_subfrm ctx cmd index).1,
      config_wrot_subfrm_pkt ctx cmd index, ?_⟩
    intro regs h
    rw [exec_config_wrot_subfrm_main_buf, masked_write_main_buf_keeps_filter]
    exact h
  | wait =>
    exact ⟨appended cmd (wait_wrot_event ctx cmd).1, wait_wrot_event_pkt ctx cmd,
      fun regs h => exec_wait_wrot_event_keeps_clear ctx cmd regs h⟩

/-- A sequence of later calls of the writer and rotator appends entries that keep cleared
filter bits cleared. -/
theorem apply_wrot_calls_keeps_clear (ctx : mdp_comp_ctx) (calls : List wrot_call) :
    ∀ cmd : mmsys_cmdq_cmd,
    ∃ l, (apply_wrot_calls ctx cmd calls).pkt = cmd.pkt ++ l ∧
      ∀ regs : reg_file,
        regs ctx.comp.reg_base mdp_reg.VIDO_MAIN_BUF_SIZE &&& 0x00000077 = 0 →
        exec regs l ctx.comp.reg_base mdp_reg.VIDO_MAIN_BUF_SIZE &&& 0x00000077 = 0 := by
  induction calls with
  | nil =>
    intro cmd
    exact ⟨[], by simp [apply_wrot_calls], fun regs h => by simpa [exec] using h⟩
  | cons c cs ih =>
    intro cmd
    obtain ⟨l1, hp1, hk1⟩ := apply_wrot_call_keeps_clear ctx cmd c
    obtain ⟨l2, hp2, hk2⟩ := ih (apply_wrot_call ctx cmd c)
    refine ⟨l1 ++ l2, ?_, ?_⟩
    · have hstep : apply_wrot_calls ctx cmd (c :: cs)
          = apply_wrot_calls ctx (apply_wrot_call ctx cmd c) cs := by
        simp [apply_wrot_calls]
      rw [hstep, hp2, hp1, List.append_assoc]
    · intro regs h
      rw [exec_append]
      exact hk2 _ (hk1 regs h)

/-- Claim C31.  The filter mask `0x00000077` and the main-buffer mask `0x1FFF7F00` of
`VIDO_MAIN_BUF_SIZE` share no bit.  Under masked-write semantics the commands of
`config_wrot_subfrm` leave the filter bits of the register as they were; on a platform
with `wrot_filter_constraint` the commands of `config_wrot_frame` set the filter bits to
those of `wrot->filter`, and after the commands of `wait_wrot_event` the filter bits are
zero and stay zero through every later sequence of `config_wrot_subfrm` and
`wait_wrot_event` calls, that is until `config_wrot_frame` runs again. -/
theorem wrot_filter_bits_disjoint :
    (0x00000077 &&& 0x1FFF7F00 : Nat) = 0 ∧
    (∀ (ctx : mdp_comp_ctx) (cmd : mmsys_cmdq_cmd) (index : Nat) (regs : reg_file),
      exec regs (appended cmd (config_wrot_subfrm ctx cmd index).1)
          ctx.comp.reg_base mdp_reg.VIDO_MAIN_BUF_SIZE &&& 0x00000077
        = regs ctx.comp.reg_base mdp_reg.VIDO_MAIN_BUF_SIZE &&& 0x00000077) ∧
    (∀ (ctx : mdp_comp_ctx) (cmd : mmsys_cmdq_cmd) (compose : v4l2_rect) (regs : reg_file),
      cfg_has ctx.mdp_dev.mdp_cfg (fun c => c.wrot_filter_constraint) = true →
      exec regs (appended cmd (config_wrot_frame ctx cmd compose).1)
          ctx.comp.reg_base mdp_reg.VIDO_MAIN_BUF_SIZE &&& 0x00000077
        = ctx.param.wrot.filter &&& 0x00000077) ∧
    (∀ (ctx : mdp_comp_ctx) (cmd : mmsys_cmdq_cmd) (regs : reg_file) (calls : List wrot_call),
      cfg_has ctx.mdp_dev.mdp_cfg (fun c => c.wrot_filter_constraint) = true →
      exec regs (appended cmd (apply_wrot_calls ctx (wait_wrot_event ctx cmd).1 calls))
          ctx.comp.reg_base mdp_reg.VIDO_MAIN_BUF_SIZE &&& 0x00000077 = 0) := by
  refine ⟨by decide, ?_, ?_, ?_⟩
  · intro ctx cmd index regs
    rw [exec_config_wrot_subfrm_main_buf, masked_write_main_buf_keeps_filter]
  · intro ctx cmd compose regs hf
    rw [exec_config_wrot_frame_main_buf ctx cmd compose regs hf, masked_write_filter_sets]
  · intro ctx cmd regs calls hf
    obtain ⟨l, hp, hk⟩ := apply_wrot_calls_keeps_clear ctx calls (wait_wrot_event ctx cmd).1
    have hall : appended cmd (apply_wrot_calls ctx (wait_wrot_event ctx cmd).1 calls)
        = appended cmd (wait_wrot_event ctx cmd).1 ++ l := by
      unfold appended
      rw [hp, wait_wrot_event_pkt ctx cmd]
      simp [appended]
    rw [hall, exec_append]
    apply hk
    rw [exec_wait_wrot_event_main_buf ctx cmd _ hf, masked_write_filter_sets]
    simp

/-- Claim C31, witness: on a platform with the filter constraint and a register holding
all ones, the commands of `config_wrot_frame` set the filter bits to those of the filter
value 0x55, and the filter bits are cleared after a wait followed by two subframes, a
wait and a third subframe. -/
theorem wrot_filter_bits_disjoint_witness :
    cfg_has (some ({ wrot_filter_constraint := true } : mdp_platform_config))
        (fun c => c.wrot_filter_constraint) = true ∧
    exec (fun _ _ => 0xFFFFFFFF)
        (appended {} (config_wrot_frame
          { mdp_dev := { mdp_cfg := some { wrot_filter_constraint := true } },
            param := { wrot := { filter := 0x55 } } } {} {}).1)
        0 mdp_reg.VIDO_MAIN_BUF_SIZE &&& 0x00000077 = 0x55 &&& 0x00000077 ∧
    exec (fun _ _ => 0xFFFFFFFF)
        (appended {} (apply_wrot_calls
          { mdp_dev := { mdp_cfg := some { wrot_filter_constraint := true } } }
          (wait_wrot_event
            { mdp_dev := { mdp_cfg := some { wrot_filter_constraint := true } } } {}).1
          [wrot_call.subfrm 0, wrot_call.subfrm 1, wrot_call.wait, wrot_call.subfrm 2]))
        0 mdp_reg.VIDO_MAIN_BUF_SIZE &&& 0x00000077 = 0 :=
  ⟨rfl,
    wrot_filter_bits_disjoint.2.2.1
      { mdp_dev := { mdp_cfg := some { wrot_filter_constraint := true } },
        param := { wrot := { filter := 0x55 } } } {} {} (fun _ _ => 0xFFFFFFFF) rfl,
    wrot_filter_bits_disjoint.2.2.2
      { mdp_dev := { mdp_cfg := some { wrot_filter_constraint := true } } } {}
      (fun _ _ => 0xFFFFFFFF)
      [wrot_call.subfrm 0, wrot_call.subfrm 1, wrot_call.wait, wrot_call.subfrm 2] rfl⟩

end Mdp3

namespace PablitoCtrl

/-! ## The state after probe -/

/-- A probe that finds all four lines and registers the component returns 0 and leaves
the private data in `probed_state`, whatever levels the lines had. -/
theorem pablito_ctrl_probe_all_lines (d1 d2 d3 d4 : gpio_desc) :
    pablito_ctrl_probe true (Except.ok (some d1)) (Except.ok (some d2)) (Except.ok (some d3))
      (Except.ok (some d4)) 0 = (some probed_state, 0) := by
  rfl

/-- Every probe that returns 0 leaves a consistent headphone state. -/
theorem pablito_ctrl_probe_consistent (allocated : Bool)
    (dac_mute hp1 hp2 xlr_gl : Except Int (Option gpio_desc)) (registered : Int)
    (priv : pablito_ctrl_priv)
    (h : pablito_ctrl_probe allocated dac_mute hp1 hp2 xlr_gl registered = (some priv, 0))
    (he : ∀ e, dac_mute = Except.error e ∨ hp1 = Except.error e ∨ hp2 = Except.error e ∨
      xlr_gl = Except.error e → e ≠ 0) :
    headphone_consistent priv := by
  cases allocated
  · simp [pablito_ctrl_probe] at h
  · rcases dac_mute with e1 | a1
    · simp [pablito_ctrl_probe] at h
      exact absurd h.2 (he e1 (Or.inl rfl))
    · rcases hp1 with e2 | a2
      · simp [pablito_ctrl_probe] at h
        exact absurd h.2 (he e2 (Or.inr (Or.inl rfl)))
      · rcases hp2 with e3 | a3
        · simp [pablito_ctrl_probe] at h
          exact absurd h.2 (he e3 (Or.inr (Or.inr (Or.inl rfl))))
        · rcases xlr_gl with e4 | a4
          · simp [pablito_ctrl_probe] at h
            exact absurd h.2 (he e4 (Or.inr (Or.inr (Or.inr rfl))))
          · simp [pablito_ctrl_probe] at h
            obtain ⟨hp, _⟩ := h
            subst hp
            left
            cases a2 <;> cases a3 <;> simp [gpiod_set_value]

/-! ## Values inside the advertised range -/

/-- A `long` inside the range of `int` is stored as it is. -/
theorem int_of_long_eq (v : Int) (h1 : -2 ^ 31 ≤ v) (h2 : v < 2 ^ 31) : int_of_long v = v := by
  unfold int_of_long
  omega

/-- Driving a line twice leaves the level of the second call. -/
theorem gpiod_set_value_twice (desc : Option gpio_desc) (a b : Int) :
    gpiod_set_value (gpiod_set_value desc a) b = gpiod_set_value desc b := by
  cases desc <;> rfl

/-- The put of the stored gain changes nothing and returns 0. -/
theorem pablito_ctrl_headphone_put_same (priv : pablito_ctrl_priv) (v : Int)
    (h : priv.hp_gain = v) : pablito_ctrl_headphone_put priv (ucontrol_of v) = (priv, 0) := by
  simp [pablito_ctrl_headphone_put, ucontrol_of, h]

/-- For a value inside the range of `int`, the put of `Headphone Gain` returns 1 exactly
when it changes the private data and 0 when it leaves the private data as it was, a get
after the put returns the value, and a second put of the value returns 0. -/
theorem pablito_ctrl_headphone_put_in_range (priv : pablito_ctrl_priv) (v : Int)
    (u : snd_ctl_elem_value) (h1 : -2 ^ 31 ≤ v) (h2 : v < 2 ^ 31) :
    ((pablito_ctrl_headphone_put priv (ucontrol_of v)).2 = 1 ↔
      (pablito_ctrl_headphone_put priv (ucontrol_of v)).1 ≠ priv) ∧
    ((pablito_ctrl_headphone_put priv (ucontrol_of v)).2 = 0 ↔
      (pablito_ctrl_headphone_put priv (ucontrol_of v)).1 = priv) ∧
    (pablito_ctrl_headphone_get (pablito_ctrl_headphone_put priv (ucontrol_of v)).1 u).1.value 0
      = v ∧
    (pablito_ctrl_headphone_put (pablito_ctrl_headphone_put priv (ucontrol_of v)).1
      (ucontrol_of v)).2 = 0 := by
  have hg : ((pablito_ctrl_headphone_put priv (ucontrol_of v)).1).hp_gain = v := by
    by_cases hc : priv.hp_gain = v
    · simp [pablito_ctrl_headphone_put, ucontrol_of, hc]
    · simp only [pablito_ctrl_headphone_put, ucontrol_of, ne_eq, hc, not_false_eq_true,
        if_true, int_of_long_eq v h1 h2]
      split_ifs <;> rfl
  by_cases hc : priv.hp_gain = v
  · have hr : pablito_ctrl_headphone_put priv (ucontrol_of v) = (priv, 0) := by
      simp [pablito_ctrl_headphone_put, ucontrol_of, hc]
    refine ⟨?_, ?_, ?_, ?_⟩
    · simp [hr]
    · simp [hr]
    · simp [pablito_ctrl_headphone_get, hg]
    · simp [hr]
  · have hr : (pablito_ctrl_headphone_put priv (ucontrol_of v)).2 = 1 := by
      simp [pablito_ctrl_headphone_put, ucontrol_of, hc]
    have hne : (pablito_ctrl_headphone_put priv (ucontrol_of v)).1 ≠ priv := by
      intro he
      rw [he] at hg
      exact hc hg
    refine ⟨?_, ?_, ?_, ?_⟩
    · simp [hr, hne]
    · simp [hr, hne]
    · simp [pablito_ctrl_headphone_get, hg]
    · rw [pablito_ctrl_headphone_put_same _ v hg]

/-- For the values 0 and 1, the put of `DAC Mute` returns 1 exactly when it changes the
private data and 0 when it leaves the private data as it was, a get after the put
returns the value, and a second put of the value returns 0. -/
theorem pablito_ctrl_dac_mute_put_in_range (priv : pablito_ctrl_priv) (v : Int)
    (u : snd_ctl_elem_value) (hv : v = 0 ∨ v = 1) :
    ((pablito_ctrl_dac_mute_put priv (ucontrol_of v)).2 = 1 ↔
      (pablito_ctrl_dac_mute_put priv (ucontrol_of v)).1 ≠ priv) ∧
    ((pablito_ctrl_dac_mute_put priv (ucontrol_of v)).2 = 0 ↔
      (pablito_ctrl_dac_mute_put priv (ucontrol_of v)).1 = priv) ∧
    (pablito_ctrl_dac_mute_get (pablito_ctrl_dac_mute_put priv (ucontrol_of v)).1 u).1.value 0
      = v ∧
    (pablito_ctrl_dac_mute_put (pablito_ctrl_dac_mute_put priv (ucontrol_of v)).1
      (ucontrol_of v)).2 = 0 := by
  obtain ⟨g1, g2, g3, g4, gain, mute, xlr⟩ := priv
  rcases hv with rfl | rfl <;> cases mute <;>
    simp [pablito_ctrl_dac_mute_put, pablito_ctrl_dac_mute_get, ucontrol_of, int_of_bool,
      bool_of_long]

/-- For the values 0 and 1, the put of `XLR Ground Lift` returns 1 exactly when it
changes the private data and 0 when it leaves the private data as it was, a get after
the put returns the value, and a second put of the value returns 0. -/
theorem pablito_ctrl_xlr_gl_put_in_range (priv : pablito_ctrl_priv) (v : Int)
    (u : snd_ctl_elem_value) (hv : v = 0 ∨ v = 1) :
    ((pablito_ctrl_xlr_gl_put priv (ucontrol_of v)).2 = 1 ↔
      (pablito_ctrl_xlr_gl_put priv (ucontrol_of v)).1 ≠ priv) ∧
    ((pablito_ctrl_xlr_gl_put priv (ucontrol_of v)).2 = 0 ↔
      (pablito_ctrl_xlr_gl_put priv (ucontrol_of v)).1 = priv) ∧
    (pablito_ctrl_xlr_gl_get (pablito_ctrl_xlr_gl_put priv (ucontrol_of v)).1 u).1.value 0
      = v ∧
    (pablito_ctrl_xlr_gl_put (pablito_ctrl_xlr_gl_put priv (ucontrol_of v)).1
      (ucontrol_of v)).2 = 0 := by
  obtain ⟨g1, g2, g3, g4, gain, mute, xlr⟩ := priv
  rcases hv with rfl | rfl <;> cases xlr <;>
    simp [pablito_ctrl_xlr_gl_put, pablito_ctrl_xlr_gl_get, ucontrol_of, int_of_bool,
      bool_of_long]

/-! ## The headphone gain over sequences of put calls -/

/-- A put of an advertised value keeps the headphone state consistent. -/
theorem pablito_ctrl_headphone_put_consistent (priv : pablito_ctrl_priv) (v : Int)
    (hv : 0 ≤ v ∧ v ≤ 2) (h : headphone_consistent priv) :
    headphone_consistent (pablito_ctrl_headphone_put priv (ucontrol_of v)).1 := by
  by_cases hc : priv.hp_gain = v
  · rw [pablito_ctrl_headphone_put_same priv v hc]
    exact h
  · have h3 : v = 0 ∨ v = 1 ∨ v = 2 := by omega
    rcases h3 with rfl | rfl | rfl
    · left
      simp [pablito_ctrl_headphone_put, ucontrol_of, hc, int_of_long, gpiod_set_value_twice]
    · right
      left
      simp [pablito_ctrl_headphone_put, ucontrol_of, hc, int_of_long, gpiod_set_value_twice]
    · right
      right
      simp [pablito_ctrl_headphone_put, ucontrol_of, hc, int_of_long, gpiod_set_value_twice]

/-- A sequence of puts of advertised values keeps the headphone state consistent. -/
theorem headphone_puts_consistent (values : List Int) :
    ∀ priv : pablito_ctrl_priv, (∀ v ∈ values, 0 ≤ v ∧ v ≤ 2) → headphone_consistent priv →
      headphone_consistent (headphone_puts priv values) := by
  induction values with
  | nil =>
    intro priv _ h
    exact h
  | cons v vs ih =>
    intro priv hv h
    have hstep : headphone_puts priv (v :: vs)
        = headphone_puts (pablito_ctrl_headphone_put priv (ucontrol_of v)).1 vs := by
      simp [headphone_puts]
    rw [hstep]
    exact ih _ (fun w hw => hv w (List.mem_cons_of_mem v hw))
      (pablito_ctrl_headphone_put_consistent priv v (hv v (List.mem_cons_self v vs)) h)

/-- In a consistent headphone state the stored gain is advertised and the levels of the
two lines, when both are there, are the documented ones. -/
theorem headphone_consistent_levels (priv : pablito_ctrl_priv)
    (h : headphone_consistent priv) :
    0 ≤ priv.hp_gain ∧ priv.hp_gain ≤ (pablito_ctrl_headphone_info {}).1.max ∧
    (priv.gpiod_hp1.isSome = true → priv.gpiod_hp2.isSome = true →
      hp_levels priv = documented_levels priv.hp_gain) := by
  obtain ⟨g1, g2, g3, g4, gain, mute, xlr⟩ := priv
  have hmax : (pablito_ctrl_headphone_info {}).1.max = 2 := rfl
  rw [hmax]
  rcases h with ⟨hg, h1, h2⟩ | ⟨hg, h1, h2⟩ | ⟨hg, h1, h2⟩ <;>
    simp only at hg h1 h2 <;> subst hg <;>
    refine ⟨by norm_num, by norm_num, ?_⟩ <;>
    intro i1 i2 <;>
    cases g2 <;> cases g3 <;> simp at i1 i2 <;>
    simp [gpiod_set_value] at h1 h2 <;>
    simp [hp_levels, documented_levels, h1, h2]

/-- Driving a line does not change whether the line is there. -/
theorem gpiod_set_value_isSome (desc : Option gpio_desc) (a : Int) :
    (gpiod_set_value desc a).isSome = desc.isSome := by
  cases desc <;> rfl

/-- A put of `Headphone Gain` does not change which lines are there. -/
theorem pablito_ctrl_headphone_put_lines (priv : pablito_ctrl_priv)
    (u : snd_ctl_elem_value) :
    (pablito_ctrl_headphone_put priv u).1.gpiod_hp1.isSome = priv.gpiod_hp1.isSome ∧
    (pablito_ctrl_headphone_put priv u).1.gpiod_hp2.isSome = priv.gpiod_hp2.isSome := by
  by_cases hc : priv.hp_gain = u.value 0
  · simp [pablito_ctrl_headphone_put, hc]
  · by_cases h0 : int_of_long (u.value 0) = 0
    · simp [pablito_ctrl_headphone_put, hc, h0, gpiod_set_value_isSome]
    · by_cases h1 : int_of_long (u.value 0) = 1
      · simp [pablito_ctrl_headphone_put, hc, h0, h1, gpiod_set_value_isSome]
      · by_cases h2 : int_of_long (u.value 0) = 2
        · simp [pablito_ctrl_headphone_put, hc, h0, h1, h2, gpiod_set_value_isSome]
        · simp [pablito_ctrl_headphone_put, hc, h0, h1, h2]

/-- A sequence of puts of `Headphone Gain` does not change which lines are there. -/
theorem headphone_puts_lines (values : List Int) :
    ∀ priv : pablito_ctrl_priv,
      (headphone_puts priv values).gpiod_hp1.isSome = priv.gpiod_hp1.isSome ∧
      (headphone_puts priv values).gpiod_hp2.isSome = priv.gpiod_hp2.isSome := by
  induction values with
  | nil =>
    intro priv
    exact ⟨rfl, rfl⟩
  | cons v vs ih =>
    intro priv
    have hstep : headphone_puts priv (v :: vs)
        = headphone_puts (pablito_ctrl_headphone_put priv (ucontrol_of v)).1 vs := by
      simp [headphone_puts]
    obtain ⟨a1, a2⟩ := ih (pablito_ctrl_headphone_put priv (ucontrol_of v)).1
    obtain ⟨b1, b2⟩ := pablito_ctrl_headphone_put_lines priv (ucontrol_of v)
    rw [hstep]
    exact ⟨a1.trans b1, a2.trans b2⟩

/-- After a probe that finds the lines, every sequence of `Headphone Gain` puts of
advertised values leaves an advertised gain and the documented levels. -/
theorem headphone_puts_in_range (values : List Int) (hv : ∀ v ∈ values, 0 ≤ v ∧ v ≤ 2) :
    0 ≤ (headphone_puts probed_state values).hp_gain ∧
    (headphone_puts probed_state values).hp_gain ≤ 2 ∧
    hp_levels (headphone_puts probed_state values)
      = documented_levels (headphone_puts probed_state values).hp_gain := by
  have h0 : headphone_consistent probed_state := Or.inl ⟨rfl, rfl, rfl⟩
  have hc := headphone_puts_consistent values probed_state hv h0
  obtain ⟨r1, r2, r3⟩ := headphone_consistent_levels _ hc
  obtain ⟨l1, l2⟩ := headphone_puts_lines values probed_state
  exact ⟨r1, r2, r3 (by rw [l1]; rfl) (by rw [l2]; rfl)⟩

/-- Claim C32.  The put of `DAC Mute` and of `XLR Ground Lift` at the value 2, from the
state after probe: the first put returns 1 and stores `true`, a get right after it
returns 1 and not the 2 that was put, and a second put of 2 leaves the private data as
it is and returns 1 again. -/
theorem switch_put_two_reports_change_twice :
    (pablito_ctrl_switch_info {}).1.max = 1 ∧
    (pablito_ctrl_dac_mute_put probed_state (ucontrol_of 2)).2 = 1 ∧
    (pablito_ctrl_dac_mute_get (pablito_ctrl_dac_mute_put probed_state (ucontrol_of 2)).1
      (ucontrol_of 2)).1.value 0 = 1 ∧
    pablito_ctrl_dac_mute_put (pablito_ctrl_dac_mute_put probed_state (ucontrol_of 2)).1
        (ucontrol_of 2)
      = ((pablito_ctrl_dac_mute_put probed_state (ucontrol_of 2)).1, 1) ∧
    (pablito_ctrl_xlr_gl_put probed_state (ucontrol_of 2)).2 = 1 ∧
    (pablito_ctrl_xlr_gl_get (pablito_ctrl_xlr_gl_put probed_state (ucontrol_of 2)).1
      (ucontrol_of 2)).1.value 0 = 1 ∧
    pablito_ctrl_xlr_gl_put (pablito_ctrl_xlr_gl_put probed_state (ucontrol_of 2)).1
        (ucontrol_of 2)
      = ((pablito_ctrl_xlr_gl_put probed_state (ucontrol_of 2)).1, 1) := by
  decide

/-- Claim C33.  From the state after probe, a put of 3 to `Headphone Gain` returns 1 and
stores the gain 3, above the maximum 2 of `pablito_ctrl_headphone_info`; after the puts
1 and 3 the stored gain is 3 while the lines still hold the levels (0, 1) of the gain 1,
and no levels are documented for 3. -/
theorem headphone_put_three_leaves_range :
    pablito_ctrl_probe true (Except.ok (some {})) (Except.ok (some {})) (Except.ok (some {}))
      (Except.ok (some {})) 0 = (some probed_state, 0) ∧
    (pablito_ctrl_headphone_info {}).1.min = 0 ∧
    (pablito_ctrl_headphone_info {}).1.max = 2 ∧
    (pablito_ctrl_headphone_put probed_state (ucontrol_of 3)).2 = 1 ∧
    (headphone_puts probed_state [3]).hp_gain = 3 ∧
    hp_levels (headphone_puts probed_state [3]) = some (1, 1) ∧
    (headphone_puts probed_state [1, 3]).hp_gain = 3 ∧
    hp_levels (headphone_puts probed_state [1, 3]) = some (0, 1) ∧
    documented_levels 3 = none := by
  decide

end PablitoCtrl

namespace RockpiMcu

/-! ## Hexadecimal digits -/

/-- The value of `is_hex` is 0 or 1. -/
theorem is_hex_zero_or_one (num : Int) : is_hex num = 0 ∨ is_hex num = 1 := by
  unfold is_hex
  split_ifs
  · exact Or.inr rfl
  · exact Or.inl rfl

/-- The characters for which `is_hex` returns 1. -/
theorem is_hex_eq_one_iff (num : Int) :
    is_hex num = 1 ↔
      (48 ≤ num ∧ num ≤ 57) ∨ (97 ≤ num ∧ num ≤ 102) ∨ (65 ≤ num ∧ num ≤ 70) := by
  unfold is_hex
  split_ifs with h
  · simp only [true_iff]
    omega
  · simp only [zero_ne_one, false_iff]
    omega

/-- The characters for which `is_hex` returns 0. -/
theorem is_hex_eq_zero_iff (num : Int) : is_hex num = 0 ↔ ¬ is_hex num = 1 := by
  rcases is_hex_zero_or_one num with h | h <;> simp [h]

/-- The library test for a hexadecimal digit accepts the characters of `is_hex`. -/
theorem isxdigit_iff_is_hex (c : Int) : isxdigit c = true ↔ is_hex c = 1 := by
  rw [is_hex_eq_one_iff]
  simp [isxdigit]

/-- The value of a digit is below 16. -/
theorem hexval_lt (c : Int) : hexval c < 16 := by
  unfold hexval
  split_ifs <;> omega

/-- The byte read from two hexadecimal digits. -/
theorem sscanf_hhx_two_digits (a b : Int) (bytes : Nat) (ha : is_hex a = 1)
    (hb : is_hex b = 1) : sscanf_hhx [a, b, 0] bytes = 16 * hexval a + hexval b := by
  have ha2 := (isxdigit_iff_is_hex a).mpr ha
  have hb2 := (isxdigit_iff_is_hex b).mpr hb
  have h0 : isxdigit 0 = false := by decide
  have h1 := hexval_lt a
  have h2 := hexval_lt b
  simp only [sscanf_hhx, parse_hex, ha2, hb2, h0, if_true]
  simp only [Bool.false_eq_true, if_false]
  omega

/-- The byte read from one hexadecimal digit followed by another character. -/
theorem sscanf_hhx_one_digit (a b : Int) (bytes : Nat) (ha : is_hex a = 1)
    (hb : ¬ is_hex b = 1) : sscanf_hhx [a, b, 0] bytes = hexval a := by
  have ha2 := (isxdigit_iff_is_hex a).mpr ha
  have hb2 : isxdigit b = false := by
    cases h : isxdigit b
    · rfl
    · exact absurd ((isxdigit_iff_is_hex b).mp h) hb
  have h1 := hexval_lt a
  simp only [sscanf_hhx, parse_hex, ha2, hb2, if_true]
  simp only [Bool.false_eq_true, if_false]
  omega

/-! ## The conversion loop -/

/-- Two iterations of the loop from an even index. -/
theorem string_to_byte_loop_pair (source : Nat → Int) (n c counter : Nat)
    (destination : Nat → Nat) (bytes : Nat) :
    string_to_byte_loop source (n + 2) (2 * c) counter destination bytes =
      if is_hex (source (2 * c)) = 0 then (destination, -EINVAL)
      else if is_hex (source (2 * c + 1)) = 0 then
        (Function.update destination counter
          (sscanf_hhx [source (2 * c), source (2 * c + 1), 0] bytes), -EINVAL)
      else
        string_to_byte_loop source n (2 * c + 2) (counter + 1)
          (Function.update destination counter
            (sscanf_hhx [source (2 * c), source (2 * c + 1), 0] bytes))
          (sscanf_hhx [source (2 * c), source (2 * c + 1), 0] bytes) := by
  have he : 0 = 2 * c % 2 := by omega
  have ho : ¬ 0 = (2 * c + 1) % 2 := by omega
  by_cases h0 : is_hex (source (2 * c)) = 0
  · simp [string_to_byte_loop, h0]
  · by_cases h1 : is_hex (source (2 * c + 1)) = 0
    · simp only [string_to_byte_loop, h0, h1, if_false, if_true, he.symm]
    · simp only [string_to_byte_loop, h0, h1, if_false, he.symm, ho, if_true]

/-- The loop over `m` pairs of hexadecimal digits returns 0 and writes one byte for each
pair. -/
theorem string_to_byte_loop_ok (source : Nat → Int) (m : Nat) :
    ∀ (c : Nat) (destination : Nat → Nat) (bytes : Nat),
      (∀ j, 2 * c ≤ j → j < 2 * c + 2 * m → is_hex (source j) = 1) →
      (string_to_byte_loop source (2 * m) (2 * c) c destination bytes).2 = 0 ∧
      ∀ k, (string_to_byte_loop source (2 * m) (2 * c) c destination bytes).1 k =
        if c ≤ k ∧ k < c + m then 16 * hexval (source (2 * k)) + hexval (source (2 * k + 1))
        else destination k := by
  induction m with
  | zero =>
    intro c destination bytes _
    refine ⟨rfl, fun k => ?_⟩
    have hk : ¬ (c ≤ k ∧ k < c + 0) := by omega
    rw [if_neg hk]
    rfl
  | succ m ih =>
    intro c destination bytes h
    have ha : is_hex (source (2 * c)) = 1 := h _ (by omega) (by omega)
    have hb : is_hex (source (2 * c + 1)) = 1 := h _ (by omega) (by omega)
    have hstep : string_to_byte_loop source (2 * (m + 1)) (2 * c) c destination bytes =
        string_to_byte_loop source (2 * m) (2 * (c + 1)) (c + 1)
          (Function.update destination c
            (16 * hexval (source (2 * c)) + hexval (source (2 * c + 1))))
          (16 * hexval (source (2 * c)) + hexval (source (2 * c + 1))) := by
      have e1 : 2 * (m + 1) = 2 * m + 2 := by ring
      rw [e1, string_to_byte_loop_pair, sscanf_hhx_two_digits _ _ _ ha hb]
      simp [ha, hb]
      rfl
    obtain ⟨r1, r2⟩ := ih (c + 1)
      (Function.update destination c
        (16 * hexval (source (2 * c)) + hexval (source (2 * c + 1))))
      (16 * hexval (source (2 * c)) + hexval (source (2 * c + 1)))
      (fun j h1 h2 => h j (by omega) (by omega))
    rw [hstep]
    refine ⟨r1, fun k => ?_⟩
    rw [r2 k]
    by_cases hk : k = c
    · subst hk
      have n1 : ¬ (k + 1 ≤ k ∧ k < k + 1 + m) := by omega
      have n2 : k ≤ k ∧ k < k + (m + 1) := by omega
      simp [n1, n2]
    · by_cases hin : c + 1 ≤ k ∧ k < c + 1 + m
      · have n2 : c ≤ k ∧ k < c + (m + 1) := by omega
        simp [hin, n2]
      · have n2 : ¬ (c ≤ k ∧ k < c + (m + 1)) := by omega
        simp [hin, n2, Function.update_noteq hk]

/-- The loop that meets its first character that is no hexadecimal digit at index `p`
returns `-EINVAL`; it has written the bytes of the pairs that lie before `p`, the byte
of the single digit at `p - 1` when `p` is odd, and nothing else. -/
theorem string_to_byte_loop_err (source : Nat → Int) (p : Nat)
    (hp : ¬ is_hex (source p) = 1) (m : Nat) :
    ∀ (c : Nat) (destination : Nat → Nat) (bytes : Nat),
      2 * c ≤ p → p < 2 * c + 2 * m →
      (∀ j, 2 * c ≤ j → j < p → is_hex (source j) = 1) →
      (string_to_byte_loop source (2 * m) (2 * c) c destination bytes).2 = -EINVAL ∧
      (∀ k, k < c ∨ (p + 1) / 2 ≤ k →
        (string_to_byte_loop source (2 * m) (2 * c) c destination bytes).1 k
          = destination k) ∧
      (∀ k, c ≤ k → 2 * k + 1 < p →
        (string_to_byte_loop source (2 * m) (2 * c) c destination bytes).1 k
          = 16 * hexval (source (2 * k)) + hexval (source (2 * k + 1))) ∧
      (∀ k, c ≤ k → 2 * k + 1 = p →
        (string_to_byte_loop source (2 * m) (2 * c) c destination bytes).1 k
          = hexval (source (2 * k))) := by
  have hp0 : is_hex (source p) = 0 := (is_hex_eq_zero_iff _).mpr hp
  induction m with
  | zero =>
    intro c destination bytes h1 h2 _
    omega
  | succ m ih =>
    intro c destination bytes h1 h2 h
    have e1 : 2 * (m + 1) = 2 * m + 2 := by ring
    rw [e1, string_to_byte_loop_pair]
    by_cases hc0 : p = 2 * c
    · rw [← hc0, if_pos hp0]
      refine ⟨rfl, fun k _ => rfl, fun k _ _ => ?_, fun k _ _ => ?_⟩ <;> omega
    · have ha : is_hex (source (2 * c)) = 1 := h _ (by omega) (by omega)
      have ha0 : ¬ is_hex (source (2 * c)) = 0 := by rw [ha]; decide
      rw [if_neg ha0]
      by_cases hc1 : p = 2 * c + 1
      · rw [← hc1, if_pos hp0, sscanf_hhx_one_digit _ _ _ ha hp]
        refine ⟨rfl, fun k hk => ?_, fun k _ _ => ?_, fun k hk1 hk2 => ?_⟩
        · have hne : k ≠ c := by omega
          simp [Function.update_noteq hne]
        · omega
        · have hkc : k = c := by omega
          subst hkc
          simp
      · have hb : is_hex (source (2 * c + 1)) = 1 := h _ (by omega) (by omega)
        have hb0 : ¬ is_hex (source (2 * c + 1)) = 0 := by rw [hb]; decide
        rw [if_neg hb0, sscanf_hhx_two_digits _ _ _ ha hb]
        have e2 : 2 * c + 2 = 2 * (c + 1) := by ring
        rw [e2]
        obtain ⟨r1, r2, r3, r4⟩ := ih (c + 1)
          (Function.update destination c
            (16 * hexval (source (2 * c)) + hexval (source (2 * c + 1))))
          (16 * hexval (source (2 * c)) + hexval (source (2 * c + 1)))
          (by omega) (by omega) (fun j h1 h2 => h j (by omega) h2)
        refine ⟨r1, fun k hk => ?_, fun k hk1 hk2 => ?_, fun k hk1 hk2 => ?_⟩
        · have hne : k ≠ c := by omega
          rw [r2 k (by omega), Function.update_noteq hne]
        · by_cases hkc : k = c
          · subst hkc
            rw [r2 k (Or.inl (by omega))]
            simp
          · exact r3 k (by omega) hk2
        · exact r4 k (by omega) hk2

/-! ## The conversion -/

/-- On an even size that is not negative the conversion is the loop from index 0. -/
theorem string_to_byte_even (source : Nat → Int) (destination : Nat → Nat) (m bytes : Nat) :
    string_to_byte source destination ((2 * m : Nat) : Int) bytes
      = string_to_byte_loop source (2 * m) (2 * 0) 0 destination bytes := by
  have h : ¬ Int.tmod ((2 * m : Nat) : Int) 2 = 1 := by
    rw [Int.tmod_eq_emod (by omega) (by norm_num)]
    omega
  unfold string_to_byte
  rw [if_neg h, Int.toNat_ofNat]

/-- On an odd size that is not negative the conversion returns `-EINVAL` at once. -/
theorem string_to_byte_odd (source : Nat → Int) (destination : Nat → Nat) (m bytes : Nat) :
    string_to_byte source destination ((2 * m + 1 : Nat) : Int) bytes
      = (destination, -EINVAL) := by
  have h : Int.tmod ((2 * m + 1 : Nat) : Int) 2 = 1 := by
    rw [Int.tmod_eq_emod (by omega) (by norm_num)]
    omega
  unfold string_to_byte
  rw [if_pos h]

/-- The conversion of `2 * n` hexadecimal digits. -/
theorem string_to_byte_all_hex (source : Nat → Int) (destination : Nat → Nat) (n bytes : Nat)
    (h : ∀ i, i < 2 * n → is_hex (source i) = 1) :
    (string_to_byte source destination ((2 * n : Nat) : Int) bytes).2 = 0 ∧
    ∀ k, (string_to_byte source destination ((2 * n : Nat) : Int) bytes).1 k =
      if k < n then 16 * hexval (source (2 * k)) + hexval (source (2 * k + 1))
      else destination k := by
  rw [string_to_byte_even]
  obtain ⟨r1, r2⟩ := string_to_byte_loop_ok source n 0 destination bytes
    (fun j _ h2 => h j (by omega))
  refine ⟨r1, fun k => ?_⟩
  rw [r2 k]
  by_cases hk : k < n
  · have h2 : 0 ≤ k ∧ k < 0 + n := by omega
    rw [if_pos hk, if_pos h2]
  · have h2 : ¬ (0 ≤ k ∧ k < 0 + n) := by omega
    rw [if_neg hk, if_neg h2]

/-- The conversion of an even number of characters whose first character that is no
hexadecimal digit is at index `p`. -/
theorem string_to_byte_first_bad (source : Nat → Int) (destination : Nat → Nat)
    (m bytes p : Nat) (hlt : p < 2 * m) (hp : ¬ is_hex (source p) = 1)
    (h : ∀ j, j < p → is_hex (source j) = 1) :
    (string_to_byte source destination ((2 * m : Nat) : Int) bytes).2 = -EINVAL ∧
    (∀ k, (p + 1) / 2 ≤ k →
      (string_to_byte source destination ((2 * m : Nat) : Int) bytes).1 k = destination k) ∧
    (∀ k, 2 * k + 1 < p →
      (string_to_byte source destination ((2 * m : Nat) : Int) bytes).1 k
        = 16 * hexval (source (2 * k)) + hexval (source (2 * k + 1))) ∧
    (∀ k, 2 * k + 1 = p →
      (string_to_byte source destination ((2 * m : Nat) : Int) bytes).1 k
        = hexval (source (2 * k))) := by
  rw [string_to_byte_even]
  obtain ⟨r1, r2, r3, r4⟩ := string_to_byte_loop_err source p hp m 0 destination bytes
    (by omega) (by omega) (fun j _ h2 => h j h2)
  exact ⟨r1, fun k hk => r2 k (Or.inr hk), fun k hk => r3 k (by omega) hk,
    fun k hk => r4 k (by omega) hk⟩

/-- Among the first characters of a string that are not all hexadecimal digits there is
a first one that is no digit. -/
theorem first_bad_index (source : Nat → Int) (n : Nat)
    (h : ∃ i, i < n ∧ ¬ is_hex (source i) = 1) :
    ∃ p, p < n ∧ ¬ is_hex (source p) = 1 ∧ ∀ j, j < p → is_hex (source j) = 1 := by
  classical
  have hex : ∃ i, ¬ is_hex (source i) = 1 := h.imp fun _ hi => hi.2
  obtain ⟨i, hi, hb⟩ := h
  refine ⟨Nat.find hex, lt_of_le_of_lt (Nat.find_min' hex hb) hi, Nat.find_spec hex, ?_⟩
  intro j hj
  exact not_not.mp (Nat.find_min hex hj)

/-- The return value of the conversion for a size that is not negative. -/
theorem string_to_byte_ret (source : Nat → Int) (destination : Nat → Nat) (n bytes : Nat) :
    ((string_to_byte source destination (n : Int) bytes).2 = -EINVAL ↔
      n % 2 = 1 ∨ ∃ i, i < n ∧ ¬ is_hex (source i) = 1) ∧
    ((string_to_byte source destination (n : Int) bytes).2 = -EINVAL ∨
      (string_to_byte source destination (n : Int) bytes).2 = 0) := by
  rcases Nat.even_or_odd' n with ⟨m, hm | hm⟩
  · subst hm
    by_cases hall : ∃ i, i < 2 * m ∧ ¬ is_hex (source i) = 1
    · obtain ⟨p, hlt, hp, hmin⟩ := first_bad_index source (2 * m) hall
      have hr := (string_to_byte_first_bad source destination m bytes p hlt hp hmin).1
      exact ⟨⟨fun _ => Or.inr hall, fun _ => hr⟩, Or.inl hr⟩
    · have hok : ∀ i, i < 2 * m → is_hex (source i) = 1 := fun i hi =>
        not_not.mp fun hn => hall ⟨i, hi, hn⟩
      have hr := (string_to_byte_all_hex source destination m bytes hok).1
      refine ⟨⟨fun he => ?_, fun ho => ?_⟩, Or.inr hr⟩
      · rw [hr] at he
        exact absurd he (by decide)
      · rcases ho with ho | ho
        · omega
        · exact absurd ho hall
  · subst hm
    rw [string_to_byte_odd]
    exact ⟨⟨fun _ => Or.inl (by omega), fun _ => rfl⟩, Or.inl rfl⟩

/-- The conversion leaves the destination as it was when the size is odd or the first
character is no hexadecimal digit. -/
theorem string_to_byte_untouched (source : Nat → Int) (destination : Nat → Nat)
    (n bytes : Nat) (h : n % 2 = 1 ∨ ¬ is_hex (source 0) = 1) :
    (string_to_byte source destination (n : Int) bytes).1 = destination := by
  rcases Nat.even_or_odd' n with ⟨m, hm | hm⟩
  · subst hm
    rcases h with h | h
    · omega
    · cases m with
      | zero => rfl
      | succ m =>
        funext k
        exact (string_to_byte_first_bad source destination (m + 1) bytes 0 (by omega) h
          (fun j hj => absurd hj (Nat.not_lt_zero j))).2.1 k (by omega)
  · subst hm
    rw [string_to_byte_odd]

/-- The bytes of a command of four hexadecimal digits. -/
theorem string_to_byte_four (s : String) (b0 b1 : Nat)
    (h : ∀ i, i < 2 * 2 → is_hex (c_string s i) = 1)
    (h0 : 16 * hexval (c_string s (2 * 0)) + hexval (c_string s (2 * 0 + 1)) = b0)
    (h1 : 16 * hexval (c_string s (2 * 1)) + hexval (c_string s (2 * 1 + 1)) = b1)
    (destination : Nat → Nat) (bytes : Nat) :
    (string_to_byte (c_string s) destination 4 bytes).2 = 0 ∧
    (string_to_byte (c_string s) destination 4 bytes).1 0 = b0 ∧
    (string_to_byte (c_string s) destination 4 bytes).1 1 = b1 ∧
    ∀ k, 2 ≤ k → (string_to_byte (c_string s) destination 4 bytes).1 k = destination k := by
  obtain ⟨r1, r2⟩ := string_to_byte_all_hex (c_string s) destination 2 bytes h
  have e : (((2 * 2 : Nat)) : Int) = 4 := by norm_num
  rw [e] at r1 r2
  refine ⟨r1, ?_, ?_, fun k hk => ?_⟩
  · rw [r2 0, if_pos (by decide), h0]
  · rw [r2 1, if_pos (by decide), h1]
  · rw [r2 k, if_neg (by omega)]

/-- Claim C34.  For a source whose first `2 * n` characters are hexadecimal digits,
`string_to_byte` with size `2 * n` returns 0 and writes exactly `n` bytes: entry `k` of
the destination is `16 * hexval(source[2k]) + hexval(source[2k+1])` for `k < n` and is
left as it was for `k ≥ n`.  The digit values are 0 to 9 for `0` to `9` and 10 to 15
for `a` to `f` and for `A` to `F` alike.  The command `8500` gives the bytes 0x85, 0x00
and the command `8104` gives 0x81, 0x04. -/
theorem string_to_byte_hex_pairs :
    (∀ (source : Nat → Int) (destination : Nat → Nat) (n bytes : Nat),
      (∀ i, i < 2 * n → is_hex (source i) = 1) →
      (string_to_byte source destination ((2 * n : Nat) : Int) bytes).2 = 0 ∧
      ∀ k, (string_to_byte source destination ((2 * n : Nat) : Int) bytes).1 k =
        if k < n then 16 * hexval (source (2 * k)) + hexval (source (2 * k + 1))
        else destination k) ∧
    (∀ d : Nat, d < 10 → hexval ((Char.toNat '0' : Int) + d) = d) ∧
    (∀ d : Nat, d < 6 →
      hexval ((Char.toNat 'a' : Int) + d) = 10 + d ∧
      hexval ((Char.toNat 'A' : Int) + d) = 10 + d) ∧
    (∀ (destination : Nat → Nat) (bytes : Nat),
      (string_to_byte (c_string "8500") destination 4 bytes).2 = 0 ∧
      (string_to_byte (c_string "8500") destination 4 bytes).1 0 = 0x85 ∧
      (string_to_byte (c_string "8500") destination 4 bytes).1 1 = 0x00 ∧
      ∀ k, 2 ≤ k → (string_to_byte (c_string "8500") destination 4 bytes).1 k
        = destination k) ∧
    (∀ (destination : Nat → Nat) (bytes : Nat),
      (string_to_byte (c_string "8104") destination 4 bytes).2 = 0 ∧
      (string_to_byte (c_string "8104") destination 4 bytes).1 0 = 0x81 ∧
      (string_to_byte (c_string "8104") destination 4 bytes).1 1 = 0x04 ∧
      ∀ k, 2 ≤ k → (string_to_byte (c_string "8104") destination 4 bytes).1 k
        = destination k) := by
  refine ⟨fun source destination n bytes h =>
      string_to_byte_all_hex source destination n bytes h, ?_, ?_,
    string_to_byte_four "8500" 0x85 0x00 (by decide) (by decide) (by decide),
    string_to_byte_four "8104" 0x81 0x04 (by decide) (by decide) (by decide)⟩
  · intro d hd
    interval_cases d <;> decide
  · intro d hd
    interval_cases d <;> decide

/-- Claim C34, witness: the six digits `aBcDeF` give three bytes. -/
theorem string_to_byte_hex_pairs_witness :
    (∀ i, i < 2 * 3 → is_hex (c_string "aBcDeF" i) = 1) ∧
    (string_to_byte (c_string "aBcDeF") (fun _ => 0xEE) ((2 * 3 : Nat) : Int) 7).2 = 0 ∧
    ∀ k, (string_to_byte (c_string "aBcDeF") (fun _ => 0xEE) ((2 * 3 : Nat) : Int) 7).1 k =
      if k < 3 then 16 * hexval (c_string "aBcDeF" (2 * k)) +
        hexval (c_string "aBcDeF" (2 * k + 1))
      else 0xEE :=
  ⟨by decide, string_to_byte_hex_pairs.1 (c_string "aBcDeF") (fun _ => 0xEE) 3 7 (by decide)⟩

/-- Claim C35, counterexample.  On the four characters `85g0` the function returns
`-EINVAL` after it has stored 0x85 in the first entry of the destination; and on the odd
size -1 it returns 0. -/
theorem string_to_byte_einval_after_write :
    (string_to_byte (c_string "85g0") (fun _ => 0) 4 0).2 = -EINVAL ∧
    (string_to_byte (c_string "85g0") (fun _ => 0) 4 0).1 0 = 0x85 ∧
    (string_to_byte (c_string "85g0") (fun _ => 0) 4 0).1 ≠ (fun _ => 0) ∧
    (-1 : Int) % 2 = 1 ∧
    (string_to_byte (c_string "85g0") (fun _ => 0) (-1) 0).2 = 0 := by
  refine ⟨by decide, by decide, fun h => ?_, by decide, by decide⟩
  have h0 := congrFun h 0
  revert h0
  decide

/-- Claim C35, as amended.  `is_hex` returns 1 exactly for the characters `0` to `9`,
`a` to `f` and `A` to `F`, and 0 for every other character.  For a size that is not
negative, `string_to_byte` returns `-EINVAL` if and only if the size is odd or one of
the first `size` characters is no hexadecimal digit, and 0 otherwise.  The destination
is left as it was when the size is odd or the first character is no digit.  When the
size is even and the first character that is no digit is at index `p`, the entries from
index `(p + 1) / 2` on are left as they were and the entries of the digit pairs
that lie before `p` hold the bytes of those pairs. -/
theorem string_to_byte_einval_iff :
    (∀ num : Int,
      (is_hex num = 1 ↔
        ((Char.toNat '0' : Int) ≤ num ∧ num ≤ (Char.toNat '9' : Int)) ∨
        ((Char.toNat 'a' : Int) ≤ num ∧ num ≤ (Char.toNat 'f' : Int)) ∨
        ((Char.toNat 'A' : Int) ≤ num ∧ num ≤ (Char.toNat 'F' : Int))) ∧
      (is_hex num = 0 ↔ ¬ is_hex num = 1)) ∧
    (∀ (source : Nat → Int) (destination : Nat → Nat) (size : Int) (bytes : Nat),
      0 ≤ size →
      ((string_to_byte source destination size bytes).2 = -EINVAL ↔
        size % 2 = 1 ∨ ∃ i : Nat, (i : Int) < size ∧ is_hex (source i) = 0) ∧
      ((string_to_byte source destination size bytes).2 = -EINVAL ∨
        (string_to_byte source destination size bytes).2 = 0) ∧
      (size % 2 = 1 ∨ is_hex (source 0) = 0 →
        (string_to_byte source destination size bytes).1 = destination) ∧
      (∀ p : Nat, size % 2 = 0 → (p : Int) < size → is_hex (source p) = 0 →
        (∀ j, j < p → is_hex (source j) = 1) →
        (∀ k, (p + 1) / 2 ≤ k →
          (string_to_byte source destination size bytes).1 k = destination k) ∧
        (∀ k, 2 * k + 1 < p →
          (string_to_byte source destination size bytes).1 k
            = 16 * hexval (source (2 * k)) + hexval (source (2 * k + 1))))) := by
  refine ⟨fun num => ⟨?_, is_hex_eq_zero_iff num⟩, ?_⟩
  · have c0 : (Char.toNat '0' : Int) = 48 := rfl
    have c9 : (Char.toNat '9' : Int) = 57 := rfl
    have ca : (Char.toNat 'a' : Int) = 97 := rfl
    have cf : (Char.toNat 'f' : Int) = 102 := rfl
    have cA : (Char.toNat 'A' : Int) = 65 := rfl
    have cF : (Char.toNat 'F' : Int) = 70 := rfl
    rw [c0, c9, ca, cf, cA, cF]
    exact is_hex_eq_one_iff num
  · intro source destination size bytes hs
    obtain ⟨n, rfl⟩ := Int.eq_ofNat_of_zero_le hs
    obtain ⟨r1, r2⟩ := string_to_byte_ret source destination n bytes
    refine ⟨?_, r2, ?_, ?_⟩
    · rw [r1]
      constructor
      · rintro (h | ⟨i, hi, hb⟩)
        · exact Or.inl (by omega)
        · exact Or.inr ⟨i, by exact_mod_cast hi, (is_hex_eq_zero_iff _).mpr hb⟩
      · rintro (h | ⟨i, hi, hb⟩)
        · exact Or.inl (by omega)
        · exact Or.inr ⟨i, by exact_mod_cast hi, (is_hex_eq_zero_iff _).mp hb⟩
    · intro h
      apply string_to_byte_untouched
      rcases h with h | h
      · exact Or.inl (by omega)
      · exact Or.inr ((is_hex_eq_zero_iff _).mp h)
    · intro p he hlt hp hmin
      obtain ⟨m, hm | hm⟩ := Nat.even_or_odd' n
      · subst hm
        obtain ⟨_, q2, q3, _⟩ := string_to_byte_first_bad source destination m bytes p
          (by exact_mod_cast hlt) ((is_hex_eq_zero_iff _).mp hp) hmin
        exact ⟨q2, q3⟩
      · omega

/-- Claim C35, witness: the amended claim at the four characters `85g0`, whose first
character that is no digit is at index 2. -/
theorem string_to_byte_einval_iff_witness :
    (0 : Int) ≤ 4 ∧ (4 : Int) % 2 = 0 ∧ ((2 : Nat) : Int) < 4 ∧
    is_hex (c_string "85g0" 2) = 0 ∧ (∀ j, j < 2 → is_hex (c_string "85g0" j) = 1) ∧
    (∀ k, (2 + 1) / 2 ≤ k →
      (string_to_byte (c_string "85g0") (fun _ => 0) 4 0).1 k = 0) ∧
    (∀ k, 2 * k + 1 < 2 →
      (string_to_byte (c_string "85g0") (fun _ => 0) 4 0).1 k
        = 16 * hexval (c_string "85g0" (2 * k)) + hexval (c_string "85g0" (2 * k + 1))) :=
  ⟨by decide, by decide, by decide, by decide, by decide,
    (string_to_byte_einval_iff.2 (c_string "85g0") (fun _ => 0) 4 0 (by decide)).2.2.2 2
      (by decide) (by decide) (by decide) (by decide)⟩

end RockpiMcu
